import Mathlib

/-!
A shallow embedding of `src/ntrcard.cpp` of flashcart_core (the NTR card KEY1/KEY2
handshake) and theorems about it.

Conventions of the embedding.
* `uint8_t`, `uint16_t`, `uint32_t` and `uint64_t` values are natural numbers; where the
  C++ arithmetic can wrap (additions, left shifts of 32-bit values, `++`) the wrap is
  written out as `% 2 ^ 32` or `% 2 ^ 64`.  XOR, AND, OR and right shifts never leave the
  width of their operands and carry no reduction.
* The host is little-endian (the code reinterprets a `uint64_t` as two `uint32_t` and as
  eight bytes): word 0 / byte 0 is the least significant one.
* One read is left to the build.  `key1_cmdf` has `blowfish_encrypt` work on its
  `uint64_t cmd` through a `uint32_t` pointer and then reads `cmd` again; whether that
  read sees the encrypted word is not fixed by the language, and is a field of the
  platform record (`cmdAfterEncrypt`).
* `state` (the global `ntrcard::State`) is passed explicitly.  The platform layer
  (`platform.h`, not part of this file) is a record of functions over an abstract world
  `W`; every call to it other than `logMessage` is appended to a trace.
-/

namespace flashcart_core

/-! ## Macros -/

/-- The macro `BSWAP32(val)`. -/
def BSWAP32 (val : Nat) : Nat :=
  ((val >>> 24) &&& 0xFF) ||| (((val >>> 16) &&& 0xFF) <<< 8) |||
    (((val >>> 8) &&& 0xFF) <<< 16) ||| ((val &&& 0xFF) <<< 24)

/-- The macro `BSWAP64(val)`. -/
def BSWAP64 (val : Nat) : Nat :=
  ((val >>> 56) &&& 0xFF) ||| (((val >>> 48) &&& 0xFF) <<< 8) |||
    (((val >>> 40) &&& 0xFF) <<< 16) ||| (((val >>> 32) &&& 0xFF) <<< 24) |||
    (((val >>> 24) &&& 0xFF) <<< 32) ||| (((val >>> 16) &&& 0xFF) <<< 40) |||
    (((val >>> 8) &&& 0xFF) <<< 48) ||| ((val &&& 0xFF) <<< 56)

def ROMCNT_SEC_LARGE : Nat := 1 <<< 28
def ROMCNT_CLK_SLOW : Nat := 1 <<< 27
def ROMCNT_SEC_CMD : Nat := 1 <<< 22
def ROMCNT_DELAY2 (n : Nat) : Nat := (n &&& 0x3F) <<< 16
def ROMCNT_DELAY2_MASK : Nat := ROMCNT_DELAY2 0x3F
def ROMCNT_SEC_EN : Nat := 1 <<< 14
def ROMCNT_SEC_DAT : Nat := 1 <<< 13
def ROMCNT_DELAY1 (n : Nat) : Nat := n &&& 0x1FFF
def ROMCNT_DELAY1_MASK : Nat := ROMCNT_DELAY1 0x1FFF

def CMD_RAW_DUMMY : Nat := 0x9F
def CMD_RAW_HEADER_READ : Nat := 0x00
def CMD_RAW_CHIPID : Nat := 0x90
def CMD_RAW_ACTIVATE_KEY1 : Nat := 0x3C
def CMD_KEY1_INIT_KEY2 : Nat := 0x4
def CMD_KEY1_CHIPID : Nat := 0x1
def CMD_KEY1_SECURE_READ : Nat := 0x2
def CMD_KEY1_ACTIVATE_KEY2 : Nat := 0xA
def CMD_KEY2_DATA_READ : Nat := 0xB7
def CMD_KEY2_CHIPID : Nat := 0xB8

/-- Modelled from the spec: `BLOWFISH_P_N`, declared in `ntrcard.h` (absent); the spec
gives an 18-entry permutation array. -/
def BLOWFISH_P_N : Nat := 18

/-- Modelled from the spec: `BLOWFISH_PS_N`, declared in `ntrcard.h` (absent); the spec
gives an 18-entry permutation array followed by four 256-entry substitution arrays. -/
def BLOWFISH_PS_N : Nat := 18 + 4 * 256

/-! ## Loops -/

/-- The loop `for (i = lo; i < lo + n; ++i) s = body i s`. -/
def forUp {σ : Type} (body : Nat → σ → σ) : Nat → Nat → σ → σ
  | 0, _, s => s
  | n + 1, lo, s => forUp body n (lo + 1) (body lo s)

/-- The loop `for (i = hi; i > lo; --i) s = body i s`. -/
def forDown {σ : Type} (body : Nat → σ → σ) (lo : Nat) : Nat → σ → σ
  | 0, s => s
  | hi + 1, s => if hi + 1 > lo then forDown body lo hi (body (hi + 1) s) else s

/-- The loop `for (i = lo; i < hi; i += 2) s = body i s`; `fuel` bounds the number of
iterations. -/
def forStep2 {σ : Type} (body : Nat → σ → σ) (hi : Nat) : Nat → Nat → σ → σ
  | 0, _, s => s
  | fuel + 1, i, s => if i < hi then forStep2 body hi fuel (i + 2) (body i s) else s

/-! ## Blowfish -/

/-- An element `ps[i]` of the P/S table. -/
def rd (ps : List Nat) (i : Nat) : Nat := ps.getD i 0

/-- The four table lookups of one round, combined (assign, add, xor, add) in 32-bit
arithmetic. -/
def blowfish_f (ps : List Nat) (z : Nat) : Nat :=
  let x := rd ps (0x012 + ((z >>> 24) &&& 0xFF))
  let x := (rd ps (0x112 + ((z >>> 16) &&& 0xFF)) + x) % 2 ^ 32
  let x := rd ps (0x212 + ((z >>> 8) &&& 0xFF)) ^^^ x
  let x := (rd ps (0x312 + ((z >>> 0) &&& 0xFF)) + x) % 2 ^ 32
  x

/-- The body of the round loop shared by `blowfish_encrypt` and `blowfish_decrypt`; the
loop state is `(x, y)`. -/
def blowfish_round (ps : List Nat) (i : Nat) (xy : Nat × Nat) : Nat × Nat :=
  let z := rd ps i ^^^ xy.1
  let x := blowfish_f ps z
  let x := xy.2 ^^^ x
  (x, z)

/-- The function `blowfish_encrypt(ps, lr)`; a block is the pair `(lr[0], lr[1])`. -/
def blowfish_encrypt (ps : List Nat) (lr : Nat × Nat) : Nat × Nat :=
  let xy := forUp (blowfish_round ps) 0x10 0 (lr.2, lr.1)
  (xy.1 ^^^ rd ps 0x10, xy.2 ^^^ rd ps 0x11)

/-- The function `blowfish_decrypt(ps, lr)`. -/
def blowfish_decrypt (ps : List Nat) (lr : Nat × Nat) : Nat × Nat :=
  let xy := forDown (blowfish_round ps) 1 0x11 (lr.2, lr.1)
  (xy.1 ^^^ rd ps 1, xy.2 ^^^ rd ps 0)

/-- The whitening-and-swap that joins the round loop of one direction to the round loop
of the other (the last two statements of one function followed by the first two of the
other). -/
def whiten (a b : Nat) (xy : Nat × Nat) : Nat × Nat := (xy.2 ^^^ b, xy.1 ^^^ a)

/-- The function `blowfish_apply_key(ps, key)`: returns the table and the key, both of
which it updates in place.  `key` has three entries. -/
def blowfish_apply_key (ps : List Nat) (key : List Nat) : List Nat × List Nat :=
  let scratch : Nat × Nat := (0, 0)
  let e := blowfish_encrypt ps (rd key 1, rd key 2)
  let key := (key.set 1 e.1).set 2 e.2
  let e := blowfish_encrypt ps (rd key 0, rd key 1)
  let key := (key.set 0 e.1).set 1 e.2
  let ps := forUp (fun i ps => ps.set i (rd ps i ^^^ BSWAP32 (rd key (i % 2)))) BLOWFISH_P_N 0 ps
  let r := forStep2
    (fun i (st : List Nat × (Nat × Nat)) =>
      let scratch := blowfish_encrypt st.1 st.2
      ((st.1.set i scratch.2).set (i + 1) scratch.1, scratch))
    BLOWFISH_PS_N BLOWFISH_PS_N 0 (ps, scratch)
  (r.1, key)

/-- The 64-bit word `cmd` after `blowfish_encrypt(ps, reinterpret_cast<uint32_t *>(&cmd))`,
when the loads and stores the function makes through the `uint32_t` pointer act on the
bytes of `cmd`: `lr[0]` is the low half and `lr[1]` the high half (little-endian). -/
def encrypt_in_place (ps : List Nat) (cmd : Nat) : Nat :=
  let lr := blowfish_encrypt ps (cmd &&& 0xFFFFFFFF, cmd >>> 32)
  lr.1 ||| (lr.2 <<< 32)

/-! ## State, platform and trace -/

/-- The enumeration `ntrcard::Status`. -/
inductive Status
  | UNKNOWN
  | RAW
  | KEY1
  | KEY2
  deriving DecidableEq, Repr

/-- The enumeration `ntrcard::BlowfishKey`: the derived selector `NTR` and the selectors of the constant
tables, which this file only hands on to the platform. -/
inductive BlowfishKey
  | NTR
  | other (n : Nat)
  deriving DecidableEq, Repr

/-- The record `ntrcard::State`; the widths of its fields are those of the values the
source assigns to them. -/
structure State where
  status : Status
  chipid : Nat
  key1_chipid : Nat
  key2_chipid : Nat
  game_code : Nat
  hdr_key1_romcnt : Nat
  hdr_key2_romcnt : Nat
  key1_romcnt : Nat
  key2_romcnt : Nat
  key1_ps : List Nat
  key1_key : List Nat
  key1_k : Nat
  key1_ij : Nat
  key1_l : Nat
  key2_seed : Nat
  key2_mn : Nat
  key2_y : Nat
  key2_x : Nat
  deriving DecidableEq, Repr

/-- The response buffers this file passes to `sendCommand`: `nullptr`, the local `hdr` of
`read_header`, and the three chip-id fields of `state`. -/
inductive RespPtr
  | null
  | hdr
  | chipid
  | key1_chipid
  | key2_chipid
  deriving DecidableEq, Repr

inductive LogLevel
  | LOG_ERR
  | LOG_DEBUG
  deriving DecidableEq, Repr

/-- The messages this file logs, with their arguments. -/
inductive LogMsg
  | sending_key1_cmd (cmd : Nat)
  | seed_key2 (x y : Nat)
  | resetCard_failed (reset_result : Nat)
  | reinit_without_reset (status : Status)
  | cart_init (chipid game_code hdr_key1_romcnt hdr_key2_romcnt key2_seed : Nat)
  | key1_no_key2_support
  | key1_not_raw (status : Status)
  | key1_mismatching_chipid (chipid key1_chipid : Nat)
  | key2_no_key2_support
  | key2_not_key1 (status : Status)
  | key2_mismatching_chipid (chipid key2_chipid : Nat)
  deriving DecidableEq, Repr

/-- What `platform::sendCommand` does: the new world, the bytes it leaves in the response
buffer (`data i` is byte `i`, taken modulo 256) and its return value. -/
structure SendResult (W : Type) where
  world : W
  data : Nat → Nat
  ok : Bool

/-- The declarations this file takes from `platform.h` and `ntrcard.h`, neither of which
is part of the source: the capability constants, the numeric values of the enumerators
of `Status` (used by `state.status > Status::RAW`), and the platform functions as
transitions of an abstract world `W`.

The record also carries the one thing the source leaves to the build.  `key1_cmdf` calls
`blowfish_encrypt(state.key1_ps, reinterpret_cast<uint32_t *>(&cmd))` on a `uint64_t cmd`
and then reads `cmd` again.  The accesses through the `uint32_t` pointer do not have the
type of `cmd`, so the language does not say what that read sees: a build may let it see
the encrypted word (`encrypt_in_place`), or the word stored before the call.
`cmdAfterEncrypt ps cmd` is the value the read sees, for the table `ps` and the word `cmd`
stored before the call. -/
structure Platform (W : Type) where
  HAS_HW_KEY2 : Bool
  CAN_RESET : Bool
  INITIAL_ENCRYPTION : Status
  statusValue : Status → Nat
  cmdAfterEncrypt : List Nat → Nat → Nat
  sendCommand : W → List Nat → Nat → RespPtr → Nat → SendResult W
  resetCard : W → W × Nat
  ioDelay : W → Nat → W
  initBlowfishPS : W → List Nat → BlowfishKey → W × List Nat
  initKey2Seed : W → Nat → Nat → W
  logMessage : W → LogLevel → LogMsg → W

/-- Modelled from the spec: the order of the enumerators of `Status`, declared in
`ntrcard.h` (absent); the spec lists the enumeration as UNKNOWN, RAW, KEY1, KEY2. -/
def specStatusValue : Status → Nat
  | Status.UNKNOWN => 0
  | Status.RAW => 1
  | Status.KEY1 => 2
  | Status.KEY2 => 3

/-- A call to the platform, as recorded in the trace, with what it returned. -/
inductive Call
  | sendCommand (cmdbuf : List Nat) (response_len : Nat) (resp : RespPtr) (flags : Nat)
      (response : List Nat) (ok : Bool)
  | resetCard (result : Nat)
  | ioDelay (n : Nat)
  | initBlowfishPS (key : BlowfishKey)
  | initKey2Seed (x y : Nat)
  deriving DecidableEq, Repr

/-- The global `state`, the world of the platform, and the platform calls made so far. -/
structure Machine (W : Type) where
  state : State
  world : W
  trace : List Call

/-- The result of a function that returns `bool`. -/
structure Ret (W : Type) where
  ret : Bool
  machine : Machine W

/-- The result of `ntrcard::sendCommand`: the machine, the bytes delivered into the
response buffer, and the returned `bool`. -/
structure Sent (W : Type) where
  machine : Machine W
  bytes : List Nat
  ret : Bool

/-- Byte `i` of `v`. -/
def byteAt (v i : Nat) : Nat := (v >>> (8 * i)) &&& 0xFF

/-- The eight bytes of a `uint64_t` in memory. -/
def bytesLE64 (cmd : Nat) : List Nat := (List.range 8).map (byteAt cmd)

/-- The first `response_len` bytes of the response buffer after an exchange. -/
def respBytes (response_len : Nat) (data : Nat → Nat) : List Nat :=
  (List.range response_len).map (fun i => data i % 256)

/-- The load `*reinterpret_cast<uint32_t *>(buf + off)`. -/
def load32 (buf : List Nat) (off : Nat) : Nat :=
  buf.getD off 0 ||| (buf.getD (off + 1) 0 <<< 8) ||| (buf.getD (off + 2) 0 <<< 16) |||
    (buf.getD (off + 3) 0 <<< 24)

/-- A `uint32_t` after `bytes` have been written over its first bytes. -/
def store32 (old : Nat) (bytes : List Nat) : Nat :=
  bytes.getD 0 (byteAt old 0) ||| (bytes.getD 1 (byteAt old 1) <<< 8) |||
    (bytes.getD 2 (byteAt old 2) <<< 16) ||| (bytes.getD 3 (byteAt old 3) <<< 24)

/-- The effect on `state` of the platform writing `bytes` through the pointer `resp`. -/
def writeResp (resp : RespPtr) (bytes : List Nat) (s : State) : State :=
  match resp with
  | RespPtr.null => s
  | RespPtr.hdr => s
  | RespPtr.chipid => { s with chipid := store32 s.chipid bytes }
  | RespPtr.key1_chipid => { s with key1_chipid := store32 s.key1_chipid bytes }
  | RespPtr.key2_chipid => { s with key2_chipid := store32 s.key2_chipid bytes }

/-- A call `platform::logMessage(level, ...)`. -/
def logMessage {W : Type} (P : Platform W) (level : LogLevel) (msg : LogMsg) (m : Machine W) :
    Machine W :=
  { m with world := P.logMessage m.world level msg }

/-! ## OpFlags -/

/-- Modelled from the spec: `OpFlags::key2_command(bool)`, declared in `ntrcard.h`
(absent); the spec puts the command-is-encrypted field at bit 22. -/
def OpFlags.key2_command (flags : Nat) (value : Bool) : Nat :=
  (flags &&& (0xFFFFFFFF ^^^ ROMCNT_SEC_CMD)) ||| (if value then ROMCNT_SEC_CMD else 0)

/-- Modelled from the spec: `OpFlags::key2_response(bool)`, declared in `ntrcard.h`
(absent); the spec puts the response-encrypted and security-enable field at
bits 13-14. -/
def OpFlags.key2_response (flags : Nat) (value : Bool) : Nat :=
  (flags &&& (0xFFFFFFFF ^^^ (ROMCNT_SEC_EN ||| ROMCNT_SEC_DAT))) |||
    (if value then ROMCNT_SEC_EN ||| ROMCNT_SEC_DAT else 0)

/-! ## ntrcard -/

/-- The function `ntrcard::sendCommand(const uint8_t *cmdbuf, uint16_t response_len, uint8_t *resp,
OpFlags flags)`. -/
def sendCommand {W : Type} (P : Platform W) (cmdbuf : List Nat) (response_len : Nat)
    (resp : RespPtr) (flags : Nat) (m : Machine W) : Sent W :=
  let flags :=
    if m.state.status = Status.KEY2 then
      OpFlags.key2_response (OpFlags.key2_command flags true) true
    else flags
  let r := P.sendCommand m.world cmdbuf response_len resp flags
  let bytes := respBytes response_len r.data
  { machine :=
      { state := writeResp resp bytes m.state
        world := r.world
        trace := m.trace ++ [Call.sendCommand cmdbuf response_len resp flags bytes r.ok] }
    bytes := bytes
    ret := r.ok }

/-- The overload `ntrcard::sendCommand(const uint64_t cmd, uint16_t response_len, uint8_t *resp,
OpFlags flags)`. -/
def sendCommand64 {W : Type} (P : Platform W) (cmd : Nat) (response_len : Nat)
    (resp : RespPtr) (flags : Nat) (m : Machine W) : Sent W :=
  sendCommand P (bytesLE64 cmd) response_len resp flags m

/-- The function `init_blowfish(key)`. -/
def init_blowfish {W : Type} (P : Platform W) (key : BlowfishKey) (m : Machine W) : Machine W :=
  if key ≠ BlowfishKey.NTR then
    let r := P.initBlowfishPS m.world m.state.key1_ps key
    { state := { m.state with key1_ps := r.2 }
      world := r.1
      trace := m.trace ++ [Call.initBlowfishPS key] }
  else
    let s := m.state
    let s := { s with
      key1_key := [s.game_code, s.game_code >>> 1, (s.game_code <<< 1) % 2 ^ 32] }
    let r := P.initBlowfishPS m.world s.key1_ps BlowfishKey.NTR
    let s := { s with key1_ps := r.2 }
    let a := blowfish_apply_key s.key1_ps s.key1_key
    let s := { s with key1_ps := a.1, key1_key := a.2 }
    let a := blowfish_apply_key s.key1_ps s.key1_key
    let s := { s with key1_ps := a.1, key1_key := a.2 }
    { state := s
      world := r.1
      trace := m.trace ++ [Call.initBlowfishPS BlowfishKey.NTR] }

/-- The function `read_header()`. -/
def read_header {W : Type} (P : Platform W) (m : Machine W) : Machine W :=
  let r := sendCommand64 P CMD_RAW_HEADER_READ 0x1000 RespPtr.hdr
    (ROMCNT_CLK_SLOW ||| ROMCNT_DELAY2 0x18) m
  let hdr := r.bytes
  let m := r.machine
  let s := m.state
  let s := { s with game_code := load32 hdr 0xC }
  let s := { s with key1_romcnt := load32 hdr 0x64, hdr_key1_romcnt := load32 hdr 0x64 }
  let s := { s with key2_romcnt := load32 hdr 0x60, hdr_key2_romcnt := load32 hdr 0x60 }
  let s := { s with key2_seed := hdr.getD 0x13 0 }
  { m with state := s }

/-- The plaintext command word `cmd` that `key1_cmdf` builds, before `BSWAP64`. -/
def key1_plain (cmdarg arg ij k : Nat) : Nat :=
  ((cmdarg &&& 0xF) <<< 4) |||
    ((arg &&& 0xF000) >>> 12) ||| ((arg &&& 0xFF0) <<< 4) ||| ((arg &&& 0xF) <<< 20) |||
    ((ij &&& 0xF00000) >>> 4) ||| ((ij &&& 0xFF000) <<< 12) ||| ((ij &&& 0xFF0) <<< 28) |||
    ((ij &&& 0xF) <<< 44) ||| ((k &&& 0xF0000) <<< 24) ||| ((k &&& 0xFF00) <<< 40) |||
    ((k &&& 0xFF) <<< 56)

/-- The word `key1_cmdf` hands to `sendCommand`: the plaintext word byte-swapped, then
`cmd` as it is read after the call
`blowfish_encrypt(state.key1_ps, reinterpret_cast<uint32_t *>(&cmd))`, byte-swapped back.
What that read sees is the build's `cmdAfterEncrypt`; it is `encrypt_in_place ps cmd` on
a build where the stores through the `uint32_t` pointer reach it. -/
def key1_wire {W : Type} (P : Platform W) (ps : List Nat) (cmdarg arg ij k : Nat) : Nat :=
  let cmd := BSWAP64 (key1_plain cmdarg arg ij k)
  let cmd := P.cmdAfterEncrypt ps cmd
  BSWAP64 cmd

/-- The function `key1_cmdf(cmdarg, size, dest, arg, ij, flags)`; `size` is narrowed to the
`uint16_t response_len` of `sendCommand`. -/
def key1_cmdf {W : Type} (P : Platform W) (cmdarg size : Nat) (dest : RespPtr)
    (arg ij flags : Nat) (m : Machine W) : Machine W :=
  let k := m.state.key1_k
  let m := { m with state := { m.state with key1_k := (m.state.key1_k + 1) % 2 ^ 32 } }
  let m := logMessage P LogLevel.LOG_DEBUG
    (LogMsg.sending_key1_cmd (BSWAP64 (key1_plain cmdarg arg ij k))) m
  (sendCommand64 P (key1_wire P m.state.key1_ps cmdarg arg ij k) (size % 2 ^ 16) dest flags
    m).machine

/-- The function `key1_cmd(cmdarg, size, dest)`. -/
def key1_cmd {W : Type} (P : Platform W) (cmdarg size : Nat) (dest : RespPtr) (m : Machine W) :
    Machine W :=
  key1_cmdf P cmdarg size dest m.state.key1_l m.state.key1_ij m.state.key1_romcnt m

def seed_bytes : List Nat := [0xE8, 0x4D, 0x5A, 0xB1, 0x17, 0x8F, 0x99, 0xD5]

/-- The function `seed_key2_registers()`. -/
def seed_key2_registers {W : Type} (P : Platform W) (m : Machine W) : Machine W :=
  let s := m.state
  let s := { s with
    key2_x := (rd seed_bytes (s.key2_seed &&& 7) + (s.key2_mn <<< 15) % 2 ^ 64 + 0x6000) % 2 ^ 64 }
  let s := { s with key2_y := 0x5c879b9b05 }
  let m := { m with state := s }
  let m := logMessage P LogLevel.LOG_DEBUG (LogMsg.seed_key2 s.key2_x s.key2_y) m
  if P.HAS_HW_KEY2 then
    { m with
      world := P.initKey2Seed m.world s.key2_x s.key2_y
      trace := m.trace ++ [Call.initKey2Seed s.key2_x s.key2_y] }
  else m

/-- The guard at the head of `init()`: `Except.error` is its `return false`. -/
def init_guard {W : Type} (P : Platform W) (m : Machine W) : Except (Machine W) (Machine W) :=
  if P.CAN_RESET then
    let r := P.resetCard m.world
    let reset_result := r.2
    let m := { m with world := r.1, trace := m.trace ++ [Call.resetCard reset_result] }
    if reset_result ≠ 0 then
      Except.error (logMessage P LogLevel.LOG_ERR (LogMsg.resetCard_failed reset_result) m)
    else
      Except.ok { m with state := { m.state with status := Status.RAW } }
  else if P.statusValue m.state.status > P.statusValue Status.RAW then
    Except.error (logMessage P LogLevel.LOG_ERR (LogMsg.reinit_without_reset m.state.status) m)
  else
    Except.ok m

/-- The function `ntrcard::init()`. -/
def init {W : Type} (P : Platform W) (m : Machine W) : Ret W :=
  match init_guard P m with
  | Except.error m => { ret := false, machine := m }
  | Except.ok m =>
    let m := (sendCommand64 P CMD_RAW_DUMMY 0x2000 RespPtr.null
      (ROMCNT_CLK_SLOW ||| ROMCNT_DELAY2 0x18) m).machine
    let m := { m with world := P.ioDelay m.world 0x40000, trace := m.trace ++ [Call.ioDelay 0x40000] }
    let m := (sendCommand64 P CMD_RAW_CHIPID 4 RespPtr.chipid
      (ROMCNT_CLK_SLOW ||| ROMCNT_DELAY2 0x18) m).machine
    let m := read_header P m
    let m := logMessage P LogLevel.LOG_DEBUG
      (LogMsg.cart_init m.state.chipid m.state.game_code m.state.hdr_key1_romcnt
        m.state.hdr_key2_romcnt m.state.key2_seed) m
    { ret := true, machine := m }

/-- The raw activation word of `initKey1`. -/
def activate_key1_word (ij k : Nat) : Nat :=
  CMD_RAW_ACTIVATE_KEY1 |||
    ((ij &&& 0xFF0000) >>> 8) ||| ((ij &&& 0xFF00) <<< 8) ||| ((ij &&& 0xFF) <<< 24) |||
    ((k &&& 0xF0000) <<< 16) ||| ((k &&& 0xFF00) <<< 32) ||| ((k &&& 0xFF) <<< 48)

/-- The function `ntrcard::initKey1(key)`. -/
def initKey1 {W : Type} (P : Platform W) (key : BlowfishKey) (m : Machine W) : Ret W :=
  if !P.HAS_HW_KEY2 then
    { ret := false, machine := logMessage P LogLevel.LOG_ERR LogMsg.key1_no_key2_support m }
  else if m.state.status ≠ Status.RAW then
    { ret := false
      machine := logMessage P LogLevel.LOG_ERR (LogMsg.key1_not_raw m.state.status) m }
  else
    let m := { m with state := { m.state with key2_mn := 0xC99ACE } }
    let m := { m with state := { m.state with key1_ij := 0x11A473 } }
    let m := { m with state := { m.state with key1_k := 0x39D46 } }
    let m := { m with state := { m.state with key1_l := 0 } }
    let m := init_blowfish P key m
    let m := (sendCommand64 P (activate_key1_word m.state.key1_ij m.state.key1_k) 0 RespPtr.null
      (m.state.key2_romcnt &&& (ROMCNT_CLK_SLOW ||| ROMCNT_DELAY2_MASK ||| ROMCNT_DELAY1_MASK))
      m).machine
    let m := { m with state := { m.state with
      key1_romcnt := (m.state.key2_romcnt &&& ROMCNT_CLK_SLOW) |||
        (((m.state.hdr_key1_romcnt &&& (ROMCNT_CLK_SLOW ||| ROMCNT_DELAY1_MASK)) +
          ((m.state.hdr_key1_romcnt &&& ROMCNT_DELAY2_MASK) >>> 16)) % 2 ^ 32) |||
        ROMCNT_SEC_LARGE } }
    let m := key1_cmdf P CMD_KEY1_INIT_KEY2 0 RespPtr.null m.state.key1_l m.state.key2_mn
      m.state.key1_romcnt m
    let m := seed_key2_registers P m
    let m := { m with state := { m.state with
      key1_romcnt := m.state.key1_romcnt ||| (ROMCNT_SEC_EN ||| ROMCNT_SEC_DAT) } }
    let m := key1_cmd P CMD_KEY1_CHIPID 4 RespPtr.key1_chipid m
    if m.state.key1_chipid ≠ m.state.chipid then
      let m := logMessage P LogLevel.LOG_ERR
        (LogMsg.key1_mismatching_chipid m.state.chipid m.state.key1_chipid) m
      { ret := false, machine := { m with state := { m.state with status := Status.UNKNOWN } } }
    else
      { ret := true, machine := { m with state := { m.state with status := Status.KEY1 } } }

/-- The function `ntrcard::initKey2()`. -/
def initKey2 {W : Type} (P : Platform W) (m : Machine W) : Ret W :=
  if !P.HAS_HW_KEY2 then
    { ret := false, machine := logMessage P LogLevel.LOG_ERR LogMsg.key2_no_key2_support m }
  else if m.state.status ≠ Status.KEY1 then
    { ret := false
      machine := logMessage P LogLevel.LOG_ERR (LogMsg.key2_not_key1 m.state.status) m }
  else
    let m := key1_cmd P CMD_KEY1_ACTIVATE_KEY2 0 RespPtr.null m
    let m := { m with state := { m.state with
      key2_romcnt := m.state.hdr_key2_romcnt &&&
        (ROMCNT_CLK_SLOW ||| ROMCNT_SEC_CMD ||| ROMCNT_DELAY2_MASK |||
          ROMCNT_SEC_EN ||| ROMCNT_SEC_DAT ||| ROMCNT_DELAY1_MASK) } }
    let m := (sendCommand64 P CMD_KEY2_CHIPID 4 RespPtr.key2_chipid m.state.key2_romcnt m).machine
    if m.state.key2_chipid ≠ m.state.chipid then
      let m := logMessage P LogLevel.LOG_ERR
        (LogMsg.key2_mismatching_chipid m.state.chipid m.state.key2_chipid) m
      { ret := false, machine := { m with state := { m.state with status := Status.UNKNOWN } } }
    else
      { ret := true, machine := { m with state := { m.state with status := Status.KEY2 } } }

/-- The constructor of the static object `_`: the state at start-up is any state whose
`status` has been set to `platform::INITIAL_ENCRYPTION`. -/
def static_init {W : Type} (P : Platform W) (s : State) : State :=
  { s with status := P.INITIAL_ENCRYPTION }

/-- A P/S table as the C++ type has it: `BLOWFISH_PS_N` entries, each a `uint32_t`. -/
def IsPSTable (ps : List Nat) : Prop := ps.length = BLOWFISH_PS_N ∧ ∀ x ∈ ps, x < 2 ^ 32

/-- The 64-bit blocks: pairs of `uint32_t`. -/
def Block64 : Set (Nat × Nat) := {lr | lr.1 < 2 ^ 32 ∧ lr.2 < 2 ^ 32}

/-- Bits `lo .. lo + n - 1` of `x`. -/
def bitField (x lo n : Nat) : Nat := (x >>> lo) % 2 ^ n

/-- The layout of the plaintext command word `w` as the specification lists it byte by
byte (byte 0 least significant). -/
def SpecKey1Layout (w cmdSelector arg ij k : Nat) : Prop :=
  bitField (byteAt w 0) 4 4 = bitField cmdSelector 0 4 ∧
  bitField (byteAt w 0) 0 4 = bitField arg 12 4 ∧
  byteAt w 1 = bitField arg 4 8 ∧
  bitField (byteAt w 2) 0 4 = bitField arg 0 4 ∧
  bitField (byteAt w 2) 4 4 = bitField ij 20 4 ∧
  byteAt w 3 = bitField ij 12 8 ∧
  byteAt w 4 = bitField ij 4 8 ∧
  bitField (byteAt w 5) 0 4 = bitField ij 0 4 ∧
  bitField (byteAt w 5) 4 4 = bitField k 16 4 ∧
  byteAt w 6 = bitField k 8 8 ∧
  byteAt w 7 = bitField k 0 8

/-! ## The phases of `initKey1` and `initKey2`

The bodies above, cut at the chip-id read, so that the theorems can name the machine
before the read and the comparison after it. -/

/-- The statements of `initKey1` between its guards and its chip-id read. -/
def initKey1_setup {W : Type} (P : Platform W) (key : BlowfishKey) (m : Machine W) : Machine W :=
  let m := { m with state := { m.state with key2_mn := 0xC99ACE } }
  let m := { m with state := { m.state with key1_ij := 0x11A473 } }
  let m := { m with state := { m.state with key1_k := 0x39D46 } }
  let m := { m with state := { m.state with key1_l := 0 } }
  let m := init_blowfish P key m
  let m := (sendCommand64 P (activate_key1_word m.state.key1_ij m.state.key1_k) 0 RespPtr.null
    (m.state.key2_romcnt &&& (ROMCNT_CLK_SLOW ||| ROMCNT_DELAY2_MASK ||| ROMCNT_DELAY1_MASK))
    m).machine
  let m := { m with state := { m.state with
    key1_romcnt := (m.state.key2_romcnt &&& ROMCNT_CLK_SLOW) |||
      (((m.state.hdr_key1_romcnt &&& (ROMCNT_CLK_SLOW ||| ROMCNT_DELAY1_MASK)) +
        ((m.state.hdr_key1_romcnt &&& ROMCNT_DELAY2_MASK) >>> 16)) % 2 ^ 32) |||
      ROMCNT_SEC_LARGE } }
  let m := key1_cmdf P CMD_KEY1_INIT_KEY2 0 RespPtr.null m.state.key1_l m.state.key2_mn
    m.state.key1_romcnt m
  let m := seed_key2_registers P m
  { m with state := { m.state with
    key1_romcnt := m.state.key1_romcnt ||| (ROMCNT_SEC_EN ||| ROMCNT_SEC_DAT) } }

/-- The comparison that ends `initKey1`, on the machine after the chip-id read. -/
def initKey1_finish {W : Type} (P : Platform W) (m : Machine W) : Ret W :=
  if m.state.key1_chipid ≠ m.state.chipid then
    let m := logMessage P LogLevel.LOG_ERR
      (LogMsg.key1_mismatching_chipid m.state.chipid m.state.key1_chipid) m
    { ret := false, machine := { m with state := { m.state with status := Status.UNKNOWN } } }
  else
    { ret := true, machine := { m with state := { m.state with status := Status.KEY1 } } }

/-- The statements of `initKey2` between its guards and its chip-id read. -/
def initKey2_setup {W : Type} (P : Platform W) (m : Machine W) : Machine W :=
  let m := key1_cmd P CMD_KEY1_ACTIVATE_KEY2 0 RespPtr.null m
  { m with state := { m.state with
    key2_romcnt := m.state.hdr_key2_romcnt &&&
      (ROMCNT_CLK_SLOW ||| ROMCNT_SEC_CMD ||| ROMCNT_DELAY2_MASK |||
        ROMCNT_SEC_EN ||| ROMCNT_SEC_DAT ||| ROMCNT_DELAY1_MASK) } }

/-- The comparison that ends `initKey2`, on the machine after the chip-id read. -/
def initKey2_finish {W : Type} (P : Platform W) (m : Machine W) : Ret W :=
  if m.state.key2_chipid ≠ m.state.chipid then
    let m := logMessage P LogLevel.LOG_ERR
      (LogMsg.key2_mismatching_chipid m.state.chipid m.state.key2_chipid) m
    { ret := false, machine := { m with state := { m.state with status := Status.UNKNOWN } } }
  else
    { ret := true, machine := { m with state := { m.state with status := Status.KEY2 } } }

/-! ## Sequences of calls -/

/-- A call to one of the public functions of `ntrcard`. -/
inductive Op
  | init
  | initKey1 (key : BlowfishKey)
  | initKey2
  | sendCommand (cmdbuf : List Nat) (response_len : Nat) (resp : RespPtr) (flags : Nat)
  | sendCommand64 (cmd : Nat) (response_len : Nat) (resp : RespPtr) (flags : Nat)

/-- The machine after one call. -/
def step {W : Type} (P : Platform W) (op : Op) (m : Machine W) : Machine W :=
  match op with
  | Op.init => (init P m).machine
  | Op.initKey1 key => (initKey1 P key m).machine
  | Op.initKey2 => (initKey2 P m).machine
  | Op.sendCommand cmdbuf response_len resp flags =>
    (sendCommand P cmdbuf response_len resp flags m).machine
  | Op.sendCommand64 cmd response_len resp flags =>
    (sendCommand64 P cmd response_len resp flags m).machine

/-- The machine after a sequence of calls. -/
def run {W : Type} (P : Platform W) (ops : List Op) (m : Machine W) : Machine W :=
  ops.foldl (fun m op => step P op m) m

/-! ## A simulated platform

Used to instantiate the theorems at concrete inputs. -/

/-- A platform over the trivial world: every response buffer is filled with the bytes
`answer`, `resetCard` returns `resetCode`, and `initBlowfishPS` loads the all-zero
table; the build makes the in-place encryption of `key1_cmdf` visible. -/
def simPlatform (hw reset : Bool) (resetCode : Nat) (answer : Nat → Nat) : Platform Unit where
  HAS_HW_KEY2 := hw
  CAN_RESET := reset
  INITIAL_ENCRYPTION := Status.RAW
  statusValue := specStatusValue
  cmdAfterEncrypt := encrypt_in_place
  sendCommand := fun w _ _ _ _ => { world := w, data := answer, ok := true }
  resetCard := fun w => (w, resetCode)
  ioDelay := fun w _ => w
  initBlowfishPS := fun w _ _ => (w, List.replicate BLOWFISH_PS_N 0)
  initKey2Seed := fun w _ _ => w
  logMessage := fun w _ _ => w

/-- A state with every numeric field zero, an empty table and the given status. -/
def simState (status : Status) : State where
  status := status
  chipid := 0
  key1_chipid := 0
  key2_chipid := 0
  game_code := 0
  hdr_key1_romcnt := 0
  hdr_key2_romcnt := 0
  key1_romcnt := 0
  key2_romcnt := 0
  key1_ps := []
  key1_key := [0, 0, 0]
  key1_k := 0
  key1_ij := 0
  key1_l := 0
  key2_seed := 0
  key2_mn := 0
  key2_y := 0
  key2_x := 0

/-- The machine in `simState status` with an empty trace. -/
def simMachine (status : Status) : Machine Unit where
  state := simState status
  world := ()
  trace := []

/-! ## OpFlags, the remaining accessors -/

/-- Modelled from the spec: `OpFlags::slow_clock(bool)`, declared in `ntrcard.h` (absent);
the spec puts the clock-rate selector at bit 27. -/
def OpFlags.slow_clock (flags : Nat) (value : Bool) : Nat :=
  (flags &&& (0xFFFFFFFF ^^^ ROMCNT_CLK_SLOW)) ||| (if value then ROMCNT_CLK_SLOW else 0)

/-- Modelled from the spec: `OpFlags::large_secure_area_read(bool)`, declared in
`ntrcard.h` (absent); the spec puts the secure-area size mode at bit 28. -/
def OpFlags.large_secure_area_read (flags : Nat) (value : Bool) : Nat :=
  (flags &&& (0xFFFFFFFF ^^^ ROMCNT_SEC_LARGE)) ||| (if value then ROMCNT_SEC_LARGE else 0)

/-- Modelled from the spec: `OpFlags::pre_delay(value)`, declared in `ntrcard.h` (absent);
the spec puts this 13-bit field at bits 0-12. -/
def OpFlags.pre_delay (flags : Nat) (value : Nat) : Nat :=
  (flags &&& (0xFFFFFFFF ^^^ ROMCNT_DELAY1_MASK)) ||| ROMCNT_DELAY1 value

/-- Modelled from the spec: `OpFlags::post_delay(value)`, declared in `ntrcard.h`
(absent); the spec puts this 6-bit field at bits 16-21. -/
def OpFlags.post_delay (flags : Nat) (value : Nat) : Nat :=
  (flags &&& (0xFFFFFFFF ^^^ ROMCNT_DELAY2_MASK)) ||| ROMCNT_DELAY2 value

/-- Modelled from the spec: the getter `OpFlags::key2_command()`, declared in `ntrcard.h`
(absent): bit 22. -/
def OpFlags.get_key2_command (flags : Nat) : Bool := Nat.testBit flags 22

/-- Modelled from the spec: the getter `OpFlags::key2_response()`, declared in
`ntrcard.h` (absent): the two-bit field at bits 13-14, read as set when both bits are. -/
def OpFlags.get_key2_response (flags : Nat) : Bool := Nat.testBit flags 13 && Nat.testBit flags 14

/-- Modelled from the spec: the getter `OpFlags::slow_clock()`, declared in `ntrcard.h`
(absent): bit 27. -/
def OpFlags.get_slow_clock (flags : Nat) : Bool := Nat.testBit flags 27

/-- Modelled from the spec: the getter `OpFlags::large_secure_area_read()`, declared in
`ntrcard.h` (absent): bit 28. -/
def OpFlags.get_large_secure_area_read (flags : Nat) : Bool := Nat.testBit flags 28

/-- Modelled from the spec: the getter `OpFlags::pre_delay()`, declared in `ntrcard.h`
(absent): bits 0-12. -/
def OpFlags.get_pre_delay (flags : Nat) : Nat := flags &&& 0x1FFF

/-- Modelled from the spec: the getter `OpFlags::post_delay()`, declared in `ntrcard.h`
(absent): bits 16-21. -/
def OpFlags.get_post_delay (flags : Nat) : Nat := (flags >>> 16) &&& 0x3F

/-- The machine in state `s` with an empty trace. -/
def simMachineOf (s : State) : Machine Unit where
  state := s
  world := ()
  trace := []

/-- The zero state in status RAW, but with other contents in `key1_ps` and `key1_key`. -/
def simStateDirty : State :=
  { simState Status.RAW with key1_ps := [1, 2, 3], key1_key := [7, 8, 9] }

/-- The table `initKey1` works with: the one `init_blowfish` leaves, called after the four
constants are stored. -/
def initKey1_table {W : Type} (P : Platform W) (key : BlowfishKey) (m : Machine W) : List Nat :=
  let m := { m with state := { m.state with key2_mn := 0xC99ACE } }
  let m := { m with state := { m.state with key1_ij := 0x11A473 } }
  let m := { m with state := { m.state with key1_k := 0x39D46 } }
  let m := { m with state := { m.state with key1_l := 0 } }
  (init_blowfish P key m).state.key1_ps

/-! ## Observing the flags on the wire -/

/-- The flags of a `platform::sendCommand` call in the trace; `none` for the other
platform calls. -/
def callFlags : Call → Option Nat
  | Call.sendCommand _ _ _ flags _ _ => some flags
  | _ => none

/-- The flags of the `platform::sendCommand` calls of a trace, in order. -/
def sentFlags (trace : List Call) : List Nat :=
  trace.filterMap callFlags

/-- The KEY1 working register as the specification words it: the clock bit of the
header's KEY2 snapshot, the sum of the two delay fields of the header's KEY1 snapshot,
and the large-secure-area bit. -/
def specKey1Romcnt (hdr_key1_romcnt hdr_key2_romcnt : Nat) : Nat :=
  (hdr_key2_romcnt &&& ROMCNT_CLK_SLOW) |||
    (((hdr_key1_romcnt &&& ROMCNT_DELAY1_MASK) +
      ((hdr_key1_romcnt &&& ROMCNT_DELAY2_MASK) >>> 16)) % 2 ^ 32) |||
    ROMCNT_SEC_LARGE

/-- The zero state in status RAW with the clock bit set in the header's KEY1 snapshot, as
`init` leaves it for a header with 0x08000000 at offset 0x64 and 0 at offset 0x60. -/
def simStateKey1Clock : State :=
  { simState Status.RAW with hdr_key1_romcnt := 0x08000000, key1_romcnt := 0x08000000 }

/-! ## Decoding the KEY1 wire word -/

/-- The zero state in status KEY1 holding the all-zero table of `BLOWFISH_PS_N` entries. -/
def simStateTable : State :=
  { simState Status.KEY1 with key1_ps := List.replicate BLOWFISH_PS_N 0 }

/-- The simulated platform on a build where the read of `cmd` that follows the in-place
encryption in `key1_cmdf` sees the word stored before the call. -/
def simPlatformStale : Platform Unit :=
  { simPlatform true true 0 (fun _ => 0) with cmdAfterEncrypt := fun _ cmd => cmd }

/-! ## Bounds-checked table accesses -/

/-- A read `ps[i]` that fails outside the table. -/
def rdChecked (ps : List Nat) (i : Nat) : Option Nat :=
  if i < ps.length then some (rd ps i) else none

/-- A write `ps[i] = v` that fails outside the table. -/
def wrChecked (ps : List Nat) (i v : Nat) : Option (List Nat) :=
  if i < ps.length then some (ps.set i v) else none

/-- The loop `forUp` with a body that may fail. -/
def forUpM {σ : Type} (body : Nat → σ → Option σ) : Nat → Nat → σ → Option σ
  | 0, _, s => some s
  | n + 1, lo, s => (body lo s).bind (forUpM body n (lo + 1))

/-- The loop `forDown` with a body that may fail. -/
def forDownM {σ : Type} (body : Nat → σ → Option σ) (lo : Nat) : Nat → σ → Option σ
  | 0, s => some s
  | hi + 1, s => if hi + 1 > lo then (body (hi + 1) s).bind (forDownM body lo hi) else some s

/-- The loop `forStep2` with a body that may fail; running out of `fuel` while the guard
still holds is a failure too. -/
def forStep2M {σ : Type} (body : Nat → σ → Option σ) (hi : Nat) : Nat → Nat → σ → Option σ
  | 0, i, s => if i < hi then none else some s
  | fuel + 1, i, s => if i < hi then (body i s).bind (forStep2M body hi fuel (i + 2)) else some s

/-- The four lookups of `blowfish_f`, bounds-checked. -/
def blowfish_f_checked (ps : List Nat) (z : Nat) : Option Nat :=
  (rdChecked ps (0x012 + ((z >>> 24) &&& 0xFF))).bind fun x =>
  (rdChecked ps (0x112 + ((z >>> 16) &&& 0xFF))).bind fun t =>
  (rdChecked ps (0x212 + ((z >>> 8) &&& 0xFF))).bind fun u =>
  (rdChecked ps (0x312 + ((z >>> 0) &&& 0xFF))).bind fun v =>
  some ((v + (u ^^^ ((t + x) % 2 ^ 32))) % 2 ^ 32)

/-- The round body `blowfish_round`, with every table access bounds-checked. -/
def blowfish_round_checked (ps : List Nat) (i : Nat) (xy : Nat × Nat) : Option (Nat × Nat) :=
  (rdChecked ps i).bind fun p =>
  (blowfish_f_checked ps (p ^^^ xy.1)).bind fun x =>
  some (xy.2 ^^^ x, p ^^^ xy.1)

/-- The function `blowfish_encrypt` with every table access bounds-checked. -/
def blowfish_encrypt_checked (ps : List Nat) (lr : Nat × Nat) : Option (Nat × Nat) :=
  (forUpM (blowfish_round_checked ps) 0x10 0 (lr.2, lr.1)).bind fun xy =>
  (rdChecked ps 0x10).bind fun a =>
  (rdChecked ps 0x11).bind fun b =>
  some (xy.1 ^^^ a, xy.2 ^^^ b)

/-- The function `blowfish_decrypt` with every table access bounds-checked. -/
def blowfish_decrypt_checked (ps : List Nat) (lr : Nat × Nat) : Option (Nat × Nat) :=
  (forDownM (blowfish_round_checked ps) 1 0x11 (lr.2, lr.1)).bind fun xy =>
  (rdChecked ps 1).bind fun a =>
  (rdChecked ps 0).bind fun b =>
  some (xy.1 ^^^ a, xy.2 ^^^ b)

/-- The function `blowfish_apply_key` with every table access bounds-checked; the third
component is the list of the table indices the pair walk wrote, in order. -/
def blowfish_apply_key_checked (ps : List Nat) (key : List Nat) :
    Option (List Nat × List Nat × List Nat) :=
  (blowfish_encrypt_checked ps (rd key 1, rd key 2)).bind fun e =>
  (blowfish_encrypt_checked ps (rd ((key.set 1 e.1).set 2 e.2) 0,
      rd ((key.set 1 e.1).set 2 e.2) 1)).bind fun e2 =>
  (forUpM
    (fun i ps => (rdChecked ps i).bind fun v =>
      wrChecked ps i (v ^^^ BSWAP32 (rd ((((key.set 1 e.1).set 2 e.2).set 0 e2.1).set 1 e2.2)
        (i % 2))))
    BLOWFISH_P_N 0 ps).bind fun ps =>
  (forStep2M
    (fun i (st : List Nat × (Nat × Nat) × List Nat) =>
      (blowfish_encrypt_checked st.1 st.2.1).bind fun scratch =>
      (wrChecked st.1 i scratch.2).bind fun ps1 =>
      (wrChecked ps1 (i + 1) scratch.1).bind fun ps2 =>
      some (ps2, scratch, st.2.2 ++ [i, i + 1]))
    BLOWFISH_PS_N BLOWFISH_PS_N 0 (ps, (0, 0), [])).bind fun r =>
  some (r.1, (((key.set 1 e.1).set 2 e.2).set 0 e2.1).set 1 e2.2, r.2.2)

/-! # Theorems -/

/-! ## Loop lemmas -/

theorem forUp_succ_last {σ : Type} (body : Nat → σ → σ) (n lo : Nat) (s : σ) :
    forUp body (n + 1) lo s = body (lo + n) (forUp body n lo s) := by
  induction n generalizing lo s with
  | zero => rfl
  | succ n ih =>
    have h := ih (lo + 1) (body lo s)
    have e : lo + 1 + n = lo + (n + 1) := by omega
    rw [e] at h
    exact h

theorem forDown_of_le {σ : Type} (body : Nat → σ → σ) (lo hi : Nat) (s : σ) (h : hi ≤ lo) :
    forDown body lo hi s = s := by
  cases hi with
  | zero => rfl
  | succ hi =>
    have : ¬ (hi + 1 > lo) := by omega
    simp [forDown, this]

theorem forDown_succ {σ : Type} (body : Nat → σ → σ) (lo hi : Nat) (s : σ) (h : lo ≤ hi) :
    forDown body lo (hi + 1) s = forDown body lo hi (body (hi + 1) s) := by
  have : hi + 1 > lo := by omega
  simp [forDown, this]

theorem forDown_last {σ : Type} (body : Nat → σ → σ) (lo hi : Nat) (s : σ) (h : lo < hi) :
    forDown body lo hi s = body (lo + 1) (forDown body (lo + 1) hi s) := by
  induction hi generalizing s with
  | zero => omega
  | succ hi ih =>
    rw [forDown_succ body lo hi s (by omega)]
    by_cases hlt : lo < hi
    · rw [ih _ hlt, forDown_succ body (lo + 1) hi s (by omega)]
    · have e : hi = lo := by omega
      subst e
      rw [forDown_of_le body hi hi _ (le_refl _), forDown_of_le body (hi + 1) (hi + 1) _ (le_refl _)]

/-! ## The Feistel network is invertible -/

theorem xor_cancel_mid (a b : Nat) : a ^^^ (b ^^^ a) = b := by
  rw [Nat.xor_comm b a, ← Nat.xor_assoc, Nat.xor_self, Nat.zero_xor]

theorem xor_cancel_f (y f q : Nat) : (y ^^^ f) ^^^ q ^^^ f = y ^^^ q := by
  rw [Nat.xor_assoc y f q, Nat.xor_comm f q, ← Nat.xor_assoc y q f, Nat.xor_assoc (y ^^^ q) f f,
    Nat.xor_self, Nat.xor_zero]

theorem blowfish_round_whiten (ps : List Nat) (a b c : Nat) (s : Nat × Nat) :
    blowfish_round ps c (whiten (rd ps b) (rd ps c) (blowfish_round ps a s)) =
      whiten (rd ps a) (rd ps b) s := by
  obtain ⟨x, y⟩ := s
  simp only [blowfish_round, whiten, xor_cancel_mid, xor_cancel_f]
  rw [Nat.xor_comm (rd ps a) x]

theorem decrypt_rounds_undo_encrypt_rounds (ps : List Nat) (n i : Nat) (s : Nat × Nat) :
    forDown (blowfish_round ps) (i + 1) (i + 1 + n)
        (whiten (rd ps (i + n)) (rd ps (i + n + 1)) (forUp (blowfish_round ps) n i s)) =
      whiten (rd ps i) (rd ps (i + 1)) s := by
  induction n with
  | zero => exact forDown_of_le _ _ _ _ (le_refl _)
  | succ n ih =>
    rw [forUp_succ_last]
    have e1 : i + 1 + (n + 1) = (i + 1 + n) + 1 := by omega
    rw [e1, forDown_succ _ _ _ _ (by omega)]
    have e2 : i + (n + 1) + 1 = i + 1 + n + 1 := by omega
    have e3 : i + (n + 1) = i + n + 1 := by omega
    rw [e2, e3, blowfish_round_whiten]
    exact ih

theorem encrypt_rounds_undo_decrypt_rounds (ps : List Nat) (n j : Nat) (s : Nat × Nat) :
    forUp (blowfish_round ps) n j
        (whiten (rd ps (j + 1)) (rd ps j) (forDown (blowfish_round ps) (j + 1) (j + 1 + n) s)) =
      whiten (rd ps (j + n + 1)) (rd ps (j + n)) s := by
  induction n generalizing j with
  | zero =>
    rw [forDown_of_le _ _ _ _ (le_refl _)]
    rfl
  | succ n ih =>
    rw [forDown_last _ _ _ _ (by omega)]
    show forUp (blowfish_round ps) n (j + 1) (blowfish_round ps j _) = _
    rw [blowfish_round_whiten]
    have e1 : j + 1 + (n + 1) = (j + 1) + 1 + n := by omega
    rw [e1, ih (j + 1)]
    have e2 : j + 1 + n + 1 = j + (n + 1) + 1 := by omega
    have e3 : j + 1 + n = j + (n + 1) := by omega
    rw [e2, e3]

theorem blowfish_decrypt_encrypt (ps : List Nat) (lr : Nat × Nat) :
    blowfish_decrypt ps (blowfish_encrypt ps lr) = lr := by
  have h := decrypt_rounds_undo_encrypt_rounds ps 16 0 (lr.2, lr.1)
  simp only [Nat.zero_add] at h
  simp only [blowfish_decrypt, blowfish_encrypt]
  show ((forDown (blowfish_round ps) 1 17 (whiten (rd ps 16) (rd ps 17)
      (forUp (blowfish_round ps) 16 0 (lr.2, lr.1)))).1 ^^^ rd ps 1,
    (forDown (blowfish_round ps) 1 17 (whiten (rd ps 16) (rd ps 17)
      (forUp (blowfish_round ps) 16 0 (lr.2, lr.1)))).2 ^^^ rd ps 0) = lr
  rw [h]
  simp [whiten, Nat.xor_assoc, Nat.xor_self]

theorem blowfish_encrypt_decrypt (ps : List Nat) (lr : Nat × Nat) :
    blowfish_encrypt ps (blowfish_decrypt ps lr) = lr := by
  have h := encrypt_rounds_undo_decrypt_rounds ps 16 0 (lr.2, lr.1)
  simp only [Nat.zero_add] at h
  simp only [blowfish_decrypt, blowfish_encrypt]
  show ((forUp (blowfish_round ps) 16 0 (whiten (rd ps 1) (rd ps 0)
      (forDown (blowfish_round ps) 1 17 (lr.2, lr.1)))).1 ^^^ rd ps 16,
    (forUp (blowfish_round ps) 16 0 (whiten (rd ps 1) (rd ps 0)
      (forDown (blowfish_round ps) 1 17 (lr.2, lr.1)))).2 ^^^ rd ps 17) = lr
  rw [h]
  simp [whiten, Nat.xor_assoc, Nat.xor_self]

/-! ## Words stay 32-bit -/

theorem rd_lt_of_table (ps : List Nat) (h : ∀ x ∈ ps, x < 2 ^ 32) (i : Nat) : rd ps i < 2 ^ 32 := by
  unfold rd
  by_cases hi : i < ps.length
  · rw [List.getD_eq_getElem _ _ hi]
    exact h _ (List.getElem_mem hi)
  · rw [List.getD_eq_default _ _ (by omega)]
    exact Nat.two_pow_pos 32

theorem blowfish_f_lt (ps : List Nat) (z : Nat) : blowfish_f ps z < 2 ^ 32 := by
  unfold blowfish_f
  exact Nat.mod_lt _ (Nat.two_pow_pos 32)

theorem blowfish_round_mem (ps : List Nat) (h : ∀ x ∈ ps, x < 2 ^ 32) (i : Nat) (xy : Nat × Nat)
    (hxy : xy ∈ Block64) : blowfish_round ps i xy ∈ Block64 := by
  obtain ⟨hx, hy⟩ := hxy
  exact ⟨Nat.xor_lt_two_pow hy (blowfish_f_lt ps _), Nat.xor_lt_two_pow (rd_lt_of_table ps h i) hx⟩

theorem forUp_invariant {σ : Type} (body : Nat → σ → σ) (I : σ → Prop)
    (hI : ∀ i s, I s → I (body i s)) (n lo : Nat) (s : σ) (hs : I s) : I (forUp body n lo s) := by
  induction n generalizing lo s with
  | zero => exact hs
  | succ n ih => exact ih (lo + 1) (body lo s) (hI lo s hs)

theorem forDown_invariant {σ : Type} (body : Nat → σ → σ) (I : σ → Prop)
    (hI : ∀ i s, I s → I (body i s)) (lo hi : Nat) (s : σ) (hs : I s) :
    I (forDown body lo hi s) := by
  induction hi generalizing s with
  | zero => exact hs
  | succ hi ih =>
    unfold forDown
    split
    · exact ih _ (hI _ _ hs)
    · exact hs

theorem blowfish_encrypt_mem (ps : List Nat) (h : ∀ x ∈ ps, x < 2 ^ 32) (lr : Nat × Nat)
    (hlr : lr ∈ Block64) : blowfish_encrypt ps lr ∈ Block64 := by
  have hI := forUp_invariant (blowfish_round ps) (fun xy => xy ∈ Block64)
    (blowfish_round_mem ps h) 0x10 0 (lr.2, lr.1) ⟨hlr.2, hlr.1⟩
  exact ⟨Nat.xor_lt_two_pow hI.1 (rd_lt_of_table ps h _),
    Nat.xor_lt_two_pow hI.2 (rd_lt_of_table ps h _)⟩

theorem blowfish_decrypt_mem (ps : List Nat) (h : ∀ x ∈ ps, x < 2 ^ 32) (lr : Nat × Nat)
    (hlr : lr ∈ Block64) : blowfish_decrypt ps lr ∈ Block64 := by
  have hI := forDown_invariant (blowfish_round ps) (fun xy => xy ∈ Block64)
    (blowfish_round_mem ps h) 1 0x11 (lr.2, lr.1) ⟨hlr.2, hlr.1⟩
  exact ⟨Nat.xor_lt_two_pow hI.1 (rd_lt_of_table ps h _),
    Nat.xor_lt_two_pow hI.2 (rd_lt_of_table ps h _)⟩

theorem isPSTable_replicate : IsPSTable (List.replicate BLOWFISH_PS_N 0) := by
  refine ⟨List.length_replicate _ _, ?_⟩
  intro x hx
  rw [List.eq_of_mem_replicate hx]
  exact Nat.two_pow_pos 32

/-! ## C1 -/

/-- C1: for every table of `BLOWFISH_PS_N` = 1042 32-bit entries, whatever its contents,
`blowfish_decrypt` undoes `blowfish_encrypt` and `blowfish_encrypt` undoes
`blowfish_decrypt` on every two-word block, and `blowfish_encrypt` is a bijection of the
64-bit blocks onto themselves. -/
theorem C1_decrypt_is_inverse_of_encrypt (ps : List Nat) (hps : IsPSTable ps) :
    (∀ lr : Nat × Nat, blowfish_decrypt ps (blowfish_encrypt ps lr) = lr) ∧
    (∀ lr : Nat × Nat, blowfish_encrypt ps (blowfish_decrypt ps lr) = lr) ∧
    Set.BijOn (blowfish_encrypt ps) Block64 Block64 := by
  refine ⟨blowfish_decrypt_encrypt ps, blowfish_encrypt_decrypt ps, ?_, ?_, ?_⟩
  · intro lr hlr
    exact blowfish_encrypt_mem ps hps.2 lr hlr
  · intro a _ b _ hab
    have h := congrArg (blowfish_decrypt ps) hab
    rwa [blowfish_decrypt_encrypt, blowfish_decrypt_encrypt] at h
  · intro lr hlr
    exact ⟨blowfish_decrypt ps lr, blowfish_decrypt_mem ps hps.2 lr hlr,
      blowfish_encrypt_decrypt ps lr⟩

/-- C1 witness: the all-zero table of 1042 entries. -/
theorem C1_decrypt_is_inverse_of_encrypt_witness :
    IsPSTable (List.replicate BLOWFISH_PS_N 0) ∧
    ((∀ lr : Nat × Nat, blowfish_decrypt (List.replicate BLOWFISH_PS_N 0)
        (blowfish_encrypt (List.replicate BLOWFISH_PS_N 0) lr) = lr) ∧
    (∀ lr : Nat × Nat, blowfish_encrypt (List.replicate BLOWFISH_PS_N 0)
        (blowfish_decrypt (List.replicate BLOWFISH_PS_N 0) lr) = lr) ∧
    Set.BijOn (blowfish_encrypt (List.replicate BLOWFISH_PS_N 0)) Block64 Block64) :=
  ⟨isPSTable_replicate, C1_decrypt_is_inverse_of_encrypt _ isPSTable_replicate⟩

/-! ## Bit fields as arithmetic -/

theorem land_mask (x s n : Nat) : x &&& ((2 ^ n - 1) * 2 ^ s) = x / 2 ^ s % 2 ^ n * 2 ^ s := by
  apply Nat.eq_of_testBit_eq
  intro i
  rw [Nat.testBit_and, ← Nat.shiftLeft_eq, ← Nat.shiftLeft_eq, Nat.testBit_shiftLeft,
    Nat.testBit_shiftLeft, Nat.testBit_two_pow_sub_one, Nat.testBit_mod_two_pow,
    ← Nat.shiftRight_eq_div_pow, Nat.testBit_shiftRight]
  by_cases h : i ≥ s
  · have e : s + (i - s) = i := by omega
    simp [h, e, Bool.and_comm]
  · simp [h]

theorem lor_eq_add (a f s : Nat) (h : a < 2 ^ s) : a ||| f * 2 ^ s = a + f * 2 ^ s := by
  rw [Nat.or_comm, Nat.mul_comm, ← Nat.mul_add_lt_is_or h, Nat.add_comm]

theorem byteAt_eq (v i : Nat) : byteAt v i = v / 2 ^ (8 * i) % 256 := by
  unfold byteAt
  rw [Nat.shiftRight_eq_div_pow]
  exact Nat.and_pow_two_sub_one_eq_mod _ 8

theorem bitField_eq (x lo n : Nat) : bitField x lo n = x / 2 ^ lo % 2 ^ n := by
  unfold bitField
  rw [Nat.shiftRight_eq_div_pow]

/-- The bytes and nibbles of a word that is a sum of eleven adjacent fields. -/
theorem fields_bytes (w f0 f1 f2 f3 f4 f5 f6 f7 f8 f9 f10 : Nat)
    (h0 : f0 < 16) (h1 : f1 < 16) (h2 : f2 < 256) (h3 : f3 < 16) (h4 : f4 < 16) (h5 : f5 < 256)
    (h6 : f6 < 256) (h7 : f7 < 16) (h8 : f8 < 16) (h9 : f9 < 256) (h10 : f10 < 256)
    (h : w = f0 + f1 * 16 + f2 * 256 + f3 * 65536 + f4 * 1048576 + f5 * 16777216 +
      f6 * 4294967296 + f7 * 1099511627776 + f8 * 17592186044416 + f9 * 281474976710656 +
      f10 * 72057594037927936) :
    w < 18446744073709551616 ∧
    w / 1 % 256 / 16 % 16 = f1 ∧ w / 1 % 256 / 1 % 16 = f0 ∧ w / 256 % 256 = f2 ∧
    w / 65536 % 256 / 16 % 16 = f4 ∧ w / 65536 % 256 / 1 % 16 = f3 ∧
    w / 16777216 % 256 = f5 ∧ w / 4294967296 % 256 = f6 ∧
    w / 1099511627776 % 256 / 16 % 16 = f8 ∧ w / 1099511627776 % 256 / 1 % 16 = f7 ∧
    w / 281474976710656 % 256 = f9 ∧ w / 72057594037927936 % 256 = f10 := by
  subst h
  refine ⟨?_, ?_, ?_, ?_, ?_, ?_, ?_, ?_, ?_, ?_, ?_, ?_⟩ <;> omega

/-- The plaintext word as a sum of its eleven fields, lowest first. -/
theorem key1_plain_eq (c a ij k : Nat) :
    key1_plain c a ij k =
      a / 4096 % 16 + c % 16 * 2 ^ 4 + a / 16 % 256 * 2 ^ 8 + ij / 1048576 % 16 * 2 ^ 16 +
        a % 16 * 2 ^ 20 + ij / 4096 % 256 * 2 ^ 24 + ij / 16 % 256 * 2 ^ 32 +
        k / 65536 % 16 * 2 ^ 40 + ij % 16 * 2 ^ 44 + k / 256 % 256 * 2 ^ 48 + k % 256 * 2 ^ 56 := by
  have m1 : c &&& 0xF = c / 1 % 16 * 1 := land_mask c 0 4
  have m2 : a &&& 0xF000 = a / 4096 % 16 * 4096 := land_mask a 12 4
  have m3 : a &&& 0xFF0 = a / 16 % 256 * 16 := land_mask a 4 8
  have m4 : a &&& 0xF = a / 1 % 16 * 1 := land_mask a 0 4
  have m5 : ij &&& 0xF00000 = ij / 1048576 % 16 * 1048576 := land_mask ij 20 4
  have m6 : ij &&& 0xFF000 = ij / 4096 % 256 * 4096 := land_mask ij 12 8
  have m7 : ij &&& 0xFF0 = ij / 16 % 256 * 16 := land_mask ij 4 8
  have m8 : ij &&& 0xF = ij / 1 % 16 * 1 := land_mask ij 0 4
  have m9 : k &&& 0xF0000 = k / 65536 % 16 * 65536 := land_mask k 16 4
  have m10 : k &&& 0xFF00 = k / 256 % 256 * 256 := land_mask k 8 8
  have m11 : k &&& 0xFF = k / 1 % 256 * 1 := land_mask k 0 8
  have h1 : (c &&& 0xF) <<< 4 = c % 16 * 2 ^ 4 := by
    rw [m1, Nat.shiftLeft_eq]; omega
  have h2 : (a &&& 0xF000) >>> 12 = a / 4096 % 16 := by
    rw [m2, Nat.shiftRight_eq_div_pow]; omega
  have h3 : (a &&& 0xFF0) <<< 4 = a / 16 % 256 * 2 ^ 8 := by
    rw [m3, Nat.shiftLeft_eq]; omega
  have h4 : (a &&& 0xF) <<< 20 = a % 16 * 2 ^ 20 := by
    rw [m4, Nat.shiftLeft_eq]; omega
  have h5 : (ij &&& 0xF00000) >>> 4 = ij / 1048576 % 16 * 2 ^ 16 := by
    rw [m5, Nat.shiftRight_eq_div_pow]; omega
  have h6 : (ij &&& 0xFF000) <<< 12 = ij / 4096 % 256 * 2 ^ 24 := by
    rw [m6, Nat.shiftLeft_eq]; omega
  have h7 : (ij &&& 0xFF0) <<< 28 = ij / 16 % 256 * 2 ^ 32 := by
    rw [m7, Nat.shiftLeft_eq]; omega
  have h8 : (ij &&& 0xF) <<< 44 = ij % 16 * 2 ^ 44 := by
    rw [m8, Nat.shiftLeft_eq]; omega
  have h9 : (k &&& 0xF0000) <<< 24 = k / 65536 % 16 * 2 ^ 40 := by
    rw [m9, Nat.shiftLeft_eq]; omega
  have h10 : (k &&& 0xFF00) <<< 40 = k / 256 % 256 * 2 ^ 48 := by
    rw [m10, Nat.shiftLeft_eq]; omega
  have h11 : (k &&& 0xFF) <<< 56 = k % 256 * 2 ^ 56 := by
    rw [m11, Nat.shiftLeft_eq]; omega
  unfold key1_plain
  rw [h1, h2, h3, h4, h5, h6, h7, h8, h9, h10, h11]
  rw [← lor_eq_add _ _ 56 (by omega), ← lor_eq_add _ _ 48 (by omega), ← lor_eq_add _ _ 44 (by omega),
    ← lor_eq_add _ _ 40 (by omega), ← lor_eq_add _ _ 32 (by omega), ← lor_eq_add _ _ 24 (by omega),
    ← lor_eq_add _ _ 20 (by omega), ← lor_eq_add _ _ 16 (by omega), ← lor_eq_add _ _ 8 (by omega),
    ← lor_eq_add _ _ 4 (by omega)]
  ac_rfl

/-! ## C2 -/

/-- C2, as the code has it: for every `cmdarg`, `arg`, `ij` and counter `k` the plaintext
word of `key1_cmdf` fits 64 bits and has byte0 bits4-7 = cmdarg bits0-3, byte0 bits0-3 =
arg bits12-15, byte1 = arg bits4-11, byte2 bits4-7 = arg bits0-3, byte2 bits0-3 = ij
bits20-23, byte3 = ij bits12-19, byte4 = ij bits4-11, byte5 bits4-7 = ij bits0-3, byte5
bits0-3 = k bits16-19, byte6 = k bits8-15, byte7 = k bits0-7 (the nibble order
"KK KK JK JJ II AI AA CA" of the comment in the source); and for cmd = 0x2, arg = ij = k
= 0 the bytes are 0x20 followed by seven zeros. -/
theorem C2_key1_plain_layout (cmdarg arg ij k : Nat) :
    key1_plain cmdarg arg ij k < 2 ^ 64 ∧
    bitField (byteAt (key1_plain cmdarg arg ij k) 0) 4 4 = bitField cmdarg 0 4 ∧
    bitField (byteAt (key1_plain cmdarg arg ij k) 0) 0 4 = bitField arg 12 4 ∧
    byteAt (key1_plain cmdarg arg ij k) 1 = bitField arg 4 8 ∧
    bitField (byteAt (key1_plain cmdarg arg ij k) 2) 4 4 = bitField arg 0 4 ∧
    bitField (byteAt (key1_plain cmdarg arg ij k) 2) 0 4 = bitField ij 20 4 ∧
    byteAt (key1_plain cmdarg arg ij k) 3 = bitField ij 12 8 ∧
    byteAt (key1_plain cmdarg arg ij k) 4 = bitField ij 4 8 ∧
    bitField (byteAt (key1_plain cmdarg arg ij k) 5) 4 4 = bitField ij 0 4 ∧
    bitField (byteAt (key1_plain cmdarg arg ij k) 5) 0 4 = bitField k 16 4 ∧
    byteAt (key1_plain cmdarg arg ij k) 6 = bitField k 8 8 ∧
    byteAt (key1_plain cmdarg arg ij k) 7 = bitField k 0 8 ∧
    bytesLE64 (key1_plain 0x2 0 0 0) = [0x20, 0, 0, 0, 0, 0, 0, 0] := by
  have h := key1_plain_eq cmdarg arg ij k
  norm_num only at h
  have hb := fields_bytes (key1_plain cmdarg arg ij k) _ _ _ _ _ _ _ _ _ _ _
    (Nat.mod_lt _ (by decide)) (Nat.mod_lt _ (by decide)) (Nat.mod_lt _ (by decide))
    (Nat.mod_lt _ (by decide)) (Nat.mod_lt _ (by decide)) (Nat.mod_lt _ (by decide))
    (Nat.mod_lt _ (by decide)) (Nat.mod_lt _ (by decide)) (Nat.mod_lt _ (by decide))
    (Nat.mod_lt _ (by decide)) (Nat.mod_lt _ (by decide)) h
  obtain ⟨b0, b1, b2, b3, b4, b5, b6, b7, b8, b9, b10, b11⟩ := hb
  clear h
  have hw : bytesLE64 (key1_plain 0x2 0 0 0) = [0x20, 0, 0, 0, 0, 0, 0, 0] := by decide
  simp only [bitField_eq, byteAt_eq]
  norm_num only
  refine ⟨?_, ?_, ?_, ?_, ?_, ?_, ?_, ?_, ?_, ?_, ?_, ?_, ?_⟩
  · omega
  · omega
  · omega
  · omega
  · omega
  · omega
  · omega
  · omega
  · omega
  · omega
  · omega
  · omega
  · exact hw

/-- C2 counterexample: at cmd = 0, arg = 1, ij = 0, k = 0 the word is 0x100000, so byte 2
is 0x10: its bits 0-3 are 0, not arg bits0-3 = 1 as the byte-by-byte listing has it. -/
theorem C2_spec_layout_counterexample :
    key1_plain 0 1 0 0 = 0x100000 ∧ ¬ SpecKey1Layout (key1_plain 0 1 0 0) 0 1 0 0 := by
  refine ⟨by decide, ?_⟩
  unfold SpecKey1Layout
  decide

/-! ## Frame lemmas

What each helper leaves alone, field by field. -/

@[simp] theorem respBytes_length (n : Nat) (data : Nat → Nat) : (respBytes n data).length = n := by
  simp [respBytes]

@[simp] theorem writeResp_null (b : List Nat) (s : State) : writeResp RespPtr.null b s = s := rfl

@[simp] theorem writeResp_hdr (b : List Nat) (s : State) : writeResp RespPtr.hdr b s = s := rfl

@[simp] theorem writeResp_status (r : RespPtr) (b : List Nat) (s : State) :
    (writeResp r b s).status = s.status := by
  cases r <;> rfl

@[simp] theorem writeResp_game_code (r : RespPtr) (b : List Nat) (s : State) :
    (writeResp r b s).game_code = s.game_code := by
  cases r <;> rfl

@[simp] theorem writeResp_hdr_key1_romcnt (r : RespPtr) (b : List Nat) (s : State) :
    (writeResp r b s).hdr_key1_romcnt = s.hdr_key1_romcnt := by
  cases r <;> rfl

@[simp] theorem writeResp_hdr_key2_romcnt (r : RespPtr) (b : List Nat) (s : State) :
    (writeResp r b s).hdr_key2_romcnt = s.hdr_key2_romcnt := by
  cases r <;> rfl

@[simp] theorem writeResp_key1_romcnt (r : RespPtr) (b : List Nat) (s : State) :
    (writeResp r b s).key1_romcnt = s.key1_romcnt := by
  cases r <;> rfl

@[simp] theorem writeResp_key2_romcnt (r : RespPtr) (b : List Nat) (s : State) :
    (writeResp r b s).key2_romcnt = s.key2_romcnt := by
  cases r <;> rfl

@[simp] theorem writeResp_key1_ps (r : RespPtr) (b : List Nat) (s : State) :
    (writeResp r b s).key1_ps = s.key1_ps := by
  cases r <;> rfl

@[simp] theorem writeResp_key1_key (r : RespPtr) (b : List Nat) (s : State) :
    (writeResp r b s).key1_key = s.key1_key := by
  cases r <;> rfl

@[simp] theorem writeResp_key1_k (r : RespPtr) (b : List Nat) (s : State) :
    (writeResp r b s).key1_k = s.key1_k := by
  cases r <;> rfl

@[simp] theorem writeResp_key1_ij (r : RespPtr) (b : List Nat) (s : State) :
    (writeResp r b s).key1_ij = s.key1_ij := by
  cases r <;> rfl

@[simp] theorem writeResp_key1_l (r : RespPtr) (b : List Nat) (s : State) :
    (writeResp r b s).key1_l = s.key1_l := by
  cases r <;> rfl

@[simp] theorem writeResp_key2_seed (r : RespPtr) (b : List Nat) (s : State) :
    (writeResp r b s).key2_seed = s.key2_seed := by
  cases r <;> rfl

@[simp] theorem writeResp_key2_mn (r : RespPtr) (b : List Nat) (s : State) :
    (writeResp r b s).key2_mn = s.key2_mn := by
  cases r <;> rfl

@[simp] theorem writeResp_key2_x (r : RespPtr) (b : List Nat) (s : State) :
    (writeResp r b s).key2_x = s.key2_x := by
  cases r <;> rfl

@[simp] theorem writeResp_key2_y (r : RespPtr) (b : List Nat) (s : State) :
    (writeResp r b s).key2_y = s.key2_y := by
  cases r <;> rfl

@[simp] theorem writeResp_chipid_get_chipid (b : List Nat) (s : State) :
    (writeResp RespPtr.chipid b s).chipid = store32 s.chipid b := rfl

@[simp] theorem writeResp_chipid_get_key1_chipid (b : List Nat) (s : State) :
    (writeResp RespPtr.chipid b s).key1_chipid = s.key1_chipid := rfl

@[simp] theorem writeResp_chipid_get_key2_chipid (b : List Nat) (s : State) :
    (writeResp RespPtr.chipid b s).key2_chipid = s.key2_chipid := rfl

@[simp] theorem writeResp_key1_chipid_get_chipid (b : List Nat) (s : State) :
    (writeResp RespPtr.key1_chipid b s).chipid = s.chipid := rfl

@[simp] theorem writeResp_key1_chipid_get_key1_chipid (b : List Nat) (s : State) :
    (writeResp RespPtr.key1_chipid b s).key1_chipid = store32 s.key1_chipid b := rfl

@[simp] theorem writeResp_key1_chipid_get_key2_chipid (b : List Nat) (s : State) :
    (writeResp RespPtr.key1_chipid b s).key2_chipid = s.key2_chipid := rfl

@[simp] theorem writeResp_key2_chipid_get_chipid (b : List Nat) (s : State) :
    (writeResp RespPtr.key2_chipid b s).chipid = s.chipid := rfl

@[simp] theorem writeResp_key2_chipid_get_key1_chipid (b : List Nat) (s : State) :
    (writeResp RespPtr.key2_chipid b s).key1_chipid = s.key1_chipid := rfl

@[simp] theorem writeResp_key2_chipid_get_key2_chipid (b : List Nat) (s : State) :
    (writeResp RespPtr.key2_chipid b s).key2_chipid = store32 s.key2_chipid b := rfl

@[simp] theorem logMessage_state {W : Type} (P : Platform W) (l : LogLevel) (msg : LogMsg)
    (m : Machine W) : (logMessage P l msg m).state = m.state := rfl

@[simp] theorem logMessage_trace {W : Type} (P : Platform W) (l : LogLevel) (msg : LogMsg)
    (m : Machine W) : (logMessage P l msg m).trace = m.trace := rfl

@[simp] theorem sendCommand_bytes_length {W : Type} (P : Platform W) (c : List Nat) (l : Nat)
    (r : RespPtr) (f : Nat) (m : Machine W) : (sendCommand P c l r f m).bytes.length = l := by
  simp [sendCommand]

@[simp] theorem sendCommand_state {W : Type} (P : Platform W) (c : List Nat) (l : Nat)
    (r : RespPtr) (f : Nat) (m : Machine W) :
    (sendCommand P c l r f m).machine.state = writeResp r (sendCommand P c l r f m).bytes m.state :=
  rfl

@[simp] theorem sendCommand_trace {W : Type} (P : Platform W) (c : List Nat) (l : Nat)
    (r : RespPtr) (f : Nat) (m : Machine W) :
    (sendCommand P c l r f m).machine.trace =
      m.trace ++ [Call.sendCommand c l r
        (if m.state.status = Status.KEY2 then
          OpFlags.key2_response (OpFlags.key2_command f true) true else f)
        (sendCommand P c l r f m).bytes (sendCommand P c l r f m).ret] :=
  rfl

@[simp] theorem sendCommand64_eq {W : Type} (P : Platform W) (cmd l : Nat)
    (r : RespPtr) (f : Nat) (m : Machine W) :
    sendCommand64 P cmd l r f m = sendCommand P (bytesLE64 cmd) l r f m :=
  rfl

theorem key1_cmdf_eq {W : Type} (P : Platform W) (cmdarg size : Nat) (dest : RespPtr)
    (arg ij flags : Nat) (m : Machine W) :
    key1_cmdf P cmdarg size dest arg ij flags m =
      (sendCommand P (bytesLE64 (key1_wire P m.state.key1_ps cmdarg arg ij m.state.key1_k))
        (size % 2 ^ 16) dest flags
        (logMessage P LogLevel.LOG_DEBUG
          (LogMsg.sending_key1_cmd (BSWAP64 (key1_plain cmdarg arg ij m.state.key1_k)))
          { m with state := { m.state with key1_k := (m.state.key1_k + 1) % 2 ^ 32 } })).machine :=
  rfl

/-- What `key1_cmdf` does: one command on the wire, the encryption of the word packed from
the counter as it was before the call; the counter is incremented, and the response is
written through `dest`. -/
theorem key1_cmdf_spec {W : Type} (P : Platform W) (cmdarg size : Nat) (dest : RespPtr)
    (arg ij flags : Nat) (m : Machine W) :
    ∃ response ok,
      (key1_cmdf P cmdarg size dest arg ij flags m).trace =
        m.trace ++ [Call.sendCommand
          (bytesLE64 (key1_wire P m.state.key1_ps cmdarg arg ij m.state.key1_k)) (size % 2 ^ 16) dest
          (if m.state.status = Status.KEY2 then
            OpFlags.key2_response (OpFlags.key2_command flags true) true else flags)
          response ok] ∧
      response.length = size % 2 ^ 16 ∧
      (key1_cmdf P cmdarg size dest arg ij flags m).state =
        writeResp dest response { m.state with key1_k := (m.state.key1_k + 1) % 2 ^ 32 } := by
  rw [key1_cmdf_eq]
  exact ⟨_, _, rfl, sendCommand_bytes_length _ _ _ _ _ _, rfl⟩

@[simp] theorem key1_cmdf_status {W : Type} (P : Platform W) (cmdarg size : Nat) (dest : RespPtr)
    (arg ij flags : Nat) (m : Machine W) :
    (key1_cmdf P cmdarg size dest arg ij flags m).state.status = m.state.status := by
  rw [key1_cmdf_eq, sendCommand_state, writeResp_status]
  rfl

@[simp] theorem key1_cmdf_game_code {W : Type} (P : Platform W) (cmdarg size : Nat) (dest : RespPtr)
    (arg ij flags : Nat) (m : Machine W) :
    (key1_cmdf P cmdarg size dest arg ij flags m).state.game_code = m.state.game_code := by
  rw [key1_cmdf_eq, sendCommand_state, writeResp_game_code]
  rfl

@[simp] theorem key1_cmdf_hdr_key1_romcnt {W : Type} (P : Platform W) (cmdarg size : Nat) (dest : RespPtr)
    (arg ij flags : Nat) (m : Machine W) :
    (key1_cmdf P cmdarg size dest arg ij flags m).state.hdr_key1_romcnt = m.state.hdr_key1_romcnt := by
  rw [key1_cmdf_eq, sendCommand_state, writeResp_hdr_key1_romcnt]
  rfl

@[simp] theorem key1_cmdf_hdr_key2_romcnt {W : Type} (P : Platform W) (cmdarg size : Nat) (dest : RespPtr)
    (arg ij flags : Nat) (m : Machine W) :
    (key1_cmdf P cmdarg size dest arg ij flags m).state.hdr_key2_romcnt = m.state.hdr_key2_romcnt := by
  rw [key1_cmdf_eq, sendCommand_state, writeResp_hdr_key2_romcnt]
  rfl

@[simp] theorem key1_cmdf_key1_romcnt {W : Type} (P : Platform W) (cmdarg size : Nat) (dest : RespPtr)
    (arg ij flags : Nat) (m : Machine W) :
    (key1_cmdf P cmdarg size dest arg ij flags m).state.key1_romcnt = m.state.key1_romcnt := by
  rw [key1_cmdf_eq, sendCommand_state, writeResp_key1_romcnt]
  rfl

@[simp] theorem key1_cmdf_key2_romcnt {W : Type} (P : Platform W) (cmdarg size : Nat) (dest : RespPtr)
    (arg ij flags : Nat) (m : Machine W) :
    (key1_cmdf P cmdarg size dest arg ij flags m).state.key2_romcnt = m.state.key2_romcnt := by
  rw [key1_cmdf_eq, sendCommand_state, writeResp_key2_romcnt]
  rfl

@[simp] theorem key1_cmdf_key1_ps {W : Type} (P : Platform W) (cmdarg size : Nat) (dest : RespPtr)
    (arg ij flags : Nat) (m : Machine W) :
    (key1_cmdf P cmdarg size dest arg ij flags m).state.key1_ps = m.state.key1_ps := by
  rw [key1_cmdf_eq, sendCommand_state, writeResp_key1_ps]
  rfl

@[simp] theorem key1_cmdf_key1_key {W : Type} (P : Platform W) (cmdarg size : Nat) (dest : RespPtr)
    (arg ij flags : Nat) (m : Machine W) :
    (key1_cmdf P cmdarg size dest arg ij flags m).state.key1_key = m.state.key1_key := by
  rw [key1_cmdf_eq, sendCommand_state, writeResp_key1_key]
  rfl

@[simp] theorem key1_cmdf_key1_k {W : Type} (P : Platform W) (cmdarg size : Nat) (dest : RespPtr)
    (arg ij flags : Nat) (m : Machine W) :
    (key1_cmdf P cmdarg size dest arg ij flags m).state.key1_k = (m.state.key1_k + 1) % 2 ^ 32 := by
  rw [key1_cmdf_eq, sendCommand_state, writeResp_key1_k]
  rfl

@[simp] theorem key1_cmdf_key1_ij {W : Type} (P : Platform W) (cmdarg size : Nat) (dest : RespPtr)
    (arg ij flags : Nat) (m : Machine W) :
    (key1_cmdf P cmdarg size dest arg ij flags m).state.key1_ij = m.state.key1_ij := by
  rw [key1_cmdf_eq, sendCommand_state, writeResp_key1_ij]
  rfl

@[simp] theorem key1_cmdf_key1_l {W : Type} (P : Platform W) (cmdarg size : Nat) (dest : RespPtr)
    (arg ij flags : Nat) (m : Machine W) :
    (key1_cmdf P cmdarg size dest arg ij flags m).state.key1_l = m.state.key1_l := by
  rw [key1_cmdf_eq, sendCommand_state, writeResp_key1_l]
  rfl

@[simp] theorem key1_cmdf_key2_seed {W : Type} (P : Platform W) (cmdarg size : Nat) (dest : RespPtr)
    (arg ij flags : Nat) (m : Machine W) :
    (key1_cmdf P cmdarg size dest arg ij flags m).state.key2_seed = m.state.key2_seed := by
  rw [key1_cmdf_eq, sendCommand_state, writeResp_key2_seed]
  rfl

@[simp] theorem key1_cmdf_key2_mn {W : Type} (P : Platform W) (cmdarg size : Nat) (dest : RespPtr)
    (arg ij flags : Nat) (m : Machine W) :
    (key1_cmdf P cmdarg size dest arg ij flags m).state.key2_mn = m.state.key2_mn := by
  rw [key1_cmdf_eq, sendCommand_state, writeResp_key2_mn]
  rfl

@[simp] theorem key1_cmdf_key2_x {W : Type} (P : Platform W) (cmdarg size : Nat) (dest : RespPtr)
    (arg ij flags : Nat) (m : Machine W) :
    (key1_cmdf P cmdarg size dest arg ij flags m).state.key2_x = m.state.key2_x := by
  rw [key1_cmdf_eq, sendCommand_state, writeResp_key2_x]
  rfl

@[simp] theorem key1_cmdf_key2_y {W : Type} (P : Platform W) (cmdarg size : Nat) (dest : RespPtr)
    (arg ij flags : Nat) (m : Machine W) :
    (key1_cmdf P cmdarg size dest arg ij flags m).state.key2_y = m.state.key2_y := by
  rw [key1_cmdf_eq, sendCommand_state, writeResp_key2_y]
  rfl

@[simp] theorem init_blowfish_status {W : Type} (P : Platform W) (key : BlowfishKey)
    (m : Machine W) : (init_blowfish P key m).state.status = m.state.status := by
  unfold init_blowfish
  split <;> rfl

@[simp] theorem init_blowfish_chipid {W : Type} (P : Platform W) (key : BlowfishKey)
    (m : Machine W) : (init_blowfish P key m).state.chipid = m.state.chipid := by
  unfold init_blowfish
  split <;> rfl

@[simp] theorem init_blowfish_key1_chipid {W : Type} (P : Platform W) (key : BlowfishKey)
    (m : Machine W) : (init_blowfish P key m).state.key1_chipid = m.state.key1_chipid := by
  unfold init_blowfish
  split <;> rfl

@[simp] theorem init_blowfish_key2_chipid {W : Type} (P : Platform W) (key : BlowfishKey)
    (m : Machine W) : (init_blowfish P key m).state.key2_chipid = m.state.key2_chipid := by
  unfold init_blowfish
  split <;> rfl

@[simp] theorem init_blowfish_game_code {W : Type} (P : Platform W) (key : BlowfishKey)
    (m : Machine W) : (init_blowfish P key m).state.game_code = m.state.game_code := by
  unfold init_blowfish
  split <;> rfl

@[simp] theorem init_blowfish_hdr_key1_romcnt {W : Type} (P : Platform W) (key : BlowfishKey)
    (m : Machine W) : (init_blowfish P key m).state.hdr_key1_romcnt = m.state.hdr_key1_romcnt := by
  unfold init_blowfish
  split <;> rfl

@[simp] theorem init_blowfish_hdr_key2_romcnt {W : Type} (P : Platform W) (key : BlowfishKey)
    (m : Machine W) : (init_blowfish P key m).state.hdr_key2_romcnt = m.state.hdr_key2_romcnt := by
  unfold init_blowfish
  split <;> rfl

@[simp] theorem init_blowfish_key1_romcnt {W : Type} (P : Platform W) (key : BlowfishKey)
    (m : Machine W) : (init_blowfish P key m).state.key1_romcnt = m.state.key1_romcnt := by
  unfold init_blowfish
  split <;> rfl

@[simp] theorem init_blowfish_key2_romcnt {W : Type} (P : Platform W) (key : BlowfishKey)
    (m : Machine W) : (init_blowfish P key m).state.key2_romcnt = m.state.key2_romcnt := by
  unfold init_blowfish
  split <;> rfl

@[simp] theorem init_blowfish_key1_k {W : Type} (P : Platform W) (key : BlowfishKey)
    (m : Machine W) : (init_blowfish P key m).state.key1_k = m.state.key1_k := by
  unfold init_blowfish
  split <;> rfl

@[simp] theorem init_blowfish_key1_ij {W : Type} (P : Platform W) (key : BlowfishKey)
    (m : Machine W) : (init_blowfish P key m).state.key1_ij = m.state.key1_ij := by
  unfold init_blowfish
  split <;> rfl

@[simp] theorem init_blowfish_key1_l {W : Type} (P : Platform W) (key : BlowfishKey)
    (m : Machine W) : (init_blowfish P key m).state.key1_l = m.state.key1_l := by
  unfold init_blowfish
  split <;> rfl

@[simp] theorem init_blowfish_key2_seed {W : Type} (P : Platform W) (key : BlowfishKey)
    (m : Machine W) : (init_blowfish P key m).state.key2_seed = m.state.key2_seed := by
  unfold init_blowfish
  split <;> rfl

@[simp] theorem init_blowfish_key2_mn {W : Type} (P : Platform W) (key : BlowfishKey)
    (m : Machine W) : (init_blowfish P key m).state.key2_mn = m.state.key2_mn := by
  unfold init_blowfish
  split <;> rfl

@[simp] theorem init_blowfish_key2_x {W : Type} (P : Platform W) (key : BlowfishKey)
    (m : Machine W) : (init_blowfish P key m).state.key2_x = m.state.key2_x := by
  unfold init_blowfish
  split <;> rfl

@[simp] theorem init_blowfish_key2_y {W : Type} (P : Platform W) (key : BlowfishKey)
    (m : Machine W) : (init_blowfish P key m).state.key2_y = m.state.key2_y := by
  unfold init_blowfish
  split <;> rfl

@[simp] theorem seed_key2_registers_status {W : Type} (P : Platform W) (m : Machine W) :
    (seed_key2_registers P m).state.status = m.state.status := by
  unfold seed_key2_registers
  dsimp only [logMessage]
  split <;> dsimp only

@[simp] theorem seed_key2_registers_chipid {W : Type} (P : Platform W) (m : Machine W) :
    (seed_key2_registers P m).state.chipid = m.state.chipid := by
  unfold seed_key2_registers
  dsimp only [logMessage]
  split <;> dsimp only

@[simp] theorem seed_key2_registers_key1_chipid {W : Type} (P : Platform W) (m : Machine W) :
    (seed_key2_registers P m).state.key1_chipid = m.state.key1_chipid := by
  unfold seed_key2_registers
  dsimp only [logMessage]
  split <;> dsimp only

@[simp] theorem seed_key2_registers_key2_chipid {W : Type} (P : Platform W) (m : Machine W) :
    (seed_key2_registers P m).state.key2_chipid = m.state.key2_chipid := by
  unfold seed_key2_registers
  dsimp only [logMessage]
  split <;> dsimp only

@[simp] theorem seed_key2_registers_game_code {W : Type} (P : Platform W) (m : Machine W) :
    (seed_key2_registers P m).state.game_code = m.state.game_code := by
  unfold seed_key2_registers
  dsimp only [logMessage]
  split <;> dsimp only

@[simp] theorem seed_key2_registers_hdr_key1_romcnt {W : Type} (P : Platform W) (m : Machine W) :
    (seed_key2_registers P m).state.hdr_key1_romcnt = m.state.hdr_key1_romcnt := by
  unfold seed_key2_registers
  dsimp only [logMessage]
  split <;> dsimp only

@[simp] theorem seed_key2_registers_hdr_key2_romcnt {W : Type} (P : Platform W) (m : Machine W) :
    (seed_key2_registers P m).state.hdr_key2_romcnt = m.state.hdr_key2_romcnt := by
  unfold seed_key2_registers
  dsimp only [logMessage]
  split <;> dsimp only

@[simp] theorem seed_key2_registers_key1_romcnt {W : Type} (P : Platform W) (m : Machine W) :
    (seed_key2_registers P m).state.key1_romcnt = m.state.key1_romcnt := by
  unfold seed_key2_registers
  dsimp only [logMessage]
  split <;> dsimp only

@[simp] theorem seed_key2_registers_key2_romcnt {W : Type} (P : Platform W) (m : Machine W) :
    (seed_key2_registers P m).state.key2_romcnt = m.state.key2_romcnt := by
  unfold seed_key2_registers
  dsimp only [logMessage]
  split <;> dsimp only

@[simp] theorem seed_key2_registers_key1_ps {W : Type} (P : Platform W) (m : Machine W) :
    (seed_key2_registers P m).state.key1_ps = m.state.key1_ps := by
  unfold seed_key2_registers
  dsimp only [logMessage]
  split <;> dsimp only

@[simp] theorem seed_key2_registers_key1_key {W : Type} (P : Platform W) (m : Machine W) :
    (seed_key2_registers P m).state.key1_key = m.state.key1_key := by
  unfold seed_key2_registers
  dsimp only [logMessage]
  split <;> dsimp only

@[simp] theorem seed_key2_registers_key1_k {W : Type} (P : Platform W) (m : Machine W) :
    (seed_key2_registers P m).state.key1_k = m.state.key1_k := by
  unfold seed_key2_registers
  dsimp only [logMessage]
  split <;> dsimp only

@[simp] theorem seed_key2_registers_key1_ij {W : Type} (P : Platform W) (m : Machine W) :
    (seed_key2_registers P m).state.key1_ij = m.state.key1_ij := by
  unfold seed_key2_registers
  dsimp only [logMessage]
  split <;> dsimp only

@[simp] theorem seed_key2_registers_key1_l {W : Type} (P : Platform W) (m : Machine W) :
    (seed_key2_registers P m).state.key1_l = m.state.key1_l := by
  unfold seed_key2_registers
  dsimp only [logMessage]
  split <;> dsimp only

@[simp] theorem seed_key2_registers_key2_seed {W : Type} (P : Platform W) (m : Machine W) :
    (seed_key2_registers P m).state.key2_seed = m.state.key2_seed := by
  unfold seed_key2_registers
  dsimp only [logMessage]
  split <;> dsimp only

@[simp] theorem seed_key2_registers_key2_mn {W : Type} (P : Platform W) (m : Machine W) :
    (seed_key2_registers P m).state.key2_mn = m.state.key2_mn := by
  unfold seed_key2_registers
  dsimp only [logMessage]
  split <;> dsimp only

@[simp] theorem read_header_status {W : Type} (P : Platform W) (m : Machine W) :
    (read_header P m).state.status = m.state.status := by
  unfold read_header
  dsimp only [sendCommand64, sendCommand, writeResp]

@[simp] theorem read_header_chipid {W : Type} (P : Platform W) (m : Machine W) :
    (read_header P m).state.chipid = m.state.chipid := by
  unfold read_header
  dsimp only [sendCommand64, sendCommand, writeResp]

@[simp] theorem read_header_key1_chipid {W : Type} (P : Platform W) (m : Machine W) :
    (read_header P m).state.key1_chipid = m.state.key1_chipid := by
  unfold read_header
  dsimp only [sendCommand64, sendCommand, writeResp]

@[simp] theorem read_header_key2_chipid {W : Type} (P : Platform W) (m : Machine W) :
    (read_header P m).state.key2_chipid = m.state.key2_chipid := by
  unfold read_header
  dsimp only [sendCommand64, sendCommand, writeResp]

@[simp] theorem read_header_key1_ps {W : Type} (P : Platform W) (m : Machine W) :
    (read_header P m).state.key1_ps = m.state.key1_ps := by
  unfold read_header
  dsimp only [sendCommand64, sendCommand, writeResp]

@[simp] theorem read_header_key1_key {W : Type} (P : Platform W) (m : Machine W) :
    (read_header P m).state.key1_key = m.state.key1_key := by
  unfold read_header
  dsimp only [sendCommand64, sendCommand, writeResp]

@[simp] theorem read_header_key1_k {W : Type} (P : Platform W) (m : Machine W) :
    (read_header P m).state.key1_k = m.state.key1_k := by
  unfold read_header
  dsimp only [sendCommand64, sendCommand, writeResp]

@[simp] theorem read_header_key1_ij {W : Type} (P : Platform W) (m : Machine W) :
    (read_header P m).state.key1_ij = m.state.key1_ij := by
  unfold read_header
  dsimp only [sendCommand64, sendCommand, writeResp]

@[simp] theorem read_header_key1_l {W : Type} (P : Platform W) (m : Machine W) :
    (read_header P m).state.key1_l = m.state.key1_l := by
  unfold read_header
  dsimp only [sendCommand64, sendCommand, writeResp]

@[simp] theorem read_header_key2_mn {W : Type} (P : Platform W) (m : Machine W) :
    (read_header P m).state.key2_mn = m.state.key2_mn := by
  unfold read_header
  dsimp only [sendCommand64, sendCommand, writeResp]

@[simp] theorem read_header_key2_x {W : Type} (P : Platform W) (m : Machine W) :
    (read_header P m).state.key2_x = m.state.key2_x := by
  unfold read_header
  dsimp only [sendCommand64, sendCommand, writeResp]

@[simp] theorem read_header_key2_y {W : Type} (P : Platform W) (m : Machine W) :
    (read_header P m).state.key2_y = m.state.key2_y := by
  unfold read_header
  dsimp only [sendCommand64, sendCommand, writeResp]

theorem read_header_trace {W : Type} (P : Platform W) (m : Machine W) :
    (read_header P m).trace =
      (sendCommand P (bytesLE64 CMD_RAW_HEADER_READ) 0x1000 RespPtr.hdr
        (ROMCNT_CLK_SLOW ||| ROMCNT_DELAY2 0x18) m).machine.trace := by
  unfold read_header
  dsimp only [sendCommand64]

/-! ## init -/

theorem init_guard_reset_failed {W : Type} (P : Platform W) (m : Machine W)
    (hR : P.CAN_RESET = true) (hc : (P.resetCard m.world).2 ≠ 0) :
    init_guard P m = Except.error
      (logMessage P LogLevel.LOG_ERR (LogMsg.resetCard_failed (P.resetCard m.world).2)
        { m with
          world := (P.resetCard m.world).1
          trace := m.trace ++ [Call.resetCard (P.resetCard m.world).2] }) := by
  unfold init_guard
  rw [if_pos hR]
  dsimp only
  rw [if_pos hc]

theorem init_guard_reset_ok {W : Type} (P : Platform W) (m : Machine W)
    (hR : P.CAN_RESET = true) (hc : (P.resetCard m.world).2 = 0) :
    init_guard P m = Except.ok
      { state := { m.state with status := Status.RAW }
        world := (P.resetCard m.world).1
        trace := m.trace ++ [Call.resetCard 0] } := by
  unfold init_guard
  rw [if_pos hR]
  dsimp only
  rw [if_neg (not_not.mpr hc), hc]

theorem init_guard_no_reset_refused {W : Type} (P : Platform W) (m : Machine W)
    (hR : P.CAN_RESET = false) (hs : P.statusValue m.state.status > P.statusValue Status.RAW) :
    init_guard P m = Except.error
      (logMessage P LogLevel.LOG_ERR (LogMsg.reinit_without_reset m.state.status) m) := by
  unfold init_guard
  rw [if_neg (by simp [hR]), if_pos hs]

theorem init_guard_no_reset_ok {W : Type} (P : Platform W) (m : Machine W)
    (hR : P.CAN_RESET = false) (hs : ¬ P.statusValue m.state.status > P.statusValue Status.RAW) :
    init_guard P m = Except.ok m := by
  unfold init_guard
  rw [if_neg (by simp [hR]), if_neg hs]

/-- The reads of `init()`, after its guard has let it through with machine `g`. -/
theorem init_of_guard_ok {W : Type} (P : Platform W) (m g : Machine W)
    (h : init_guard P m = Except.ok g) :
    (init P m).ret = true ∧
    (init P m).machine.state.status = g.state.status ∧
    (init P m).machine.state.key1_k = g.state.key1_k ∧
    ∃ r1 o1 r2 o2 r3 o3,
      (init P m).machine.trace = g.trace ++
        [Call.sendCommand (bytesLE64 CMD_RAW_DUMMY) 0x2000 RespPtr.null
            (if g.state.status = Status.KEY2 then
              OpFlags.key2_response (OpFlags.key2_command
                (ROMCNT_CLK_SLOW ||| ROMCNT_DELAY2 0x18) true) true
             else ROMCNT_CLK_SLOW ||| ROMCNT_DELAY2 0x18) r1 o1,
          Call.ioDelay 0x40000,
          Call.sendCommand (bytesLE64 CMD_RAW_CHIPID) 4 RespPtr.chipid
            (if g.state.status = Status.KEY2 then
              OpFlags.key2_response (OpFlags.key2_command
                (ROMCNT_CLK_SLOW ||| ROMCNT_DELAY2 0x18) true) true
             else ROMCNT_CLK_SLOW ||| ROMCNT_DELAY2 0x18) r2 o2,
          Call.sendCommand (bytesLE64 CMD_RAW_HEADER_READ) 0x1000 RespPtr.hdr
            (if g.state.status = Status.KEY2 then
              OpFlags.key2_response (OpFlags.key2_command
                (ROMCNT_CLK_SLOW ||| ROMCNT_DELAY2 0x18) true) true
             else ROMCNT_CLK_SLOW ||| ROMCNT_DELAY2 0x18) r3 o3] ∧
      r2.length = 4 ∧
      (init P m).machine.state.chipid = store32 g.state.chipid r2 := by
  have ht : (init P m).machine.trace = (init P m).machine.trace := rfl
  have hc : (init P m).machine.state.chipid = (init P m).machine.state.chipid := rfl
  conv at ht =>
    rhs
    unfold init
    rw [h]
    dsimp only
    simp only [logMessage_trace, read_header_trace, sendCommand64_eq, sendCommand_trace,
      sendCommand_state, writeResp_status, List.append_assoc, List.singleton_append,
      List.cons_append, List.nil_append]
  conv at hc =>
    rhs
    unfold init
    rw [h]
    dsimp only
    simp only [logMessage_state, read_header_chipid, sendCommand64_eq, sendCommand_state,
      writeResp_chipid_get_chipid, writeResp_null]
  refine ⟨?_, ?_, ?_, _, _, _, _, _, _, ht, sendCommand_bytes_length _ _ _ _ _ _, hc⟩
  · unfold init
    rw [h]
  · unfold init
    rw [h]
    dsimp only
    simp only [logMessage_state, read_header_status, sendCommand64_eq, sendCommand_state,
      writeResp_status]
  · unfold init
    rw [h]
    dsimp only
    simp only [logMessage_state, read_header_key1_k, sendCommand64_eq, sendCommand_state,
      writeResp_key1_k]

/-! ## initKey1 and initKey2 -/

theorem initKey1_no_hw {W : Type} (P : Platform W) (key : BlowfishKey) (m : Machine W)
    (hH : P.HAS_HW_KEY2 = false) :
    initKey1 P key m =
      { ret := false, machine := logMessage P LogLevel.LOG_ERR LogMsg.key1_no_key2_support m } := by
  unfold initKey1
  rw [if_pos (by simp [hH])]

theorem initKey1_not_raw {W : Type} (P : Platform W) (key : BlowfishKey) (m : Machine W)
    (hH : P.HAS_HW_KEY2 = true) (hS : m.state.status ≠ Status.RAW) :
    initKey1 P key m =
      { ret := false
        machine := logMessage P LogLevel.LOG_ERR (LogMsg.key1_not_raw m.state.status) m } := by
  unfold initKey1
  rw [if_neg (by simp [hH]), if_pos hS]

theorem initKey1_pass {W : Type} (P : Platform W) (key : BlowfishKey) (m : Machine W)
    (hH : P.HAS_HW_KEY2 = true) (hS : m.state.status = Status.RAW) :
    initKey1 P key m =
      initKey1_finish P
        (key1_cmd P CMD_KEY1_CHIPID 4 RespPtr.key1_chipid (initKey1_setup P key m)) := by
  unfold initKey1
  rw [if_neg (by simp [hH]), if_neg (by simp [hS])]
  rfl

theorem initKey2_no_hw {W : Type} (P : Platform W) (m : Machine W)
    (hH : P.HAS_HW_KEY2 = false) :
    initKey2 P m =
      { ret := false, machine := logMessage P LogLevel.LOG_ERR LogMsg.key2_no_key2_support m } := by
  unfold initKey2
  rw [if_pos (by simp [hH])]

theorem initKey2_not_key1 {W : Type} (P : Platform W) (m : Machine W)
    (hH : P.HAS_HW_KEY2 = true) (hS : m.state.status ≠ Status.KEY1) :
    initKey2 P m =
      { ret := false
        machine := logMessage P LogLevel.LOG_ERR (LogMsg.key2_not_key1 m.state.status) m } := by
  unfold initKey2
  rw [if_neg (by simp [hH]), if_pos hS]

theorem initKey2_pass {W : Type} (P : Platform W) (m : Machine W)
    (hH : P.HAS_HW_KEY2 = true) (hS : m.state.status = Status.KEY1) :
    initKey2 P m =
      initKey2_finish P
        (sendCommand64 P CMD_KEY2_CHIPID 4 RespPtr.key2_chipid (initKey2_setup P m).state.key2_romcnt
          (initKey2_setup P m)).machine := by
  unfold initKey2
  rw [if_neg (by simp [hH]), if_neg (by simp [hS])]
  rfl

theorem key1_cmdf_null_state {W : Type} (P : Platform W) (cmdarg size : Nat)
    (arg ij flags : Nat) (m : Machine W) :
    (key1_cmdf P cmdarg size RespPtr.null arg ij flags m).state =
      { m.state with key1_k := (m.state.key1_k + 1) % 2 ^ 32 } := by
  rw [key1_cmdf_eq, sendCommand_state, writeResp_null]
  rfl

/-! ## Frame lemmas for the phases of initKey1 and initKey2 -/

@[simp] theorem key1_cmd_eq {W : Type} (P : Platform W) (cmdarg size : Nat) (dest : RespPtr)
    (m : Machine W) :
    key1_cmd P cmdarg size dest m =
      key1_cmdf P cmdarg size dest m.state.key1_l m.state.key1_ij m.state.key1_romcnt m :=
  rfl

theorem store32_eq_load32 (old : Nat) (bytes : List Nat) (h : bytes.length = 4) :
    store32 old bytes = load32 bytes 0 := by
  unfold store32 load32
  rw [List.getD_eq_getElem _ _ (by omega : 0 < bytes.length),
    List.getD_eq_getElem _ _ (by omega : 1 < bytes.length),
    List.getD_eq_getElem _ _ (by omega : 2 < bytes.length),
    List.getD_eq_getElem _ _ (by omega : 3 < bytes.length),
    List.getD_eq_getElem _ _ (by omega : 0 < bytes.length),
    List.getD_eq_getElem _ _ (by omega : 0 + 1 < bytes.length),
    List.getD_eq_getElem _ _ (by omega : 0 + 2 < bytes.length),
    List.getD_eq_getElem _ _ (by omega : 0 + 3 < bytes.length)]

@[simp] theorem initKey1_setup_status {W : Type} (P : Platform W) (key : BlowfishKey)
    (m : Machine W) : (initKey1_setup P key m).state.status = m.state.status := by
  unfold initKey1_setup
  dsimp only
  simp only [seed_key2_registers_status, key1_cmdf_null_state, sendCommand64_eq, sendCommand_state,
    writeResp_null, init_blowfish_status]

@[simp] theorem initKey1_setup_chipid {W : Type} (P : Platform W) (key : BlowfishKey)
    (m : Machine W) : (initKey1_setup P key m).state.chipid = m.state.chipid := by
  unfold initKey1_setup
  dsimp only
  simp only [seed_key2_registers_chipid, key1_cmdf_null_state, sendCommand64_eq, sendCommand_state,
    writeResp_null, init_blowfish_chipid]

@[simp] theorem initKey1_setup_key1_chipid {W : Type} (P : Platform W) (key : BlowfishKey)
    (m : Machine W) : (initKey1_setup P key m).state.key1_chipid = m.state.key1_chipid := by
  unfold initKey1_setup
  dsimp only
  simp only [seed_key2_registers_key1_chipid, key1_cmdf_null_state, sendCommand64_eq, sendCommand_state,
    writeResp_null, init_blowfish_key1_chipid]

@[simp] theorem initKey1_setup_key2_chipid {W : Type} (P : Platform W) (key : BlowfishKey)
    (m : Machine W) : (initKey1_setup P key m).state.key2_chipid = m.state.key2_chipid := by
  unfold initKey1_setup
  dsimp only
  simp only [seed_key2_registers_key2_chipid, key1_cmdf_null_state, sendCommand64_eq, sendCommand_state,
    writeResp_null, init_blowfish_key2_chipid]

@[simp] theorem initKey1_setup_game_code {W : Type} (P : Platform W) (key : BlowfishKey)
    (m : Machine W) : (initKey1_setup P key m).state.game_code = m.state.game_code := by
  unfold initKey1_setup
  dsimp only
  simp only [seed_key2_registers_game_code, key1_cmdf_null_state, sendCommand64_eq, sendCommand_state,
    writeResp_null, init_blowfish_game_code]

@[simp] theorem initKey1_setup_hdr_key1_romcnt {W : Type} (P : Platform W) (key : BlowfishKey)
    (m : Machine W) : (initKey1_setup P key m).state.hdr_key1_romcnt = m.state.hdr_key1_romcnt := by
  unfold initKey1_setup
  dsimp only
  simp only [seed_key2_registers_hdr_key1_romcnt, key1_cmdf_null_state, sendCommand64_eq, sendCommand_state,
    writeResp_null, init_blowfish_hdr_key1_romcnt]

@[simp] theorem initKey1_setup_hdr_key2_romcnt {W : Type} (P : Platform W) (key : BlowfishKey)
    (m : Machine W) : (initKey1_setup P key m).state.hdr_key2_romcnt = m.state.hdr_key2_romcnt := by
  unfold initKey1_setup
  dsimp only
  simp only [seed_key2_registers_hdr_key2_romcnt, key1_cmdf_null_state, sendCommand64_eq, sendCommand_state,
    writeResp_null, init_blowfish_hdr_key2_romcnt]

@[simp] theorem initKey1_setup_key2_romcnt {W : Type} (P : Platform W) (key : BlowfishKey)
    (m : Machine W) : (initKey1_setup P key m).state.key2_romcnt = m.state.key2_romcnt := by
  unfold initKey1_setup
  dsimp only
  simp only [seed_key2_registers_key2_romcnt, key1_cmdf_null_state, sendCommand64_eq, sendCommand_state,
    writeResp_null, init_blowfish_key2_romcnt]

@[simp] theorem initKey1_setup_key1_k {W : Type} (P : Platform W) (key : BlowfishKey)
    (m : Machine W) : (initKey1_setup P key m).state.key1_k = 0x39D47 := by
  unfold initKey1_setup
  dsimp only
  simp only [seed_key2_registers_key1_k, key1_cmdf_null_state, sendCommand64_eq, sendCommand_state,
    writeResp_null, init_blowfish_key1_k]
  decide

@[simp] theorem initKey1_setup_key1_ij {W : Type} (P : Platform W) (key : BlowfishKey)
    (m : Machine W) : (initKey1_setup P key m).state.key1_ij = 0x11A473 := by
  unfold initKey1_setup
  dsimp only
  simp only [seed_key2_registers_key1_ij, key1_cmdf_null_state, sendCommand64_eq, sendCommand_state,
    writeResp_null, init_blowfish_key1_ij]

@[simp] theorem initKey1_setup_key1_l {W : Type} (P : Platform W) (key : BlowfishKey)
    (m : Machine W) : (initKey1_setup P key m).state.key1_l = 0 := by
  unfold initKey1_setup
  dsimp only
  simp only [seed_key2_registers_key1_l, key1_cmdf_null_state, sendCommand64_eq, sendCommand_state,
    writeResp_null, init_blowfish_key1_l]

@[simp] theorem initKey1_setup_key2_seed {W : Type} (P : Platform W) (key : BlowfishKey)
    (m : Machine W) : (initKey1_setup P key m).state.key2_seed = m.state.key2_seed := by
  unfold initKey1_setup
  dsimp only
  simp only [seed_key2_registers_key2_seed, key1_cmdf_null_state, sendCommand64_eq, sendCommand_state,
    writeResp_null, init_blowfish_key2_seed]

@[simp] theorem initKey1_setup_key2_mn {W : Type} (P : Platform W) (key : BlowfishKey)
    (m : Machine W) : (initKey1_setup P key m).state.key2_mn = 0xC99ACE := by
  unfold initKey1_setup
  dsimp only
  simp only [seed_key2_registers_key2_mn, key1_cmdf_null_state, sendCommand64_eq, sendCommand_state,
    writeResp_null, init_blowfish_key2_mn]

@[simp] theorem initKey2_setup_status {W : Type} (P : Platform W) (m : Machine W) :
    (initKey2_setup P m).state.status = m.state.status := by
  unfold initKey2_setup
  dsimp only
  simp only [key1_cmd_eq, key1_cmdf_null_state]

@[simp] theorem initKey2_setup_chipid {W : Type} (P : Platform W) (m : Machine W) :
    (initKey2_setup P m).state.chipid = m.state.chipid := by
  unfold initKey2_setup
  dsimp only
  simp only [key1_cmd_eq, key1_cmdf_null_state]

@[simp] theorem initKey2_setup_key1_chipid {W : Type} (P : Platform W) (m : Machine W) :
    (initKey2_setup P m).state.key1_chipid = m.state.key1_chipid := by
  unfold initKey2_setup
  dsimp only
  simp only [key1_cmd_eq, key1_cmdf_null_state]

@[simp] theorem initKey2_setup_key2_chipid {W : Type} (P : Platform W) (m : Machine W) :
    (initKey2_setup P m).state.key2_chipid = m.state.key2_chipid := by
  unfold initKey2_setup
  dsimp only
  simp only [key1_cmd_eq, key1_cmdf_null_state]

@[simp] theorem initKey2_setup_game_code {W : Type} (P : Platform W) (m : Machine W) :
    (initKey2_setup P m).state.game_code = m.state.game_code := by
  unfold initKey2_setup
  dsimp only
  simp only [key1_cmd_eq, key1_cmdf_null_state]

@[simp] theorem initKey2_setup_hdr_key1_romcnt {W : Type} (P : Platform W) (m : Machine W) :
    (initKey2_setup P m).state.hdr_key1_romcnt = m.state.hdr_key1_romcnt := by
  unfold initKey2_setup
  dsimp only
  simp only [key1_cmd_eq, key1_cmdf_null_state]

@[simp] theorem initKey2_setup_hdr_key2_romcnt {W : Type} (P : Platform W) (m : Machine W) :
    (initKey2_setup P m).state.hdr_key2_romcnt = m.state.hdr_key2_romcnt := by
  unfold initKey2_setup
  dsimp only
  simp only [key1_cmd_eq, key1_cmdf_null_state]

@[simp] theorem initKey2_setup_key1_romcnt {W : Type} (P : Platform W) (m : Machine W) :
    (initKey2_setup P m).state.key1_romcnt = m.state.key1_romcnt := by
  unfold initKey2_setup
  dsimp only
  simp only [key1_cmd_eq, key1_cmdf_null_state]

@[simp] theorem initKey2_setup_key1_ps {W : Type} (P : Platform W) (m : Machine W) :
    (initKey2_setup P m).state.key1_ps = m.state.key1_ps := by
  unfold initKey2_setup
  dsimp only
  simp only [key1_cmd_eq, key1_cmdf_null_state]

@[simp] theorem initKey2_setup_key1_key {W : Type} (P : Platform W) (m : Machine W) :
    (initKey2_setup P m).state.key1_key = m.state.key1_key := by
  unfold initKey2_setup
  dsimp only
  simp only [key1_cmd_eq, key1_cmdf_null_state]

@[simp] theorem initKey2_setup_key1_k {W : Type} (P : Platform W) (m : Machine W) :
    (initKey2_setup P m).state.key1_k = (m.state.key1_k + 1) % 2 ^ 32 := by
  unfold initKey2_setup
  dsimp only
  simp only [key1_cmd_eq, key1_cmdf_null_state]

@[simp] theorem initKey2_setup_key1_ij {W : Type} (P : Platform W) (m : Machine W) :
    (initKey2_setup P m).state.key1_ij = m.state.key1_ij := by
  unfold initKey2_setup
  dsimp only
  simp only [key1_cmd_eq, key1_cmdf_null_state]

@[simp] theorem initKey2_setup_key1_l {W : Type} (P : Platform W) (m : Machine W) :
    (initKey2_setup P m).state.key1_l = m.state.key1_l := by
  unfold initKey2_setup
  dsimp only
  simp only [key1_cmd_eq, key1_cmdf_null_state]

@[simp] theorem initKey2_setup_key2_seed {W : Type} (P : Platform W) (m : Machine W) :
    (initKey2_setup P m).state.key2_seed = m.state.key2_seed := by
  unfold initKey2_setup
  dsimp only
  simp only [key1_cmd_eq, key1_cmdf_null_state]

@[simp] theorem initKey2_setup_key2_mn {W : Type} (P : Platform W) (m : Machine W) :
    (initKey2_setup P m).state.key2_mn = m.state.key2_mn := by
  unfold initKey2_setup
  dsimp only
  simp only [key1_cmd_eq, key1_cmdf_null_state]

@[simp] theorem initKey2_setup_key2_y {W : Type} (P : Platform W) (m : Machine W) :
    (initKey2_setup P m).state.key2_y = m.state.key2_y := by
  unfold initKey2_setup
  dsimp only
  simp only [key1_cmd_eq, key1_cmdf_null_state]

@[simp] theorem initKey2_setup_key2_x {W : Type} (P : Platform W) (m : Machine W) :
    (initKey2_setup P m).state.key2_x = m.state.key2_x := by
  unfold initKey2_setup
  dsimp only
  simp only [key1_cmd_eq, key1_cmdf_null_state]

@[simp] theorem initKey1_finish_chipid {W : Type} (P : Platform W) (m : Machine W) :
    (initKey1_finish P m).machine.state.chipid = m.state.chipid := by
  unfold initKey1_finish
  split <;> rfl

@[simp] theorem initKey1_finish_key1_chipid {W : Type} (P : Platform W) (m : Machine W) :
    (initKey1_finish P m).machine.state.key1_chipid = m.state.key1_chipid := by
  unfold initKey1_finish
  split <;> rfl

@[simp] theorem initKey1_finish_key2_chipid {W : Type} (P : Platform W) (m : Machine W) :
    (initKey1_finish P m).machine.state.key2_chipid = m.state.key2_chipid := by
  unfold initKey1_finish
  split <;> rfl

@[simp] theorem initKey1_finish_game_code {W : Type} (P : Platform W) (m : Machine W) :
    (initKey1_finish P m).machine.state.game_code = m.state.game_code := by
  unfold initKey1_finish
  split <;> rfl

@[simp] theorem initKey1_finish_hdr_key1_romcnt {W : Type} (P : Platform W) (m : Machine W) :
    (initKey1_finish P m).machine.state.hdr_key1_romcnt = m.state.hdr_key1_romcnt := by
  unfold initKey1_finish
  split <;> rfl

@[simp] theorem initKey1_finish_hdr_key2_romcnt {W : Type} (P : Platform W) (m : Machine W) :
    (initKey1_finish P m).machine.state.hdr_key2_romcnt = m.state.hdr_key2_romcnt := by
  unfold initKey1_finish
  split <;> rfl

@[simp] theorem initKey1_finish_key1_romcnt {W : Type} (P : Platform W) (m : Machine W) :
    (initKey1_finish P m).machine.state.key1_romcnt = m.state.key1_romcnt := by
  unfold initKey1_finish
  split <;> rfl

@[simp] theorem initKey1_finish_key2_romcnt {W : Type} (P : Platform W) (m : Machine W) :
    (initKey1_finish P m).machine.state.key2_romcnt = m.state.key2_romcnt := by
  unfold initKey1_finish
  split <;> rfl

@[simp] theorem initKey1_finish_key1_ps {W : Type} (P : Platform W) (m : Machine W) :
    (initKey1_finish P m).machine.state.key1_ps = m.state.key1_ps := by
  unfold initKey1_finish
  split <;> rfl

@[simp] theorem initKey1_finish_key1_key {W : Type} (P : Platform W) (m : Machine W) :
    (initKey1_finish P m).machine.state.key1_key = m.state.key1_key := by
  unfold initKey1_finish
  split <;> rfl

@[simp] theorem initKey1_finish_key1_k {W : Type} (P : Platform W) (m : Machine W) :
    (initKey1_finish P m).machine.state.key1_k = m.state.key1_k := by
  unfold initKey1_finish
  split <;> rfl

@[simp] theorem initKey1_finish_key1_ij {W : Type} (P : Platform W) (m : Machine W) :
    (initKey1_finish P m).machine.state.key1_ij = m.state.key1_ij := by
  unfold initKey1_finish
  split <;> rfl

@[simp] theorem initKey1_finish_key1_l {W : Type} (P : Platform W) (m : Machine W) :
    (initKey1_finish P m).machine.state.key1_l = m.state.key1_l := by
  unfold initKey1_finish
  split <;> rfl

@[simp] theorem initKey1_finish_key2_seed {W : Type} (P : Platform W) (m : Machine W) :
    (initKey1_finish P m).machine.state.key2_seed = m.state.key2_seed := by
  unfold initKey1_finish
  split <;> rfl

@[simp] theorem initKey1_finish_key2_mn {W : Type} (P : Platform W) (m : Machine W) :
    (initKey1_finish P m).machine.state.key2_mn = m.state.key2_mn := by
  unfold initKey1_finish
  split <;> rfl

@[simp] theorem initKey1_finish_key2_y {W : Type} (P : Platform W) (m : Machine W) :
    (initKey1_finish P m).machine.state.key2_y = m.state.key2_y := by
  unfold initKey1_finish
  split <;> rfl

@[simp] theorem initKey1_finish_key2_x {W : Type} (P : Platform W) (m : Machine W) :
    (initKey1_finish P m).machine.state.key2_x = m.state.key2_x := by
  unfold initKey1_finish
  split <;> rfl

@[simp] theorem initKey1_finish_trace {W : Type} (P : Platform W) (m : Machine W) :
    (initKey1_finish P m).machine.trace = m.trace := by
  unfold initKey1_finish
  split <;> rfl

theorem initKey1_finish_match {W : Type} (P : Platform W) (m : Machine W)
    (h : m.state.key1_chipid = m.state.chipid) :
    (initKey1_finish P m).ret = true ∧
      (initKey1_finish P m).machine.state.status = Status.KEY1 := by
  unfold initKey1_finish
  rw [if_neg (not_not.mpr h)]
  exact ⟨rfl, rfl⟩

theorem initKey1_finish_mismatch {W : Type} (P : Platform W) (m : Machine W)
    (h : m.state.key1_chipid ≠ m.state.chipid) :
    (initKey1_finish P m).ret = false ∧
      (initKey1_finish P m).machine.state.status = Status.UNKNOWN := by
  unfold initKey1_finish
  rw [if_pos h]
  exact ⟨rfl, rfl⟩

@[simp] theorem initKey2_finish_chipid {W : Type} (P : Platform W) (m : Machine W) :
    (initKey2_finish P m).machine.state.chipid = m.state.chipid := by
  unfold initKey2_finish
  split <;> rfl

@[simp] theorem initKey2_finish_key1_chipid {W : Type} (P : Platform W) (m : Machine W) :
    (initKey2_finish P m).machine.state.key1_chipid = m.state.key1_chipid := by
  unfold initKey2_finish
  split <;> rfl

@[simp] theorem initKey2_finish_key2_chipid {W : Type} (P : Platform W) (m : Machine W) :
    (initKey2_finish P m).machine.state.key2_chipid = m.state.key2_chipid := by
  unfold initKey2_finish
  split <;> rfl

@[simp] theorem initKey2_finish_game_code {W : Type} (P : Platform W) (m : Machine W) :
    (initKey2_finish P m).machine.state.game_code = m.state.game_code := by
  unfold initKey2_finish
  split <;> rfl

@[simp] theorem initKey2_finish_hdr_key1_romcnt {W : Type} (P : Platform W) (m : Machine W) :
    (initKey2_finish P m).machine.state.hdr_key1_romcnt = m.state.hdr_key1_romcnt := by
  unfold initKey2_finish
  split <;> rfl

@[simp] theorem initKey2_finish_hdr_key2_romcnt {W : Type} (P : Platform W) (m : Machine W) :
    (initKey2_finish P m).machine.state.hdr_key2_romcnt = m.state.hdr_key2_romcnt := by
  unfold initKey2_finish
  split <;> rfl

@[simp] theorem initKey2_finish_key1_romcnt {W : Type} (P : Platform W) (m : Machine W) :
    (initKey2_finish P m).machine.state.key1_romcnt = m.state.key1_romcnt := by
  unfold initKey2_finish
  split <;> rfl

@[simp] theorem initKey2_finish_key2_romcnt {W : Type} (P : Platform W) (m : Machine W) :
    (initKey2_finish P m).machine.state.key2_romcnt = m.state.key2_romcnt := by
  unfold initKey2_finish
  split <;> rfl

@[simp] theorem initKey2_finish_key1_ps {W : Type} (P : Platform W) (m : Machine W) :
    (initKey2_finish P m).machine.state.key1_ps = m.state.key1_ps := by
  unfold initKey2_finish
  split <;> rfl

@[simp] theorem initKey2_finish_key1_key {W : Type} (P : Platform W) (m : Machine W) :
    (initKey2_finish P m).machine.state.key1_key = m.state.key1_key := by
  unfold initKey2_finish
  split <;> rfl

@[simp] theorem initKey2_finish_key1_k {W : Type} (P : Platform W) (m : Machine W) :
    (initKey2_finish P m).machine.state.key1_k = m.state.key1_k := by
  unfold initKey2_finish
  split <;> rfl

@[simp] theorem initKey2_finish_key1_ij {W : Type} (P : Platform W) (m : Machine W) :
    (initKey2_finish P m).machine.state.key1_ij = m.state.key1_ij := by
  unfold initKey2_finish
  split <;> rfl

@[simp] theorem initKey2_finish_key1_l {W : Type} (P : Platform W) (m : Machine W) :
    (initKey2_finish P m).machine.state.key1_l = m.state.key1_l := by
  unfold initKey2_finish
  split <;> rfl

@[simp] theorem initKey2_finish_key2_seed {W : Type} (P : Platform W) (m : Machine W) :
    (initKey2_finish P m).machine.state.key2_seed = m.state.key2_seed := by
  unfold initKey2_finish
  split <;> rfl

@[simp] theorem initKey2_finish_key2_mn {W : Type} (P : Platform W) (m : Machine W) :
    (initKey2_finish P m).machine.state.key2_mn = m.state.key2_mn := by
  unfold initKey2_finish
  split <;> rfl

@[simp] theorem initKey2_finish_key2_y {W : Type} (P : Platform W) (m : Machine W) :
    (initKey2_finish P m).machine.state.key2_y = m.state.key2_y := by
  unfold initKey2_finish
  split <;> rfl

@[simp] theorem initKey2_finish_key2_x {W : Type} (P : Platform W) (m : Machine W) :
    (initKey2_finish P m).machine.state.key2_x = m.state.key2_x := by
  unfold initKey2_finish
  split <;> rfl

@[simp] theorem initKey2_finish_trace {W : Type} (P : Platform W) (m : Machine W) :
    (initKey2_finish P m).machine.trace = m.trace := by
  unfold initKey2_finish
  split <;> rfl

theorem initKey2_finish_match {W : Type} (P : Platform W) (m : Machine W)
    (h : m.state.key2_chipid = m.state.chipid) :
    (initKey2_finish P m).ret = true ∧
      (initKey2_finish P m).machine.state.status = Status.KEY2 := by
  unfold initKey2_finish
  rw [if_neg (not_not.mpr h)]
  exact ⟨rfl, rfl⟩

theorem initKey2_finish_mismatch {W : Type} (P : Platform W) (m : Machine W)
    (h : m.state.key2_chipid ≠ m.state.chipid) :
    (initKey2_finish P m).ret = false ∧
      (initKey2_finish P m).machine.state.status = Status.UNKNOWN := by
  unfold initKey2_finish
  rw [if_pos h]
  exact ⟨rfl, rfl⟩

/-! ## C3 -/

theorem init_key1_k {W : Type} (P : Platform W) (m : Machine W) :
    (init P m).machine.state.key1_k = m.state.key1_k := by
  cases hg : init_guard P m with
  | error e =>
    have he : e.state.key1_k = m.state.key1_k := by
      unfold init_guard at hg
      split at hg
      · dsimp only at hg
        split at hg
        · injection hg with hg
          rw [← hg]
          rfl
        · injection hg
      · split at hg
        · injection hg with hg
          rw [← hg]
          rfl
        · injection hg
    unfold init
    rw [hg]
    exact he
  | ok g =>
    have hgk : g.state.key1_k = m.state.key1_k := by
      unfold init_guard at hg
      split at hg
      · dsimp only at hg
        split at hg
        · injection hg
        · injection hg with hg
          rw [← hg]
      · split at hg
        · injection hg
        · injection hg with hg
          rw [← hg]
    rw [(init_of_guard_ok P m g hg).2.2.1, hgk]

/-- C3, as the code has it: `key1_cmdf` sends one command, the encryption of the word
packed from the value `state.key1_k` had before the call, and leaves
`state.key1_k = old + 1 (mod 2^32)`; the only other change to `state` is the response
written through `dest`, so with a null `dest` no other field changes.  `sendCommand` and
`init` leave `key1_k` alone, and so do `initKey1` and `initKey2` when a guard fails;
`initKey2` past its guards adds one; `initKey1` past its guards ends with
`key1_k = 0x39D48`, and an `initKey2` that follows it and passes its guards ends with
`key1_k = 0x39D49`. -/
theorem C3_counter_discipline {W : Type} (P : Platform W) (key : BlowfishKey)
    (cmdarg size : Nat) (dest : RespPtr) (arg ij flags : Nat) (cmdbuf : List Nat) (len : Nat)
    (m : Machine W) :
    (∃ response ok,
      (key1_cmdf P cmdarg size dest arg ij flags m).trace =
        m.trace ++ [Call.sendCommand
          (bytesLE64 (key1_wire P m.state.key1_ps cmdarg arg ij m.state.key1_k)) (size % 2 ^ 16) dest
          (if m.state.status = Status.KEY2 then
            OpFlags.key2_response (OpFlags.key2_command flags true) true else flags)
          response ok] ∧
      response.length = size % 2 ^ 16 ∧
      (key1_cmdf P cmdarg size dest arg ij flags m).state =
        writeResp dest response { m.state with key1_k := (m.state.key1_k + 1) % 2 ^ 32 }) ∧
    (key1_cmdf P cmdarg size dest arg ij flags m).state.key1_k = (m.state.key1_k + 1) % 2 ^ 32 ∧
    (key1_cmdf P cmdarg size RespPtr.null arg ij flags m).state =
      { m.state with key1_k := (m.state.key1_k + 1) % 2 ^ 32 } ∧
    (sendCommand P cmdbuf len dest flags m).machine.state.key1_k = m.state.key1_k ∧
    (init P m).machine.state.key1_k = m.state.key1_k ∧
    (P.HAS_HW_KEY2 = false ∨ m.state.status ≠ Status.RAW →
      (initKey1 P key m).machine.state.key1_k = m.state.key1_k) ∧
    (P.HAS_HW_KEY2 = false ∨ m.state.status ≠ Status.KEY1 →
      (initKey2 P m).machine.state.key1_k = m.state.key1_k) ∧
    (P.HAS_HW_KEY2 = true → m.state.status = Status.KEY1 →
      (initKey2 P m).machine.state.key1_k = (m.state.key1_k + 1) % 2 ^ 32) ∧
    (P.HAS_HW_KEY2 = true → m.state.status = Status.RAW →
      (initKey1 P key m).machine.state.key1_k = 0x39D48) ∧
    (P.HAS_HW_KEY2 = true → m.state.status = Status.RAW →
      (initKey1 P key m).machine.state.status = Status.KEY1 →
      (initKey2 P (initKey1 P key m).machine).machine.state.key1_k = 0x39D49) := by
  have hpass2 : ∀ n : Machine W, P.HAS_HW_KEY2 = true → n.state.status = Status.KEY1 →
      (initKey2 P n).machine.state.key1_k = (n.state.key1_k + 1) % 2 ^ 32 := by
    intro n hH hS
    rw [initKey2_pass P n hH hS]
    simp only [initKey2_finish_key1_k, sendCommand64_eq, sendCommand_state, writeResp_key1_k,
      initKey2_setup_key1_k]
  have hpass1 : P.HAS_HW_KEY2 = true → m.state.status = Status.RAW →
      (initKey1 P key m).machine.state.key1_k = 0x39D48 := by
    intro hH hS
    rw [initKey1_pass P key m hH hS]
    simp only [initKey1_finish_key1_k, key1_cmd_eq, key1_cmdf_key1_k, initKey1_setup_key1_k]
    decide
  refine ⟨key1_cmdf_spec P cmdarg size dest arg ij flags m, key1_cmdf_key1_k _ _ _ _ _ _ _ _,
    key1_cmdf_null_state _ _ _ _ _ _ _, ?_, init_key1_k P m, ?_, ?_, hpass2 m, hpass1, ?_⟩
  · simp only [sendCommand_state, writeResp_key1_k]
  · intro h
    by_cases hH : P.HAS_HW_KEY2 = true
    · rcases h with h | h
      · rw [hH] at h
        exact absurd h (by decide)
      · rw [initKey1_not_raw P key m hH h]
        rfl
    · rw [initKey1_no_hw P key m (by simpa using hH)]
      rfl
  · intro h
    by_cases hH : P.HAS_HW_KEY2 = true
    · rcases h with h | h
      · rw [hH] at h
        exact absurd h (by decide)
      · rw [initKey2_not_key1 P m hH h]
        rfl
    · rw [initKey2_no_hw P m (by simpa using hH)]
      rfl
  · intro hH hS hK
    rw [hpass2 _ hH hK, hpass1 hH hS]
    decide

/-- C3 counterexample: a `key1_cmdf` whose `dest` is `&state.key1_chipid`, on a transport
that answers with bytes 01 01 01 01, changes `key1_chipid` from 0 to 0x01010101, so more
than `key1_k` has changed. -/
theorem C3_other_field_counterexample :
    (simMachine Status.RAW).state.key1_chipid = 0 ∧
    (key1_cmdf (simPlatform true true 0 (fun _ => 1)) CMD_KEY1_CHIPID 4 RespPtr.key1_chipid 0 0 0
      (simMachine Status.RAW)).state.key1_chipid = 0x01010101 ∧
    (key1_cmdf (simPlatform true true 0 (fun _ => 1)) CMD_KEY1_CHIPID 4 RespPtr.key1_chipid 0 0 0
      (simMachine Status.RAW)).state ≠
      { (simMachine Status.RAW).state with
        key1_k := ((simMachine Status.RAW).state.key1_k + 1) % 2 ^ 32 } := by
  refine ⟨rfl, by decide, ?_⟩
  intro h
  have h2 := congrArg State.key1_chipid h
  revert h2
  decide

/-- C3 witness: on the simulated platform from status RAW, `initKey1` passes its guards
and succeeds, and the `initKey2` that follows passes its guards. -/
theorem C3_counter_discipline_witness :
    (simPlatform true true 0 (fun _ => 0)).HAS_HW_KEY2 = true ∧
    (simMachine Status.RAW).state.status = Status.RAW ∧
    (initKey1 (simPlatform true true 0 (fun _ => 0)) (BlowfishKey.other 0)
      (simMachine Status.RAW)).machine.state.status = Status.KEY1 ∧
    (initKey1 (simPlatform true true 0 (fun _ => 0)) (BlowfishKey.other 0)
      (simMachine Status.RAW)).machine.state.key1_k = 0x39D48 ∧
    (initKey2 (simPlatform true true 0 (fun _ => 0))
      (initKey1 (simPlatform true true 0 (fun _ => 0)) (BlowfishKey.other 0)
        (simMachine Status.RAW)).machine).machine.state.key1_k = 0x39D49 :=
  ⟨rfl, rfl, by decide,
    (C3_counter_discipline (simPlatform true true 0 (fun _ => 0)) (BlowfishKey.other 0)
      0 0 RespPtr.null 0 0 0 [] 0 (simMachine Status.RAW)).2.2.2.2.2.2.2.2.1 rfl rfl,
    (C3_counter_discipline (simPlatform true true 0 (fun _ => 0)) (BlowfishKey.other 0)
      0 0 RespPtr.null 0 0 0 [] 0 (simMachine Status.RAW)).2.2.2.2.2.2.2.2.2 rfl rfl
      (by decide)⟩

/-! ## C4 -/

/-- What `initKey1` does once it is past its guards. -/
theorem initKey1_pass_outcome {W : Type} (P : Platform W) (key : BlowfishKey) (m : Machine W)
    (hH : P.HAS_HW_KEY2 = true) (hS : m.state.status = Status.RAW) :
    ∃ before cmdbuf flags response ok,
      (initKey1 P key m).machine.trace =
        before ++ [Call.sendCommand cmdbuf 4 RespPtr.key1_chipid flags response ok] ∧
      cmdbuf = bytesLE64
        (key1_wire P (initKey1 P key m).machine.state.key1_ps CMD_KEY1_CHIPID 0 0x11A473 0x39D47) ∧
      response.length = 4 ∧
      (initKey1 P key m).machine.state.key1_chipid = load32 response 0 ∧
      (initKey1 P key m).machine.state.chipid = m.state.chipid ∧
      (((initKey1 P key m).ret = true ∧ (initKey1 P key m).machine.state.status = Status.KEY1) ↔
        load32 response 0 = m.state.chipid) ∧
      (load32 response 0 ≠ m.state.chipid →
        (initKey1 P key m).ret = false ∧
          (initKey1 P key m).machine.state.status = Status.UNKNOWN) ∧
      ((initKey1 P key m).machine.state.status = Status.KEY1 ∨
        (initKey1 P key m).machine.state.status = Status.UNKNOWN) := by
  obtain ⟨response, ok, htr, hlen, hst⟩ := key1_cmdf_spec P CMD_KEY1_CHIPID 4
    RespPtr.key1_chipid (initKey1_setup P key m).state.key1_l
    (initKey1_setup P key m).state.key1_ij (initKey1_setup P key m).state.key1_romcnt
    (initKey1_setup P key m)
  have h4 : 4 % 2 ^ 16 = 4 := by decide
  rw [h4] at htr hlen
  rw [initKey1_setup_key1_l, initKey1_setup_key1_ij, initKey1_setup_key1_k,
    initKey1_setup_status, hS, if_neg (by decide)] at htr
  have hk1 : (key1_cmd P CMD_KEY1_CHIPID 4 RespPtr.key1_chipid
      (initKey1_setup P key m)).state.key1_chipid = load32 response 0 := by
    rw [key1_cmd_eq, hst, writeResp_key1_chipid_get_key1_chipid, store32_eq_load32 _ _ hlen]
  have hc : (key1_cmd P CMD_KEY1_CHIPID 4 RespPtr.key1_chipid
      (initKey1_setup P key m)).state.chipid = m.state.chipid := by
    rw [key1_cmd_eq, hst, writeResp_key1_chipid_get_chipid]
    exact initKey1_setup_chipid P key m
  have hps : (key1_cmd P CMD_KEY1_CHIPID 4 RespPtr.key1_chipid
      (initKey1_setup P key m)).state.key1_ps = (initKey1_setup P key m).state.key1_ps := by
    rw [key1_cmd_eq, key1_cmdf_key1_ps]
  rw [initKey1_pass P key m hH hS]
  refine ⟨(initKey1_setup P key m).trace,
    bytesLE64 (key1_wire P (initKey1_setup P key m).state.key1_ps CMD_KEY1_CHIPID 0 0x11A473 0x39D47),
    (initKey1_setup P key m).state.key1_romcnt, response, ok, ?_, ?_, hlen, ?_, ?_, ?_, ?_, ?_⟩
  · rw [initKey1_finish_trace, key1_cmd_eq, initKey1_setup_key1_l, initKey1_setup_key1_ij, htr]
  · rw [initKey1_finish_key1_ps, hps]
  · rw [initKey1_finish_key1_chipid, hk1]
  · rw [initKey1_finish_chipid, hc]
  · constructor
    · intro h
      by_contra hne
      have := initKey1_finish_mismatch P _ (by rw [hk1, hc]; exact hne)
      rw [this.1] at h
      exact absurd h.1 (by decide)
    · intro h
      exact initKey1_finish_match P _ (by rw [hk1, hc]; exact h)
  · intro hne
    exact initKey1_finish_mismatch P _ (by rw [hk1, hc]; exact hne)
  · by_cases h : load32 response 0 = m.state.chipid
    · exact Or.inl (initKey1_finish_match P _ (by rw [hk1, hc]; exact h)).2
    · exact Or.inr (initKey1_finish_mismatch P _ (by rw [hk1, hc]; exact h)).2

/-- C4: with hardware KEY2 support and status RAW, for every key selector, state and
platform, `initKey1` ends with the encrypted key1-chipid read (4-byte response into
`key1_chipid`); it returns true with status KEY1 exactly when that response equals
`state.chipid`, and otherwise returns false with status UNKNOWN; the final status is
KEY1 or UNKNOWN. -/
theorem C4_initKey1_outcome {W : Type} (P : Platform W) (key : BlowfishKey) (m : Machine W)
    (hH : P.HAS_HW_KEY2 = true) (hS : m.state.status = Status.RAW) :
    ∃ before cmdbuf flags response ok,
      (initKey1 P key m).machine.trace =
        before ++ [Call.sendCommand cmdbuf 4 RespPtr.key1_chipid flags response ok] ∧
      cmdbuf = bytesLE64
        (key1_wire P (initKey1 P key m).machine.state.key1_ps CMD_KEY1_CHIPID 0 0x11A473 0x39D47) ∧
      response.length = 4 ∧
      (initKey1 P key m).machine.state.key1_chipid = load32 response 0 ∧
      (initKey1 P key m).machine.state.chipid = m.state.chipid ∧
      (((initKey1 P key m).ret = true ∧ (initKey1 P key m).machine.state.status = Status.KEY1) ↔
        load32 response 0 = m.state.chipid) ∧
      (load32 response 0 ≠ m.state.chipid →
        (initKey1 P key m).ret = false ∧
          (initKey1 P key m).machine.state.status = Status.UNKNOWN) ∧
      ((initKey1 P key m).machine.state.status = Status.KEY1 ∨
        (initKey1 P key m).machine.state.status = Status.UNKNOWN) :=
  initKey1_pass_outcome P key m hH hS

/-- C4 witness: on the simulated platform in status RAW the key1-chipid read answers 0,
which is `chipid`, and `initKey1` returns true with status KEY1. -/
theorem C4_initKey1_outcome_witness :
    (simPlatform true true 0 (fun _ => 0)).HAS_HW_KEY2 = true ∧
    (simMachine Status.RAW).state.status = Status.RAW ∧
    (initKey1 (simPlatform true true 0 (fun _ => 0)) (BlowfishKey.other 0)
      (simMachine Status.RAW)).ret = true ∧
    (initKey1 (simPlatform true true 0 (fun _ => 0)) (BlowfishKey.other 0)
      (simMachine Status.RAW)).machine.state.status = Status.KEY1 := by
  obtain ⟨_, _, _, response, _, _, _, _, hk, _, hiff, _, _⟩ :=
    C4_initKey1_outcome (simPlatform true true 0 (fun _ => 0)) (BlowfishKey.other 0)
      (simMachine Status.RAW) rfl rfl
  have h0 : (initKey1 (simPlatform true true 0 (fun _ => 0)) (BlowfishKey.other 0)
      (simMachine Status.RAW)).machine.state.key1_chipid = 0 := by decide
  rw [hk] at h0
  exact ⟨rfl, rfl, hiff.mpr h0⟩

/-! ## C5 -/

/-- What `initKey2` does once it is past its guards. -/
theorem initKey2_pass_outcome {W : Type} (P : Platform W) (m : Machine W)
    (hH : P.HAS_HW_KEY2 = true) (hS : m.state.status = Status.KEY1) :
    ∃ before flags response ok,
      (initKey2 P m).machine.trace =
        before ++ [Call.sendCommand (bytesLE64 CMD_KEY2_CHIPID) 4 RespPtr.key2_chipid flags
          response ok] ∧
      response.length = 4 ∧
      (initKey2 P m).machine.state.key2_chipid = load32 response 0 ∧
      (initKey2 P m).machine.state.chipid = m.state.chipid ∧
      (((initKey2 P m).ret = true ∧ (initKey2 P m).machine.state.status = Status.KEY2) ↔
        load32 response 0 = m.state.chipid) ∧
      (load32 response 0 ≠ m.state.chipid →
        (initKey2 P m).ret = false ∧
          (initKey2 P m).machine.state.status = Status.UNKNOWN) ∧
      ((initKey2 P m).machine.state.status = Status.KEY2 ∨
        (initKey2 P m).machine.state.status = Status.UNKNOWN) := by
  have hlen : (sendCommand P (bytesLE64 CMD_KEY2_CHIPID) 4 RespPtr.key2_chipid
      (initKey2_setup P m).state.key2_romcnt (initKey2_setup P m)).bytes.length = 4 :=
    sendCommand_bytes_length _ _ _ _ _ _
  have hk2 : (sendCommand P (bytesLE64 CMD_KEY2_CHIPID) 4 RespPtr.key2_chipid
      (initKey2_setup P m).state.key2_romcnt (initKey2_setup P m)).machine.state.key2_chipid =
      load32 (sendCommand P (bytesLE64 CMD_KEY2_CHIPID) 4 RespPtr.key2_chipid
        (initKey2_setup P m).state.key2_romcnt (initKey2_setup P m)).bytes 0 := by
    rw [sendCommand_state, writeResp_key2_chipid_get_key2_chipid, store32_eq_load32 _ _ hlen]
  have hc : (sendCommand P (bytesLE64 CMD_KEY2_CHIPID) 4 RespPtr.key2_chipid
      (initKey2_setup P m).state.key2_romcnt (initKey2_setup P m)).machine.state.chipid =
      m.state.chipid := by
    rw [sendCommand_state, writeResp_key2_chipid_get_chipid]
    exact initKey2_setup_chipid P m
  rw [initKey2_pass P m hH hS, sendCommand64_eq]
  refine ⟨(initKey2_setup P m).trace, (initKey2_setup P m).state.key2_romcnt,
    (sendCommand P (bytesLE64 CMD_KEY2_CHIPID) 4 RespPtr.key2_chipid
      (initKey2_setup P m).state.key2_romcnt (initKey2_setup P m)).bytes,
    (sendCommand P (bytesLE64 CMD_KEY2_CHIPID) 4 RespPtr.key2_chipid
      (initKey2_setup P m).state.key2_romcnt (initKey2_setup P m)).ret, ?_, hlen, ?_, ?_, ?_, ?_, ?_⟩
  · rw [initKey2_finish_trace, sendCommand_trace, initKey2_setup_status, hS, if_neg (by decide)]
  · rw [initKey2_finish_key2_chipid, hk2]
  · rw [initKey2_finish_chipid, hc]
  · constructor
    · intro h
      by_contra hne
      have := initKey2_finish_mismatch P _ (by rw [hk2, hc]; exact hne)
      rw [this.1] at h
      exact absurd h.1 (by decide)
    · intro h
      exact initKey2_finish_match P _ (by rw [hk2, hc]; exact h)
  · intro hne
    exact initKey2_finish_mismatch P _ (by rw [hk2, hc]; exact hne)
  · by_cases h : load32 (sendCommand P (bytesLE64 CMD_KEY2_CHIPID) 4 RespPtr.key2_chipid
        (initKey2_setup P m).state.key2_romcnt (initKey2_setup P m)).bytes 0 = m.state.chipid
    · exact Or.inl (initKey2_finish_match P _ (by rw [hk2, hc]; exact h)).2
    · exact Or.inr (initKey2_finish_mismatch P _ (by rw [hk2, hc]; exact h)).2

/-- C5: with hardware KEY2 support and status KEY1, for every state and platform,
`initKey2` ends with the key2-chipid read (command 0xB8, 4-byte response into
`key2_chipid`); it returns true with status KEY2 exactly when that response equals
`state.chipid`, and otherwise returns false with status UNKNOWN. -/
theorem C5_initKey2_outcome {W : Type} (P : Platform W) (m : Machine W)
    (hH : P.HAS_HW_KEY2 = true) (hS : m.state.status = Status.KEY1) :
    ∃ before flags response ok,
      (initKey2 P m).machine.trace =
        before ++ [Call.sendCommand (bytesLE64 CMD_KEY2_CHIPID) 4 RespPtr.key2_chipid flags
          response ok] ∧
      response.length = 4 ∧
      (initKey2 P m).machine.state.key2_chipid = load32 response 0 ∧
      (initKey2 P m).machine.state.chipid = m.state.chipid ∧
      (((initKey2 P m).ret = true ∧ (initKey2 P m).machine.state.status = Status.KEY2) ↔
        load32 response 0 = m.state.chipid) ∧
      (load32 response 0 ≠ m.state.chipid →
        (initKey2 P m).ret = false ∧
          (initKey2 P m).machine.state.status = Status.UNKNOWN) ∧
      ((initKey2 P m).machine.state.status = Status.KEY2 ∨
        (initKey2 P m).machine.state.status = Status.UNKNOWN) :=
  initKey2_pass_outcome P m hH hS

/-- C5 witness: on the simulated platform in status KEY1 the key2-chipid read answers 0,
which is `chipid`, and `initKey2` returns true with status KEY2. -/
theorem C5_initKey2_outcome_witness :
    (simPlatform true true 0 (fun _ => 0)).HAS_HW_KEY2 = true ∧
    (simMachine Status.KEY1).state.status = Status.KEY1 ∧
    (initKey2 (simPlatform true true 0 (fun _ => 0)) (simMachine Status.KEY1)).ret = true ∧
    (initKey2 (simPlatform true true 0 (fun _ => 0))
      (simMachine Status.KEY1)).machine.state.status = Status.KEY2 := by
  obtain ⟨_, _, response, _, _, _, hk, _, hiff, _, _⟩ :=
    C5_initKey2_outcome (simPlatform true true 0 (fun _ => 0)) (simMachine Status.KEY1) rfl rfl
  have h0 : (initKey2 (simPlatform true true 0 (fun _ => 0))
      (simMachine Status.KEY1)).machine.state.key2_chipid = 0 := by decide
  rw [hk] at h0
  exact ⟨rfl, rfl, hiff.mpr h0⟩

/-! ## C6 -/

theorem init_of_guard_error {W : Type} (P : Platform W) (m e : Machine W)
    (h : init_guard P m = Except.error e) : init P m = { ret := false, machine := e } := by
  unfold init
  rw [h]

/-- C6: `initKey1` without hardware KEY2 support or with status other than RAW,
`initKey2` without hardware KEY2 support or with status other than KEY1, and `init`
without reset support while status > RAW, each return false, leave every field of
`state` as it was and make no call to the transport (the trace is unchanged); with the
enumeration in the order the specification lists, status > RAW means KEY1 or KEY2. -/
theorem C6_failures_atomic {W : Type} (P : Platform W) (key : BlowfishKey) (m : Machine W) :
    (P.HAS_HW_KEY2 = false ∨ m.state.status ≠ Status.RAW →
      (initKey1 P key m).ret = false ∧ (initKey1 P key m).machine.state = m.state ∧
        (initKey1 P key m).machine.trace = m.trace) ∧
    (P.HAS_HW_KEY2 = false ∨ m.state.status ≠ Status.KEY1 →
      (initKey2 P m).ret = false ∧ (initKey2 P m).machine.state = m.state ∧
        (initKey2 P m).machine.trace = m.trace) ∧
    (P.CAN_RESET = false → P.statusValue m.state.status > P.statusValue Status.RAW →
      (init P m).ret = false ∧ (init P m).machine.state = m.state ∧
        (init P m).machine.trace = m.trace) ∧
    (∀ s : Status, specStatusValue s > specStatusValue Status.RAW ↔
      s = Status.KEY1 ∨ s = Status.KEY2) := by
  refine ⟨?_, ?_, ?_, ?_⟩
  · intro h
    by_cases hH : P.HAS_HW_KEY2 = true
    · rcases h with h | h
      · rw [hH] at h
        exact absurd h (by decide)
      · rw [initKey1_not_raw P key m hH h]
        exact ⟨rfl, rfl, rfl⟩
    · rw [initKey1_no_hw P key m (by simpa using hH)]
      exact ⟨rfl, rfl, rfl⟩
  · intro h
    by_cases hH : P.HAS_HW_KEY2 = true
    · rcases h with h | h
      · rw [hH] at h
        exact absurd h (by decide)
      · rw [initKey2_not_key1 P m hH h]
        exact ⟨rfl, rfl, rfl⟩
    · rw [initKey2_no_hw P m (by simpa using hH)]
      exact ⟨rfl, rfl, rfl⟩
  · intro hR hs
    rw [init_of_guard_error P m _ (init_guard_no_reset_refused P m hR hs)]
    exact ⟨rfl, rfl, rfl⟩
  · intro s
    cases s <;> decide

/-- C6 witness: the simulated platform without reset support, in status KEY2. -/
theorem C6_failures_atomic_witness :
    ((initKey1 (simPlatform true false 0 (fun _ => 0)) (BlowfishKey.other 0) (simMachine Status.KEY2)).ret = false ∧
      (initKey1 (simPlatform true false 0 (fun _ => 0)) (BlowfishKey.other 0) (simMachine Status.KEY2)).machine.state =
        (simMachine Status.KEY2).state ∧
      (initKey1 (simPlatform true false 0 (fun _ => 0)) (BlowfishKey.other 0) (simMachine Status.KEY2)).machine.trace =
        (simMachine Status.KEY2).trace) ∧
    ((initKey2 (simPlatform true false 0 (fun _ => 0)) (simMachine Status.KEY2)).ret = false ∧
      (initKey2 (simPlatform true false 0 (fun _ => 0)) (simMachine Status.KEY2)).machine.state = (simMachine Status.KEY2).state ∧
      (initKey2 (simPlatform true false 0 (fun _ => 0)) (simMachine Status.KEY2)).machine.trace = (simMachine Status.KEY2).trace) ∧
    ((init (simPlatform true false 0 (fun _ => 0)) (simMachine Status.KEY2)).ret = false ∧
      (init (simPlatform true false 0 (fun _ => 0)) (simMachine Status.KEY2)).machine.state = (simMachine Status.KEY2).state ∧
      (init (simPlatform true false 0 (fun _ => 0)) (simMachine Status.KEY2)).machine.trace = (simMachine Status.KEY2).trace) :=
  ⟨(C6_failures_atomic (simPlatform true false 0 (fun _ => 0)) (BlowfishKey.other 0) (simMachine Status.KEY2)).1
      (Or.inr (by decide)),
    (C6_failures_atomic (simPlatform true false 0 (fun _ => 0)) (BlowfishKey.other 0) (simMachine Status.KEY2)).2.1
      (Or.inr (by decide)),
    (C6_failures_atomic (simPlatform true false 0 (fun _ => 0)) (BlowfishKey.other 0) (simMachine Status.KEY2)).2.2.1
      rfl (by decide)⟩

/-! ## C7 -/

/-- C7: on a platform with reset support, whatever the status before: if `resetCard`
returns a nonzero code, `init` returns false, leaves `state` as it was and calls nothing
but `resetCard`; if it returns 0, `init` returns true with status RAW after calling, in
this order, `resetCard`, the dummy read (0x9F, 0x2000 bytes, no buffer), `ioDelay`, the
chip-id read (0x90, 4 bytes into `chipid`) and the header read (0x00, 0x1000 bytes),
whatever the sends return. -/
theorem C7_init_with_reset {W : Type} (P : Platform W) (m : Machine W)
    (hR : P.CAN_RESET = true) :
    ((P.resetCard m.world).2 ≠ 0 →
      (init P m).ret = false ∧ (init P m).machine.state = m.state ∧
        (init P m).machine.trace = m.trace ++ [Call.resetCard (P.resetCard m.world).2]) ∧
    ((P.resetCard m.world).2 = 0 →
      (init P m).ret = true ∧ (init P m).machine.state.status = Status.RAW ∧
        ∃ r1 o1 r2 o2 r3 o3,
          (init P m).machine.trace = m.trace ++
            [Call.resetCard 0,
              Call.sendCommand (bytesLE64 CMD_RAW_DUMMY) 0x2000 RespPtr.null
                (ROMCNT_CLK_SLOW ||| ROMCNT_DELAY2 0x18) r1 o1,
              Call.ioDelay 0x40000,
              Call.sendCommand (bytesLE64 CMD_RAW_CHIPID) 4 RespPtr.chipid
                (ROMCNT_CLK_SLOW ||| ROMCNT_DELAY2 0x18) r2 o2,
              Call.sendCommand (bytesLE64 CMD_RAW_HEADER_READ) 0x1000 RespPtr.hdr
                (ROMCNT_CLK_SLOW ||| ROMCNT_DELAY2 0x18) r3 o3] ∧
          r2.length = 4 ∧ (init P m).machine.state.chipid = load32 r2 0) := by
  constructor
  · intro hc
    rw [init_of_guard_error P m _ (init_guard_reset_failed P m hR hc)]
    exact ⟨rfl, rfl, rfl⟩
  · intro hc
    obtain ⟨hret, hst, _, r1, o1, r2, o2, r3, o3, htr, hlen, hchip⟩ :=
      init_of_guard_ok P m _ (init_guard_reset_ok P m hR hc)
    refine ⟨hret, hst, r1, o1, r2, o2, r3, o3, ?_, hlen, ?_⟩
    · rw [htr]
      dsimp only
      rw [if_neg (by decide), List.append_assoc]
      rfl
    · rw [hchip, store32_eq_load32 _ _ hlen]

/-- C7 witness: the simulated platform with reset support, once with `resetCard`
returning 1 and once with `resetCard` returning 0, from status KEY2. -/
theorem C7_init_with_reset_witness :
    (simPlatform true true 1 (fun _ => 0)).CAN_RESET = true ∧ ((simPlatform true true 1 (fun _ => 0)).resetCard (simMachine Status.KEY2).world).2 ≠ 0 ∧
    ((init (simPlatform true true 1 (fun _ => 0)) (simMachine Status.KEY2)).ret = false ∧
      (init (simPlatform true true 1 (fun _ => 0)) (simMachine Status.KEY2)).machine.state = (simMachine Status.KEY2).state ∧
      (init (simPlatform true true 1 (fun _ => 0)) (simMachine Status.KEY2)).machine.trace =
        (simMachine Status.KEY2).trace ++
          [Call.resetCard ((simPlatform true true 1 (fun _ => 0)).resetCard (simMachine Status.KEY2).world).2]) ∧
    (simPlatform true true 0 (fun _ => 0)).CAN_RESET = true ∧ ((simPlatform true true 0 (fun _ => 0)).resetCard (simMachine Status.KEY2).world).2 = 0 ∧
    (init (simPlatform true true 0 (fun _ => 0)) (simMachine Status.KEY2)).ret = true ∧
    (init (simPlatform true true 0 (fun _ => 0)) (simMachine Status.KEY2)).machine.state.status = Status.RAW :=
  ⟨rfl, by decide, (C7_init_with_reset (simPlatform true true 1 (fun _ => 0)) (simMachine Status.KEY2) rfl).1 (by decide),
    rfl, rfl, ((C7_init_with_reset (simPlatform true true 0 (fun _ => 0)) (simMachine Status.KEY2) rfl).2 rfl).1,
    ((C7_init_with_reset (simPlatform true true 0 (fun _ => 0)) (simMachine Status.KEY2) rfl).2 rfl).2.1⟩

/-! ## C8 -/

theorem land_xor_lor (f M k : Nat) : (f &&& (M ^^^ k)) ||| k = (f &&& M) ||| k := by
  apply Nat.eq_of_testBit_eq
  intro i
  simp only [Nat.testBit_or, Nat.testBit_and, Nat.testBit_xor]
  cases Nat.testBit f i <;> cases Nat.testBit M i <;> cases Nat.testBit k i <;> rfl

theorem land_u32 (f : Nat) : f &&& 0xFFFFFFFF = f % 2 ^ 32 :=
  Nat.and_pow_two_sub_one_eq_mod f 32

theorem key2_command_true (f : Nat) :
    OpFlags.key2_command f true = f % 2 ^ 32 ||| ROMCNT_SEC_CMD := by
  unfold OpFlags.key2_command
  rw [if_pos rfl, land_xor_lor, land_u32]

theorem key2_response_true (f : Nat) :
    OpFlags.key2_response f true = f % 2 ^ 32 ||| (ROMCNT_SEC_EN ||| ROMCNT_SEC_DAT) := by
  unfold OpFlags.key2_response
  rw [if_pos rfl, land_xor_lor, land_u32]

/-- The flags `sendCommand` passes on in status KEY2. -/
theorem forced_flags_eq (f : Nat) :
    OpFlags.key2_response (OpFlags.key2_command f true) true = f % 2 ^ 32 ||| 0x406000 := by
  rw [key2_command_true, key2_response_true]
  have h1 : f % 2 ^ 32 ||| ROMCNT_SEC_CMD < 2 ^ 32 :=
    Nat.or_lt_two_pow (Nat.mod_lt _ (Nat.two_pow_pos 32)) (by decide)
  rw [Nat.mod_eq_of_lt h1, Nat.or_assoc]
  rfl

theorem testBit_0x406000 (i : Nat) :
    Nat.testBit 0x406000 i = (decide (i = 13) || decide (i = 14) || decide (i = 22)) := by
  have h : (0x406000 : Nat) = 2 ^ 13 ||| 2 ^ 14 ||| 2 ^ 22 := by decide
  rw [h, Nat.testBit_or, Nat.testBit_or, Nat.testBit_two_pow, Nat.testBit_two_pow,
    Nat.testBit_two_pow]
  simp only [eq_comm]

/-- C8: `sendCommand` makes exactly one call to `platform::sendCommand`, with the command
bytes, response length and response buffer it was given.  In status KEY2 the flags it
passes are the caller's 32-bit flags with bit 22 (command encrypted) and bits 13-14
(response encrypted, security enable) set and every other bit as the caller had it; in
any other status they are the caller's flags, unchanged. -/
theorem C8_generic_send {W : Type} (P : Platform W) (cmdbuf : List Nat) (response_len : Nat)
    (resp : RespPtr) (flags : Nat) (m : Machine W) :
    ∃ passed,
      (sendCommand P cmdbuf response_len resp flags m).machine.trace =
        m.trace ++ [Call.sendCommand cmdbuf response_len resp passed
          (respBytes response_len (P.sendCommand m.world cmdbuf response_len resp passed).data)
          (P.sendCommand m.world cmdbuf response_len resp passed).ok] ∧
      (sendCommand P cmdbuf response_len resp flags m).ret =
        (P.sendCommand m.world cmdbuf response_len resp passed).ok ∧
      (sendCommand P cmdbuf response_len resp flags m).machine.world =
        (P.sendCommand m.world cmdbuf response_len resp passed).world ∧
      (m.state.status ≠ Status.KEY2 → passed = flags) ∧
      (m.state.status = Status.KEY2 →
        passed = flags % 2 ^ 32 ||| 0x406000 ∧
        Nat.testBit passed 22 = true ∧ Nat.testBit passed 13 = true ∧
        Nat.testBit passed 14 = true ∧
        (∀ i, i ≠ 22 → i ≠ 13 → i ≠ 14 →
          Nat.testBit passed i = Nat.testBit (flags % 2 ^ 32) i) ∧
        (flags < 2 ^ 32 → passed = flags ||| 0x406000)) := by
  refine ⟨if m.state.status = Status.KEY2 then
      OpFlags.key2_response (OpFlags.key2_command flags true) true else flags,
    rfl, rfl, rfl, ?_, ?_⟩
  · intro h
    rw [if_neg h]
  · intro h
    rw [if_pos h, forced_flags_eq]
    refine ⟨rfl, ?_, ?_, ?_, ?_, ?_⟩
    · rw [Nat.testBit_or, testBit_0x406000]
      simp
    · rw [Nat.testBit_or, testBit_0x406000]
      simp
    · rw [Nat.testBit_or, testBit_0x406000]
      simp
    · intro i h22 h13 h14
      rw [Nat.testBit_or, testBit_0x406000]
      simp [h22, h13, h14]
    · intro hlt
      rw [Nat.mod_eq_of_lt hlt]

/-- C8 witness: flags 0 in status KEY2 reach the platform as 0x406000, and in status RAW
as 0. -/
theorem C8_generic_send_witness :
    (simMachine Status.KEY2).state.status = Status.KEY2 ∧
    (simMachine Status.RAW).state.status ≠ Status.KEY2 ∧
    (sendCommand (simPlatform true true 0 (fun _ => 0)) (bytesLE64 CMD_KEY2_DATA_READ) 4 RespPtr.null 0
      (simMachine Status.KEY2)).machine.trace =
      [Call.sendCommand (bytesLE64 CMD_KEY2_DATA_READ) 4 RespPtr.null 0x406000 [0, 0, 0, 0] true] ∧
    (sendCommand (simPlatform true true 0 (fun _ => 0)) (bytesLE64 CMD_KEY2_DATA_READ) 4 RespPtr.null 0
      (simMachine Status.RAW)).machine.trace =
      [Call.sendCommand (bytesLE64 CMD_KEY2_DATA_READ) 4 RespPtr.null 0 [0, 0, 0, 0] true] := by
  obtain ⟨p, htr, _, _, _, hk⟩ :=
    C8_generic_send (simPlatform true true 0 (fun _ => 0)) (bytesLE64 CMD_KEY2_DATA_READ) 4 RespPtr.null 0 (simMachine Status.KEY2)
  obtain ⟨q, htr2, _, _, hn, _⟩ :=
    C8_generic_send (simPlatform true true 0 (fun _ => 0)) (bytesLE64 CMD_KEY2_DATA_READ) 4 RespPtr.null 0 (simMachine Status.RAW)
  have hp : p = 0x406000 := (hk rfl).1
  have hq : q = 0 := hn (by decide)
  subst hp
  subst hq
  exact ⟨rfl, by decide, htr, htr2⟩

/-! ## C9 -/

theorem initKey1_success_of_chipid {W : Type} (P : Platform W) (key : BlowfishKey)
    (m : Machine W) (hH : P.HAS_HW_KEY2 = true) (hS : m.state.status = Status.RAW)
    (h : (initKey1 P key m).machine.state.key1_chipid = m.state.chipid) :
    (initKey1 P key m).ret = true ∧ (initKey1 P key m).machine.state.status = Status.KEY1 := by
  obtain ⟨_, _, _, response, _, _, _, _, hk, _, hiff, _, _⟩ := initKey1_pass_outcome P key m hH hS
  rw [hk] at h
  exact hiff.mpr h

theorem initKey2_success_of_chipid {W : Type} (P : Platform W) (m : Machine W)
    (hH : P.HAS_HW_KEY2 = true) (hS : m.state.status = Status.KEY1)
    (h : (initKey2 P m).machine.state.key2_chipid = m.state.chipid) :
    (initKey2 P m).ret = true ∧ (initKey2 P m).machine.state.status = Status.KEY2 := by
  obtain ⟨_, _, response, _, _, _, hk, _, hiff, _, _⟩ := initKey2_pass_outcome P m hH hS
  rw [hk] at h
  exact hiff.mpr h

theorem initKey1_chipid {W : Type} (P : Platform W) (key : BlowfishKey) (m : Machine W) :
    (initKey1 P key m).machine.state.chipid = m.state.chipid := by
  by_cases hH : P.HAS_HW_KEY2 = true
  · by_cases hS : m.state.status = Status.RAW
    · obtain ⟨_, _, _, _, _, _, _, _, _, hc, _, _, _⟩ := initKey1_pass_outcome P key m hH hS
      exact hc
    · rw [initKey1_not_raw P key m hH hS]
      rfl
  · rw [initKey1_no_hw P key m (by simpa using hH)]
    rfl

theorem init_reset_ok {W : Type} (P : Platform W) (m : Machine W)
    (hR : P.CAN_RESET = true) (hc : (P.resetCard m.world).2 = 0) :
    (init P m).ret = true ∧ (init P m).machine.state.status = Status.RAW := by
  obtain ⟨hret, hst, _⟩ := init_of_guard_ok P m _ (init_guard_reset_ok P m hR hc)
  exact ⟨hret, hst⟩

/-- C9: on a platform with hardware KEY2 support and reset support whose `resetCard`
returns 0, from any status, with any header and any key selector: if the chip id read in
KEY1 mode and the chip id read in KEY2 mode both equal the chip id read in raw mode, then
`init(); initKey1(key); initKey2()` return true three times, the status after them is
RAW, KEY1 and KEY2, and it is UNKNOWN after none of them. -/
theorem C9_handshake {W : Type} (P : Platform W) (key : BlowfishKey) (m : Machine W)
    (hH : P.HAS_HW_KEY2 = true) (hR : P.CAN_RESET = true)
    (hreset : (P.resetCard m.world).2 = 0)
    (h1 : (initKey1 P key (init P m).machine).machine.state.key1_chipid =
      (init P m).machine.state.chipid)
    (h2 : (initKey2 P (initKey1 P key (init P m).machine).machine).machine.state.key2_chipid =
      (init P m).machine.state.chipid) :
    (init P m).ret = true ∧
    (init P m).machine.state.status = Status.RAW ∧
    (initKey1 P key (init P m).machine).ret = true ∧
    (initKey1 P key (init P m).machine).machine.state.status = Status.KEY1 ∧
    (initKey2 P (initKey1 P key (init P m).machine).machine).ret = true ∧
    (initKey2 P (initKey1 P key (init P m).machine).machine).machine.state.status =
      Status.KEY2 ∧
    (init P m).machine.state.status ≠ Status.UNKNOWN ∧
    (initKey1 P key (init P m).machine).machine.state.status ≠ Status.UNKNOWN ∧
    (initKey2 P (initKey1 P key (init P m).machine).machine).machine.state.status ≠
      Status.UNKNOWN := by
  obtain ⟨r0, s0⟩ := init_reset_ok P m hR hreset
  obtain ⟨r1, s1⟩ := initKey1_success_of_chipid P key _ hH s0 h1
  have hc := initKey1_chipid P key (init P m).machine
  obtain ⟨r2, s2⟩ := initKey2_success_of_chipid P _ hH s1 (by rw [h2, hc])
  refine ⟨r0, s0, r1, s1, r2, s2, ?_, ?_, ?_⟩
  · rw [s0]
    decide
  · rw [s1]
    decide
  · rw [s2]
    decide

/-- C9 witness: the simulated platform, whose transport answers every read with zero
bytes, started in status UNKNOWN. -/
theorem C9_handshake_witness :
    (init (simPlatform true true 0 (fun _ => 0)) (simMachine Status.UNKNOWN)).machine.state.chipid = 0 ∧
    (initKey1 (simPlatform true true 0 (fun _ => 0)) (BlowfishKey.other 0) (init (simPlatform true true 0 (fun _ => 0)) (simMachine Status.UNKNOWN)).machine).machine.state.key1_chipid = 0 ∧
    (initKey2 (simPlatform true true 0 (fun _ => 0)) (initKey1 (simPlatform true true 0 (fun _ => 0)) (BlowfishKey.other 0)
      (init (simPlatform true true 0 (fun _ => 0)) (simMachine Status.UNKNOWN)).machine).machine).machine.state.key2_chipid = 0 ∧
    (init (simPlatform true true 0 (fun _ => 0)) (simMachine Status.UNKNOWN)).machine.state.status = Status.RAW ∧
    (initKey1 (simPlatform true true 0 (fun _ => 0)) (BlowfishKey.other 0) (init (simPlatform true true 0 (fun _ => 0)) (simMachine Status.UNKNOWN)).machine).machine.state.status =
      Status.KEY1 ∧
    (initKey2 (simPlatform true true 0 (fun _ => 0)) (initKey1 (simPlatform true true 0 (fun _ => 0)) (BlowfishKey.other 0)
      (init (simPlatform true true 0 (fun _ => 0)) (simMachine Status.UNKNOWN)).machine).machine).machine.state.status =
      Status.KEY2 :=
  ⟨by decide, by decide, by decide,
    (C9_handshake (simPlatform true true 0 (fun _ => 0)) (BlowfishKey.other 0) (simMachine Status.UNKNOWN) rfl rfl rfl (by decide) (by decide)).2.1,
    (C9_handshake (simPlatform true true 0 (fun _ => 0)) (BlowfishKey.other 0) (simMachine Status.UNKNOWN) rfl rfl rfl (by decide) (by decide)).2.2.2.1,
    (C9_handshake (simPlatform true true 0 (fun _ => 0)) (BlowfishKey.other 0) (simMachine Status.UNKNOWN) rfl rfl rfl (by decide)
      (by decide)).2.2.2.2.2.1⟩

/-! ## C10 -/

theorem init_status_cases {W : Type} (P : Platform W) (m : Machine W) :
    (init P m).machine.state.status = m.state.status ∨
    (P.CAN_RESET = true ∧ (P.resetCard m.world).2 = 0 ∧
      (init P m).machine.state.status = Status.RAW) := by
  by_cases hR : P.CAN_RESET = true
  · by_cases hc : (P.resetCard m.world).2 = 0
    · exact Or.inr ⟨hR, hc, (init_reset_ok P m hR hc).2⟩
    · rw [init_of_guard_error P m _ (init_guard_reset_failed P m hR hc)]
      exact Or.inl rfl
  · have hR' : P.CAN_RESET = false := by simpa using hR
    by_cases hs : P.statusValue m.state.status > P.statusValue Status.RAW
    · rw [init_of_guard_error P m _ (init_guard_no_reset_refused P m hR' hs)]
      exact Or.inl rfl
    · exact Or.inl (init_of_guard_ok P m m (init_guard_no_reset_ok P m hR' hs)).2.1

theorem initKey1_of_not_raw {W : Type} (P : Platform W) (key : BlowfishKey) (m : Machine W)
    (hS : m.state.status ≠ Status.RAW) :
    (initKey1 P key m).ret = false ∧ (initKey1 P key m).machine.state = m.state := by
  by_cases hH : P.HAS_HW_KEY2 = true
  · rw [initKey1_not_raw P key m hH hS]
    exact ⟨rfl, rfl⟩
  · rw [initKey1_no_hw P key m (by simpa using hH)]
    exact ⟨rfl, rfl⟩

theorem initKey2_of_not_key1 {W : Type} (P : Platform W) (m : Machine W)
    (hS : m.state.status ≠ Status.KEY1) :
    (initKey2 P m).ret = false ∧ (initKey2 P m).machine.state = m.state := by
  by_cases hH : P.HAS_HW_KEY2 = true
  · rw [initKey2_not_key1 P m hH hS]
    exact ⟨rfl, rfl⟩
  · rw [initKey2_no_hw P m (by simpa using hH)]
    exact ⟨rfl, rfl⟩

theorem step_unknown {W : Type} (P : Platform W) (hR : P.CAN_RESET = false) (op : Op)
    (m : Machine W) (h : m.state.status = Status.UNKNOWN) :
    (step P op m).state.status = Status.UNKNOWN := by
  cases op with
  | init =>
    rcases init_status_cases P m with h' | h'
    · exact h'.trans h
    · rw [hR] at h'
      exact absurd h'.1 (by decide)
  | initKey1 key =>
    show (initKey1 P key m).machine.state.status = Status.UNKNOWN
    rw [(initKey1_of_not_raw P key m (by rw [h]; decide)).2]
    exact h
  | initKey2 =>
    show (initKey2 P m).machine.state.status = Status.UNKNOWN
    rw [(initKey2_of_not_key1 P m (by rw [h]; decide)).2]
    exact h
  | sendCommand cmdbuf response_len resp flags =>
    show (sendCommand P cmdbuf response_len resp flags m).machine.state.status = Status.UNKNOWN
    rw [sendCommand_state, writeResp_status]
    exact h
  | sendCommand64 cmd response_len resp flags =>
    show (sendCommand64 P cmd response_len resp flags m).machine.state.status = Status.UNKNOWN
    rw [sendCommand64_eq, sendCommand_state, writeResp_status]
    exact h

theorem run_unknown {W : Type} (P : Platform W) (hR : P.CAN_RESET = false) (ops : List Op)
    (m : Machine W) (h : m.state.status = Status.UNKNOWN) :
    (run P ops m).state.status = Status.UNKNOWN := by
  induction ops generalizing m with
  | nil => exact h
  | cons op ops ih => exact ih (step P op m) (step_unknown P hR op m h)

/-- C10: from status UNKNOWN, `initKey1` and `initKey2` return false and leave `state`
(so the status UNKNOWN) as it was; `sendCommand` never changes the status; `init` either
leaves the status as it was or, after a `resetCard` that returned 0 on a platform with
reset support, sets it to RAW.  Hence on a platform without reset support, whatever the
numeric order of the enumerators, status UNKNOWN stays UNKNOWN through every sequence of
`init`, `initKey1`, `initKey2` and `sendCommand` calls. -/
theorem C10_unknown_terminal {W : Type} (P : Platform W) (key : BlowfishKey)
    (cmdbuf : List Nat) (response_len : Nat) (resp : RespPtr) (flags : Nat) (ops : List Op)
    (m : Machine W) :
    (m.state.status = Status.UNKNOWN →
      (initKey1 P key m).ret = false ∧ (initKey1 P key m).machine.state = m.state ∧
      (initKey2 P m).ret = false ∧ (initKey2 P m).machine.state = m.state) ∧
    (sendCommand P cmdbuf response_len resp flags m).machine.state.status = m.state.status ∧
    ((init P m).machine.state.status = m.state.status ∨
      (P.CAN_RESET = true ∧ (P.resetCard m.world).2 = 0 ∧
        (init P m).machine.state.status = Status.RAW)) ∧
    (P.CAN_RESET = false → m.state.status = Status.UNKNOWN →
      (run P ops m).state.status = Status.UNKNOWN) := by
  refine ⟨?_, ?_, init_status_cases P m, fun hR h => run_unknown P hR ops m h⟩
  · intro h
    have a := initKey1_of_not_raw P key m (by rw [h]; decide)
    have b := initKey2_of_not_key1 P m (by rw [h]; decide)
    exact ⟨a.1, a.2, b.1, b.2⟩
  · rw [sendCommand_state, writeResp_status]

/-- C10 witness: the simulated platform without reset support, in status UNKNOWN, through
`init`, `initKey1`, `initKey2`, a send and a second `init`. -/
theorem C10_unknown_terminal_witness :
    (simPlatform true false 0 (fun _ => 0)).CAN_RESET = false ∧ (simMachine Status.UNKNOWN).state.status = Status.UNKNOWN ∧
    (initKey1 (simPlatform true false 0 (fun _ => 0)) (BlowfishKey.other 0) (simMachine Status.UNKNOWN)).ret = false ∧
    (initKey2 (simPlatform true false 0 (fun _ => 0)) (simMachine Status.UNKNOWN)).ret = false ∧
    (run (simPlatform true false 0 (fun _ => 0)) [Op.init, Op.initKey1 (BlowfishKey.other 0), Op.initKey2,
      Op.sendCommand64 CMD_KEY2_DATA_READ 4 RespPtr.null 0, Op.init]
      (simMachine Status.UNKNOWN)).state.status = Status.UNKNOWN :=
  ⟨rfl, rfl,
    ((C10_unknown_terminal (simPlatform true false 0 (fun _ => 0)) (BlowfishKey.other 0) [] 0 RespPtr.null 0 [] (simMachine Status.UNKNOWN)).1 rfl).1,
    ((C10_unknown_terminal (simPlatform true false 0 (fun _ => 0)) (BlowfishKey.other 0) [] 0 RespPtr.null 0 [] (simMachine Status.UNKNOWN)).1 rfl).2.2.1,
    (C10_unknown_terminal (simPlatform true false 0 (fun _ => 0)) (BlowfishKey.other 0) [] 0 RespPtr.null 0
      [Op.init, Op.initKey1 (BlowfishKey.other 0), Op.initKey2,
        Op.sendCommand64 CMD_KEY2_DATA_READ 4 RespPtr.null 0, Op.init]
      (simMachine Status.UNKNOWN)).2.2.2 rfl rfl⟩

/-! ## C11 and C12 -/

theorem testBit_u32_of_lt (f : Nat) (hf : f < 2 ^ 32) (i : Nat) :
    (Nat.testBit f i && decide (i < 32)) = Nat.testBit f i := by
  by_cases h : i < 32
  · simp [h]
  · have : f < 2 ^ i := lt_of_lt_of_le hf (Nat.pow_le_pow_right (by decide) (by omega))
    simp [Nat.testBit_lt_two_pow this]

/-- Bit `i` of a 32-bit word after the bits of `mask` have been cleared and those of `val`
set. -/
theorem testBit_clear_set (f mask val : Nat) (hf : f < 2 ^ 32) (i : Nat) :
    Nat.testBit ((f &&& (0xFFFFFFFF ^^^ mask)) ||| val) i =
      ((Nat.testBit f i && !Nat.testBit mask i) || Nat.testBit val i) := by
  have h32 : (0xFFFFFFFF : Nat) = 2 ^ 32 - 1 := by decide
  rw [Nat.testBit_or, Nat.testBit_and, Nat.testBit_xor, h32, Nat.testBit_two_pow_sub_one]
  rw [← testBit_u32_of_lt f hf i]
  cases Nat.testBit f i <;> cases Nat.testBit mask i <;> cases decide (i < 32) <;> rfl

theorem testBit_bit_const (b : Nat) (v : Bool) (i : Nat) :
    Nat.testBit (if v then 1 <<< b else 0) i = (v && decide (i = b)) := by
  cases v
  · simp
  · simp [Nat.shiftLeft_eq, Nat.testBit_two_pow, eq_comm]

theorem testBit_one_shiftLeft (b i : Nat) : Nat.testBit (1 <<< b) i = decide (i = b) := by
  simp [Nat.shiftLeft_eq, Nat.testBit_two_pow, eq_comm]

theorem testBit_delay1_mask (i : Nat) : Nat.testBit ROMCNT_DELAY1_MASK i = decide (i < 13) := by
  have h : ROMCNT_DELAY1_MASK = 2 ^ 13 - 1 := by decide
  rw [h, Nat.testBit_two_pow_sub_one]

theorem testBit_delay1 (v i : Nat) :
    Nat.testBit (ROMCNT_DELAY1 v) i = (Nat.testBit v i && decide (i < 13)) := by
  have h : (0x1FFF : Nat) = 2 ^ 13 - 1 := by decide
  unfold ROMCNT_DELAY1
  rw [Nat.testBit_and, h, Nat.testBit_two_pow_sub_one]

theorem testBit_delay2 (v i : Nat) :
    Nat.testBit (ROMCNT_DELAY2 v) i =
      (decide (16 ≤ i) && (Nat.testBit v (i - 16) && decide (i - 16 < 6))) := by
  have h : (0x3F : Nat) = 2 ^ 6 - 1 := by decide
  unfold ROMCNT_DELAY2
  rw [Nat.testBit_shiftLeft, Nat.testBit_and, h, Nat.testBit_two_pow_sub_one]

theorem testBit_delay2_mask (i : Nat) :
    Nat.testBit ROMCNT_DELAY2_MASK i = decide (16 ≤ i ∧ i < 22) := by
  unfold ROMCNT_DELAY2_MASK
  rw [testBit_delay2]
  have h : (0x3F : Nat) = 2 ^ 6 - 1 := by decide
  rw [h, Nat.testBit_two_pow_sub_one]
  by_cases h1 : 16 ≤ i <;> by_cases h2 : i < 22 <;> simp [h1, h2] <;> omega


theorem single_bit_field (f : Nat) (hf : f < 2 ^ 32) (b : Nat) (v : Bool) :
    Nat.testBit ((f &&& (0xFFFFFFFF ^^^ (1 <<< b))) ||| (if v then 1 <<< b else 0)) b = v ∧
    ∀ i, i ≠ b →
      Nat.testBit ((f &&& (0xFFFFFFFF ^^^ (1 <<< b))) ||| (if v then 1 <<< b else 0)) i =
        Nat.testBit f i := by
  constructor
  · rw [testBit_clear_set f _ _ hf, testBit_bit_const, testBit_one_shiftLeft]
    simp
  · intro i hi
    rw [testBit_clear_set f _ _ hf, testBit_bit_const, testBit_one_shiftLeft]
    simp [hi]

theorem testBit_sec_en_dat (i : Nat) :
    Nat.testBit (ROMCNT_SEC_EN ||| ROMCNT_SEC_DAT) i = (decide (i = 14) || decide (i = 13)) := by
  unfold ROMCNT_SEC_EN ROMCNT_SEC_DAT
  rw [Nat.testBit_or, testBit_one_shiftLeft, testBit_one_shiftLeft]

theorem key2_response_bits (f : Nat) (hf : f < 2 ^ 32) (v : Bool) (i : Nat) :
    Nat.testBit (OpFlags.key2_response f v) i =
      if i = 13 ∨ i = 14 then v else Nat.testBit f i := by
  unfold OpFlags.key2_response
  rw [testBit_clear_set f _ _ hf, testBit_sec_en_dat]
  cases v
  · by_cases h13 : i = 13 <;> by_cases h14 : i = 14 <;> simp [h13, h14]
  · rw [if_pos rfl, testBit_sec_en_dat]
    by_cases h13 : i = 13 <;> by_cases h14 : i = 14 <;> simp [h13, h14]

theorem pre_delay_bits (f : Nat) (hf : f < 2 ^ 32) (v i : Nat) :
    Nat.testBit (OpFlags.pre_delay f v) i =
      if i < 13 then Nat.testBit v i else Nat.testBit f i := by
  unfold OpFlags.pre_delay
  rw [testBit_clear_set f _ _ hf, testBit_delay1_mask, testBit_delay1]
  by_cases h : i < 13 <;> simp [h]

theorem post_delay_bits (f : Nat) (hf : f < 2 ^ 32) (v i : Nat) :
    Nat.testBit (OpFlags.post_delay f v) i =
      if 16 ≤ i ∧ i < 22 then Nat.testBit v (i - 16) else Nat.testBit f i := by
  unfold OpFlags.post_delay
  rw [testBit_clear_set f _ _ hf, testBit_delay2_mask, testBit_delay2]
  by_cases h1 : 16 ≤ i <;> by_cases h2 : i < 22 <;> simp [h1, h2] <;> omega

theorem get_pre_delay_set (f : Nat) (hf : f < 2 ^ 32) (v : Nat) (hv : v < 2 ^ 13) :
    OpFlags.get_pre_delay (OpFlags.pre_delay f v) = v := by
  apply Nat.eq_of_testBit_eq
  intro i
  have h : (0x1FFF : Nat) = 2 ^ 13 - 1 := by decide
  unfold OpFlags.get_pre_delay
  rw [Nat.testBit_and, h, Nat.testBit_two_pow_sub_one, pre_delay_bits f hf]
  by_cases hi : i < 13
  · simp [hi]
  · have : v < 2 ^ i := lt_of_lt_of_le hv (Nat.pow_le_pow_right (by decide) (by omega))
    simp [hi, Nat.testBit_lt_two_pow this]

theorem get_post_delay_set (f : Nat) (hf : f < 2 ^ 32) (v : Nat) (hv : v < 2 ^ 6) :
    OpFlags.get_post_delay (OpFlags.post_delay f v) = v := by
  apply Nat.eq_of_testBit_eq
  intro i
  have h : (0x3F : Nat) = 2 ^ 6 - 1 := by decide
  unfold OpFlags.get_post_delay
  rw [Nat.testBit_and, h, Nat.testBit_two_pow_sub_one, Nat.testBit_shiftRight,
    post_delay_bits f hf]
  by_cases hi : i < 6
  · have h1 : 16 ≤ 16 + i ∧ 16 + i < 22 := by omega
    have h2 : 16 + i - 16 = i := by omega
    simp [hi, h1, h2]
  · have : v < 2 ^ i := lt_of_lt_of_le hv (Nat.pow_le_pow_right (by decide) (by omega))
    simp [hi, Nat.testBit_lt_two_pow this]

/-- C11: for every 32-bit flags value and each of the six fields of `OpFlags`
(command-encrypted at bit 22, response-encrypted at bits 13-14, slow-clock at bit 27,
large-secure-area at bit 28, pre_delay at bits 0-12, post_delay at bits 16-21) and every
value that fits the field, the getter applied to the result of the setter returns the
value set, and every bit outside the field is as it was. -/
theorem C11_opflags_round_trip (flags : Nat) (hf : flags < 2 ^ 32) :
    (∀ v : Bool,
      OpFlags.get_key2_command (OpFlags.key2_command flags v) = v ∧
      ∀ i, i ≠ 22 → Nat.testBit (OpFlags.key2_command flags v) i = Nat.testBit flags i) ∧
    (∀ v : Bool,
      OpFlags.get_key2_response (OpFlags.key2_response flags v) = v ∧
      ∀ i, i ≠ 13 → i ≠ 14 →
        Nat.testBit (OpFlags.key2_response flags v) i = Nat.testBit flags i) ∧
    (∀ v : Bool,
      OpFlags.get_slow_clock (OpFlags.slow_clock flags v) = v ∧
      ∀ i, i ≠ 27 → Nat.testBit (OpFlags.slow_clock flags v) i = Nat.testBit flags i) ∧
    (∀ v : Bool,
      OpFlags.get_large_secure_area_read (OpFlags.large_secure_area_read flags v) = v ∧
      ∀ i, i ≠ 28 →
        Nat.testBit (OpFlags.large_secure_area_read flags v) i = Nat.testBit flags i) ∧
    (∀ v : Nat, v < 2 ^ 13 →
      OpFlags.get_pre_delay (OpFlags.pre_delay flags v) = v ∧
      ∀ i, 13 ≤ i → Nat.testBit (OpFlags.pre_delay flags v) i = Nat.testBit flags i) ∧
    (∀ v : Nat, v < 2 ^ 6 →
      OpFlags.get_post_delay (OpFlags.post_delay flags v) = v ∧
      ∀ i, i < 16 ∨ 22 ≤ i →
        Nat.testBit (OpFlags.post_delay flags v) i = Nat.testBit flags i) := by
  refine ⟨fun v => single_bit_field flags hf 22 v, ?_, fun v => single_bit_field flags hf 27 v,
    fun v => single_bit_field flags hf 28 v, ?_, ?_⟩
  · intro v
    constructor
    · unfold OpFlags.get_key2_response
      rw [key2_response_bits flags hf, key2_response_bits flags hf]
      simp
    · intro i h13 h14
      rw [key2_response_bits flags hf]
      simp [h13, h14]
  · intro v hv
    refine ⟨get_pre_delay_set flags hf v hv, ?_⟩
    intro i hi
    rw [pre_delay_bits flags hf]
    simp [Nat.not_lt.mpr hi]
  · intro v hv
    refine ⟨get_post_delay_set flags hf v hv, ?_⟩
    intro i hi
    rw [post_delay_bits flags hf]
    have : ¬ (16 ≤ i ∧ i < 22) := by omega
    simp [this]

/-- C11 witness: the flags 0xA7586000, with pre_delay set to 0x123. -/
theorem C11_opflags_round_trip_witness :
    (0xA7586000 : Nat) < 2 ^ 32 ∧ (0x123 : Nat) < 2 ^ 13 ∧
    OpFlags.get_pre_delay (OpFlags.pre_delay 0xA7586000 0x123) = 0x123 ∧
    OpFlags.get_key2_command (OpFlags.key2_command 0xA7586000 false) = false :=
  ⟨by decide, by decide,
    ((C11_opflags_round_trip 0xA7586000 (by decide)).2.2.2.2.1 0x123 (by decide)).1,
    ((C11_opflags_round_trip 0xA7586000 (by decide)).1 false).1⟩

/-- C12: the value 0xA7586000 decodes to command-encrypted and response-encrypted set,
slow-clock and large-secure-area clear, the 13-bit delay field 0 and the 6-bit delay
field 0x18; 0xA7586123 has the 13-bit delay field 0x123; and building from 0 with every
flag set, pre_delay 0x8F8 and post_delay 0x18 gives 0x185868F8, which is the OR of the
`ROMCNT_*` masks. -/
theorem C12_opflags_bit_positions :
    OpFlags.get_key2_command 0xA7586000 = true ∧
    OpFlags.get_key2_response 0xA7586000 = true ∧
    OpFlags.get_slow_clock 0xA7586000 = false ∧
    OpFlags.get_large_secure_area_read 0xA7586000 = false ∧
    OpFlags.get_pre_delay 0xA7586000 = 0 ∧
    OpFlags.get_post_delay 0xA7586000 = 0x18 ∧
    OpFlags.get_pre_delay 0xA7586123 = 0x123 ∧
    OpFlags.post_delay (OpFlags.pre_delay (OpFlags.large_secure_area_read (OpFlags.slow_clock
      (OpFlags.key2_response (OpFlags.key2_command 0 true) true) true) true) 0x8F8) 0x18 =
      0x185868F8 ∧
    0x185868F8 = ROMCNT_SEC_LARGE ||| ROMCNT_CLK_SLOW ||| ROMCNT_SEC_CMD ||| ROMCNT_DELAY2 0x18 |||
      ROMCNT_SEC_EN ||| ROMCNT_SEC_DAT ||| ROMCNT_DELAY1 0x8F8 := by
  decide

/-! ## Traces of the helpers -/

theorem init_blowfish_trace {W : Type} (P : Platform W) (key : BlowfishKey) (m : Machine W) :
    (init_blowfish P key m).trace = m.trace ++ [Call.initBlowfishPS key] := by
  unfold init_blowfish
  split
  · rfl
  · rename_i h
    have hk : key = BlowfishKey.NTR := not_not.mp h
    rw [hk]

theorem seed_key2_registers_trace {W : Type} (P : Platform W) (m : Machine W)
    (hH : P.HAS_HW_KEY2 = true) :
    (seed_key2_registers P m).trace =
      m.trace ++ [Call.initKey2Seed
        ((rd seed_bytes (m.state.key2_seed &&& 7) + (m.state.key2_mn <<< 15) % 2 ^ 64 + 0x6000) %
          2 ^ 64)
        0x5c879b9b05] := by
  unfold seed_key2_registers
  dsimp only [logMessage]
  rw [if_pos hH]

theorem seed_key2_registers_key2_x {W : Type} (P : Platform W) (m : Machine W) :
    (seed_key2_registers P m).state.key2_x =
      (rd seed_bytes (m.state.key2_seed &&& 7) + (m.state.key2_mn <<< 15) % 2 ^ 64 + 0x6000) %
        2 ^ 64 := by
  unfold seed_key2_registers
  dsimp only [logMessage]
  split <;> dsimp only

theorem seed_key2_registers_key2_y {W : Type} (P : Platform W) (m : Machine W) :
    (seed_key2_registers P m).state.key2_y = 0x5c879b9b05 := by
  unfold seed_key2_registers
  dsimp only [logMessage]
  split <;> dsimp only

theorem key1_cmdf_trace {W : Type} (P : Platform W) (cmdarg size : Nat) (dest : RespPtr)
    (arg ij flags : Nat) (m : Machine W) :
    (key1_cmdf P cmdarg size dest arg ij flags m).trace =
      m.trace ++ [Call.sendCommand
        (bytesLE64 (key1_wire P m.state.key1_ps cmdarg arg ij m.state.key1_k)) (size % 2 ^ 16) dest
        (if m.state.status = Status.KEY2 then
          OpFlags.key2_response (OpFlags.key2_command flags true) true else flags)
        (sendCommand P (bytesLE64 (key1_wire P m.state.key1_ps cmdarg arg ij m.state.key1_k))
          (size % 2 ^ 16) dest flags
          (logMessage P LogLevel.LOG_DEBUG
            (LogMsg.sending_key1_cmd (BSWAP64 (key1_plain cmdarg arg ij m.state.key1_k)))
            { m with state := { m.state with key1_k := (m.state.key1_k + 1) % 2 ^ 32 } })).bytes
        (sendCommand P (bytesLE64 (key1_wire P m.state.key1_ps cmdarg arg ij m.state.key1_k))
          (size % 2 ^ 16) dest flags
          (logMessage P LogLevel.LOG_DEBUG
            (LogMsg.sending_key1_cmd (BSWAP64 (key1_plain cmdarg arg ij m.state.key1_k)))
            { m with state := { m.state with key1_k := (m.state.key1_k + 1) % 2 ^ 32 } })).ret] := by
  rw [key1_cmdf_eq, sendCommand_trace]
  rfl

/-! ## C13 -/

/-- The table `init_blowfish` leaves for the derived selector: the platform's table with
`blowfish_apply_key` applied twice, the second time to the key left by the first. -/
theorem init_blowfish_NTR {W : Type} (P : Platform W) (m : Machine W) :
    (init_blowfish P BlowfishKey.NTR m).state.key1_ps =
      (blowfish_apply_key
        (blowfish_apply_key (P.initBlowfishPS m.world m.state.key1_ps BlowfishKey.NTR).2
          [m.state.game_code, m.state.game_code >>> 1, (m.state.game_code <<< 1) % 2 ^ 32]).1
        (blowfish_apply_key (P.initBlowfishPS m.world m.state.key1_ps BlowfishKey.NTR).2
          [m.state.game_code, m.state.game_code >>> 1, (m.state.game_code <<< 1) % 2 ^ 32]).2).1 := by
  unfold init_blowfish
  rw [if_neg (by simp)]

/-- C13: for the derived (NTR) selector the table `init_blowfish` leaves in
`state.key1_ps` is the base table loaded by `initBlowfishPS` with `blowfish_apply_key`
applied exactly twice, under the key (game_code, game_code >> 1, game_code << 1 mod 2^32),
the second application on the key words as the first left them.  Hence two states with
the same `game_code` for which `initBlowfishPS` loads the same base table end with the
same table, whatever `key1_ps` and `key1_key` held before. -/
theorem C13_derived_key_deterministic {W : Type} (P : Platform W) (m1 m2 : Machine W)
    (hg : m1.state.game_code = m2.state.game_code)
    (hb : (P.initBlowfishPS m1.world m1.state.key1_ps BlowfishKey.NTR).2 =
      (P.initBlowfishPS m2.world m2.state.key1_ps BlowfishKey.NTR).2) :
    (init_blowfish P BlowfishKey.NTR m1).state.key1_ps =
      (init_blowfish P BlowfishKey.NTR m2).state.key1_ps ∧
    (init_blowfish P BlowfishKey.NTR m1).state.key1_ps =
      (blowfish_apply_key
        (blowfish_apply_key (P.initBlowfishPS m1.world m1.state.key1_ps BlowfishKey.NTR).2
          [m1.state.game_code, m1.state.game_code >>> 1,
            (m1.state.game_code <<< 1) % 2 ^ 32]).1
        (blowfish_apply_key (P.initBlowfishPS m1.world m1.state.key1_ps BlowfishKey.NTR).2
          [m1.state.game_code, m1.state.game_code >>> 1,
            (m1.state.game_code <<< 1) % 2 ^ 32]).2).1 := by
  refine ⟨?_, init_blowfish_NTR P m1⟩
  rw [init_blowfish_NTR P m1, init_blowfish_NTR P m2, hg, hb]

/-- C13 witness: on the simulated platform, the zero state and a state that differs from
it in `key1_ps` and `key1_key`. -/
theorem C13_derived_key_deterministic_witness :
    (simMachine Status.RAW).state.game_code = (simMachineOf simStateDirty).state.game_code ∧
    (simMachine Status.RAW).state.key1_ps ≠ (simMachineOf simStateDirty).state.key1_ps ∧
    (simMachine Status.RAW).state.key1_key ≠ (simMachineOf simStateDirty).state.key1_key ∧
    (init_blowfish (simPlatform true true 0 (fun _ => 0)) BlowfishKey.NTR
      (simMachine Status.RAW)).state.key1_ps =
      (init_blowfish (simPlatform true true 0 (fun _ => 0)) BlowfishKey.NTR
        (simMachineOf simStateDirty)).state.key1_ps :=
  ⟨rfl, by decide, by decide,
    (C13_derived_key_deterministic (simPlatform true true 0 (fun _ => 0))
      (simMachine Status.RAW) (simMachineOf simStateDirty) rfl rfl).1⟩

/-! ## The calls of a passing initKey1 -/

theorem initKey1_setup_key1_ps {W : Type} (P : Platform W) (key : BlowfishKey)
    (m : Machine W) : (initKey1_setup P key m).state.key1_ps = initKey1_table P key m := by
  unfold initKey1_setup initKey1_table
  dsimp only
  simp only [seed_key2_registers_key1_ps, key1_cmdf_null_state, sendCommand64_eq,
    sendCommand_state, writeResp_null]

theorem initKey1_setup_key1_romcnt {W : Type} (P : Platform W) (key : BlowfishKey)
    (m : Machine W) :
    (initKey1_setup P key m).state.key1_romcnt =
      ((m.state.key2_romcnt &&& ROMCNT_CLK_SLOW) |||
        (((m.state.hdr_key1_romcnt &&& (ROMCNT_CLK_SLOW ||| ROMCNT_DELAY1_MASK)) +
          ((m.state.hdr_key1_romcnt &&& ROMCNT_DELAY2_MASK) >>> 16)) % 2 ^ 32) |||
        ROMCNT_SEC_LARGE) ||| (ROMCNT_SEC_EN ||| ROMCNT_SEC_DAT) := by
  unfold initKey1_setup
  dsimp only
  simp only [seed_key2_registers_key1_romcnt, key1_cmdf_null_state, sendCommand64_eq,
    sendCommand_state, writeResp_null, init_blowfish_key2_romcnt,
    init_blowfish_hdr_key1_romcnt]

theorem initKey1_setup_key2_x {W : Type} (P : Platform W) (key : BlowfishKey)
    (m : Machine W) :
    (initKey1_setup P key m).state.key2_x =
      (rd seed_bytes (m.state.key2_seed &&& 7) + (0xC99ACE <<< 15) % 2 ^ 64 + 0x6000) %
        2 ^ 64 := by
  unfold initKey1_setup
  dsimp only
  simp only [seed_key2_registers_key2_x, key1_cmdf_null_state, sendCommand64_eq,
    sendCommand_state, writeResp_null, init_blowfish_key2_seed, init_blowfish_key2_mn]

theorem initKey1_setup_key2_y {W : Type} (P : Platform W) (key : BlowfishKey)
    (m : Machine W) : (initKey1_setup P key m).state.key2_y = 0x5c879b9b05 := by
  unfold initKey1_setup
  dsimp only
  simp only [seed_key2_registers_key2_y]

theorem initKey1_setup_trace {W : Type} (P : Platform W) (key : BlowfishKey) (m : Machine W)
    (hH : P.HAS_HW_KEY2 = true) (hS : m.state.status = Status.RAW) :
    ∃ r0 o0 r1 o1,
      (initKey1_setup P key m).trace = m.trace ++
        [Call.initBlowfishPS key,
          Call.sendCommand (bytesLE64 (activate_key1_word 0x11A473 0x39D46)) 0 RespPtr.null
            (m.state.key2_romcnt &&&
              (ROMCNT_CLK_SLOW ||| ROMCNT_DELAY2_MASK ||| ROMCNT_DELAY1_MASK)) r0 o0,
          Call.sendCommand
            (bytesLE64 (key1_wire P (initKey1_table P key m) CMD_KEY1_INIT_KEY2 0 0xC99ACE 0x39D46))
            0 RespPtr.null
            ((m.state.key2_romcnt &&& ROMCNT_CLK_SLOW) |||
              (((m.state.hdr_key1_romcnt &&& (ROMCNT_CLK_SLOW ||| ROMCNT_DELAY1_MASK)) +
                ((m.state.hdr_key1_romcnt &&& ROMCNT_DELAY2_MASK) >>> 16)) % 2 ^ 32) |||
              ROMCNT_SEC_LARGE) r1 o1,
          Call.initKey2Seed
            ((rd seed_bytes (m.state.key2_seed &&& 7) + (0xC99ACE <<< 15) % 2 ^ 64 + 0x6000) %
              2 ^ 64)
            0x5c879b9b05] := by
  have hne : (m.state.status = Status.KEY2) = False := by
    rw [hS]
    exact eq_false (by decide)
  have h0 : 0 % 2 ^ 16 = 0 := by decide
  have ht : (initKey1_setup P key m).trace = (initKey1_setup P key m).trace := rfl
  conv at ht =>
    rhs
    unfold initKey1_setup
    dsimp only
    simp only [seed_key2_registers_trace _ _ hH, key1_cmdf_trace, sendCommand64_eq,
      sendCommand_trace, sendCommand_state, writeResp_null, init_blowfish_trace,
      init_blowfish_status, init_blowfish_key2_romcnt, init_blowfish_hdr_key1_romcnt,
      init_blowfish_key1_k, init_blowfish_key1_ij, init_blowfish_key2_mn,
      init_blowfish_key1_l, init_blowfish_key2_seed, key1_cmdf_null_state, hne, if_false,
      h0, List.append_assoc, List.cons_append, List.nil_append]
  exact ⟨_, _, _, _, ht⟩

theorem initKey1_pass_key1_ps {W : Type} (P : Platform W) (key : BlowfishKey) (m : Machine W)
    (hH : P.HAS_HW_KEY2 = true) (hS : m.state.status = Status.RAW) :
    (initKey1 P key m).machine.state.key1_ps = initKey1_table P key m := by
  rw [initKey1_pass P key m hH hS, initKey1_finish_key1_ps, key1_cmd_eq, key1_cmdf_key1_ps,
    initKey1_setup_key1_ps]

/-- The five platform calls of an `initKey1` that passes its guards. -/
theorem initKey1_pass_trace {W : Type} (P : Platform W) (key : BlowfishKey) (m : Machine W)
    (hH : P.HAS_HW_KEY2 = true) (hS : m.state.status = Status.RAW) :
    ∃ r0 o0 r1 o1 r2 o2,
      (initKey1 P key m).machine.trace = m.trace ++
        [Call.initBlowfishPS key,
          Call.sendCommand (bytesLE64 (activate_key1_word 0x11A473 0x39D46)) 0 RespPtr.null
            (m.state.key2_romcnt &&&
              (ROMCNT_CLK_SLOW ||| ROMCNT_DELAY2_MASK ||| ROMCNT_DELAY1_MASK)) r0 o0,
          Call.sendCommand
            (bytesLE64 (key1_wire P (initKey1_table P key m) CMD_KEY1_INIT_KEY2 0 0xC99ACE 0x39D46))
            0 RespPtr.null
            ((m.state.key2_romcnt &&& ROMCNT_CLK_SLOW) |||
              (((m.state.hdr_key1_romcnt &&& (ROMCNT_CLK_SLOW ||| ROMCNT_DELAY1_MASK)) +
                ((m.state.hdr_key1_romcnt &&& ROMCNT_DELAY2_MASK) >>> 16)) % 2 ^ 32) |||
              ROMCNT_SEC_LARGE) r1 o1,
          Call.initKey2Seed
            ((rd seed_bytes (m.state.key2_seed &&& 7) + (0xC99ACE <<< 15) % 2 ^ 64 + 0x6000) %
              2 ^ 64)
            0x5c879b9b05,
          Call.sendCommand
            (bytesLE64 (key1_wire P (initKey1_table P key m) CMD_KEY1_CHIPID 0 0x11A473 0x39D47))
            4 RespPtr.key1_chipid
            (((m.state.key2_romcnt &&& ROMCNT_CLK_SLOW) |||
              (((m.state.hdr_key1_romcnt &&& (ROMCNT_CLK_SLOW ||| ROMCNT_DELAY1_MASK)) +
                ((m.state.hdr_key1_romcnt &&& ROMCNT_DELAY2_MASK) >>> 16)) % 2 ^ 32) |||
              ROMCNT_SEC_LARGE) ||| (ROMCNT_SEC_EN ||| ROMCNT_SEC_DAT)) r2 o2] := by
  obtain ⟨r0, o0, r1, o1, htr⟩ := initKey1_setup_trace P key m hH hS
  have hne : (m.state.status = Status.KEY2) = False := by
    rw [hS]
    exact eq_false (by decide)
  have h4 : 4 % 2 ^ 16 = 4 := by decide
  have ht : (initKey1 P key m).machine.trace = (initKey1 P key m).machine.trace := rfl
  conv at ht =>
    rhs
    rw [initKey1_pass P key m hH hS, initKey1_finish_trace, key1_cmd_eq, key1_cmdf_trace, htr]
    simp only [initKey1_setup_key1_ps, initKey1_setup_key1_l, initKey1_setup_key1_ij,
      initKey1_setup_key1_k, initKey1_setup_key1_romcnt, initKey1_setup_status, hne, if_false,
      h4, List.append_assoc, List.cons_append, List.nil_append]
  exact ⟨r0, o0, r1, o1, _, _, ht⟩

theorem seed_byte_lt (x : Nat) : rd seed_bytes (x &&& 7) < 256 := by
  have h : x &&& 7 < 2 ^ 3 := Nat.and_lt_two_pow x (by decide)
  generalize x &&& 7 = i at h
  have h8 : i < 8 := h
  clear h
  interval_cases i <;> decide

theorem seed_index_lt (x : Nat) : x &&& 7 < seed_bytes.length :=
  Nat.and_lt_two_pow x (by decide : 7 < 2 ^ 3)

theorem testBit_raw_flags (x : Nat) :
    Nat.testBit (x &&& (ROMCNT_CLK_SLOW ||| ROMCNT_DELAY2_MASK ||| ROMCNT_DELAY1_MASK)) 22 =
      false ∧
    Nat.testBit (x &&& (ROMCNT_CLK_SLOW ||| ROMCNT_DELAY2_MASK ||| ROMCNT_DELAY1_MASK)) 14 =
      false ∧
    Nat.testBit (x &&& (ROMCNT_CLK_SLOW ||| ROMCNT_DELAY2_MASK ||| ROMCNT_DELAY1_MASK)) 13 =
      false := by
  have h22 : Nat.testBit (ROMCNT_CLK_SLOW ||| ROMCNT_DELAY2_MASK ||| ROMCNT_DELAY1_MASK) 22 =
      false := by decide
  have h14 : Nat.testBit (ROMCNT_CLK_SLOW ||| ROMCNT_DELAY2_MASK ||| ROMCNT_DELAY1_MASK) 14 =
      false := by decide
  have h13 : Nat.testBit (ROMCNT_CLK_SLOW ||| ROMCNT_DELAY2_MASK ||| ROMCNT_DELAY1_MASK) 13 =
      false := by decide
  rw [Nat.testBit_and, Nat.testBit_and, Nat.testBit_and, h22, h14, h13]
  simp

/-! ## C18 -/

/-- C18: whenever `initKey1` is past its guards, for every platform, key selector and
state, its second platform call (after `initBlowfishPS`) sends the raw activation word
`activate_key1_word 0x11A473 0x39D46 = 0x00469D0373A4113C`, bytes 3C 11 A4 73 03 9D 46 00
in memory order, with response length 0, no response buffer and flags
`key2_romcnt & (CLK_SLOW | DELAY2_MASK | DELAY1_MASK)`, in which bits 22, 14 and 13 are
clear; the command after it still packs k = 0x39D46, so the raw word did not advance the
counter. -/
theorem C18_raw_activation_word {W : Type} (P : Platform W) (key : BlowfishKey)
    (m : Machine W) (hH : P.HAS_HW_KEY2 = true) (hS : m.state.status = Status.RAW) :
    activate_key1_word 0x11A473 0x39D46 = 0x00469D0373A4113C ∧
    bytesLE64 0x00469D0373A4113C = [0x3C, 0x11, 0xA4, 0x73, 0x03, 0x9D, 0x46, 0x00] ∧
    (∃ response ok next_flags next_response next_ok after,
      (initKey1 P key m).machine.trace = m.trace ++
        Call.initBlowfishPS key ::
        Call.sendCommand (bytesLE64 0x00469D0373A4113C) 0 RespPtr.null
          (m.state.key2_romcnt &&&
            (ROMCNT_CLK_SLOW ||| ROMCNT_DELAY2_MASK ||| ROMCNT_DELAY1_MASK)) response ok ::
        Call.sendCommand
          (bytesLE64 (key1_wire P (initKey1 P key m).machine.state.key1_ps CMD_KEY1_INIT_KEY2 0
            0xC99ACE 0x39D46))
          0 RespPtr.null next_flags next_response next_ok :: after) ∧
    Nat.testBit (m.state.key2_romcnt &&&
      (ROMCNT_CLK_SLOW ||| ROMCNT_DELAY2_MASK ||| ROMCNT_DELAY1_MASK)) 22 = false ∧
    Nat.testBit (m.state.key2_romcnt &&&
      (ROMCNT_CLK_SLOW ||| ROMCNT_DELAY2_MASK ||| ROMCNT_DELAY1_MASK)) 14 = false ∧
    Nat.testBit (m.state.key2_romcnt &&&
      (ROMCNT_CLK_SLOW ||| ROMCNT_DELAY2_MASK ||| ROMCNT_DELAY1_MASK)) 13 = false := by
  have hw : activate_key1_word 0x11A473 0x39D46 = 0x00469D0373A4113C := by decide
  obtain ⟨r0, o0, r1, o1, r2, o2, htr⟩ := initKey1_pass_trace P key m hH hS
  rw [hw, ← initKey1_pass_key1_ps P key m hH hS] at htr
  exact ⟨hw, by decide, ⟨r0, o0, _, r1, o1, _, htr⟩, testBit_raw_flags _⟩

/-- C18 witness: the simulated platform in status RAW. -/
theorem C18_raw_activation_word_witness :
    (simPlatform true true 0 (fun _ => 0)).HAS_HW_KEY2 = true ∧
    (simMachine Status.RAW).state.status = Status.RAW ∧
    ∃ response ok after,
      (initKey1 (simPlatform true true 0 (fun _ => 0)) (BlowfishKey.other 0)
        (simMachine Status.RAW)).machine.trace =
        Call.initBlowfishPS (BlowfishKey.other 0) ::
        Call.sendCommand [0x3C, 0x11, 0xA4, 0x73, 0x03, 0x9D, 0x46, 0x00] 0 RespPtr.null 0
          response ok :: after := by
  obtain ⟨_, hb, ⟨response, ok, f, r, o, after, htr⟩, _⟩ :=
    C18_raw_activation_word (simPlatform true true 0 (fun _ => 0)) (BlowfishKey.other 0)
      (simMachine Status.RAW) rfl rfl
  rw [hb] at htr
  exact ⟨rfl, rfl, response, ok, _, htr⟩

/-! ## C15 -/

/-- The flags `initKey1` computes for its KEY1 commands are the specification's formula
taken at the working register `key2_romcnt`, with the clock bit of the header's KEY1
snapshot OR'ed in. -/
theorem key1_flags_eq (k h : Nat) :
    (k &&& ROMCNT_CLK_SLOW) |||
      (((h &&& (ROMCNT_CLK_SLOW ||| ROMCNT_DELAY1_MASK)) +
        ((h &&& ROMCNT_DELAY2_MASK) >>> 16)) % 2 ^ 32) |||
      ROMCNT_SEC_LARGE =
    specKey1Romcnt h k ||| (h &&& ROMCNT_CLK_SLOW) := by
  unfold specKey1Romcnt
  have hc : h &&& ROMCNT_CLK_SLOW = h / 2 ^ 27 % 2 ^ 1 * 2 ^ 27 := by
    have e : ROMCNT_CLK_SLOW = (2 ^ 1 - 1) * 2 ^ 27 := by decide
    rw [e, land_mask]
  have hsplit : h &&& (ROMCNT_CLK_SLOW ||| ROMCNT_DELAY1_MASK) =
      (h &&& ROMCNT_DELAY1_MASK) ||| (h &&& ROMCNT_CLK_SLOW) := by
    apply Nat.eq_of_testBit_eq
    intro i
    simp only [Nat.testBit_or, Nat.testBit_and]
    cases Nat.testBit h i <;> cases Nat.testBit ROMCNT_CLK_SLOW i <;>
      cases Nat.testBit ROMCNT_DELAY1_MASK i <;> rfl
  have ha : h &&& ROMCNT_DELAY1_MASK < 2 ^ 13 := Nat.and_lt_two_pow h (by decide)
  have hd : (h &&& ROMCNT_DELAY2_MASK) >>> 16 < 2 ^ 6 := by
    have h22 : h &&& ROMCNT_DELAY2_MASK < 2 ^ 22 := Nat.and_lt_two_pow h (by decide)
    rw [Nat.shiftRight_eq_div_pow]
    omega
  have hf : h / 2 ^ 27 % 2 ^ 1 < 2 := Nat.mod_lt _ (by decide)
  rw [hsplit, hc]
  generalize h &&& ROMCNT_DELAY1_MASK = a at ha ⊢
  generalize (h &&& ROMCNT_DELAY2_MASK) >>> 16 = d at hd ⊢
  generalize h / 2 ^ 27 % 2 ^ 1 = f at hf ⊢
  rw [lor_eq_add a f 27 (by omega)]
  have e1 : (a + f * 2 ^ 27 + d) % 2 ^ 32 = (a + d) ||| f * 2 ^ 27 := by
    rw [lor_eq_add (a + d) f 27 (by omega)]
    omega
  have e2 : (a + d) % 2 ^ 32 = a + d := by omega
  rw [e1, e2]
  apply Nat.eq_of_testBit_eq
  intro i
  simp only [Nat.testBit_or]
  cases Nat.testBit (k &&& ROMCNT_CLK_SLOW) i <;> cases Nat.testBit (a + d) i <;>
    cases Nat.testBit (f * 2 ^ 27) i <;> cases Nat.testBit ROMCNT_SEC_LARGE i <;> rfl

/-- Bit 27 of the flags `initKey1` computes is set when it is set in the working register
`key2_romcnt` or in the header's KEY1 snapshot. -/
theorem key1_flags_clock (k h : Nat) :
    Nat.testBit (specKey1Romcnt h k ||| (h &&& ROMCNT_CLK_SLOW)) 27 =
      (Nat.testBit k 27 || Nat.testBit h 27) := by
  unfold specKey1Romcnt
  have ha : h &&& ROMCNT_DELAY1_MASK < 2 ^ 13 := Nat.and_lt_two_pow h (by decide)
  have hd : (h &&& ROMCNT_DELAY2_MASK) >>> 16 < 2 ^ 6 := by
    have h22 : h &&& ROMCNT_DELAY2_MASK < 2 ^ 22 := Nat.and_lt_two_pow h (by decide)
    rw [Nat.shiftRight_eq_div_pow]
    omega
  generalize h &&& ROMCNT_DELAY1_MASK = a at ha ⊢
  generalize (h &&& ROMCNT_DELAY2_MASK) >>> 16 = d at hd ⊢
  have e2 : (a + d) % 2 ^ 32 = a + d := by omega
  have hlt : a + d < 2 ^ 27 := by omega
  have hL : Nat.testBit ROMCNT_SEC_LARGE 27 = false := by decide
  have hC : Nat.testBit ROMCNT_CLK_SLOW 27 = true := by decide
  rw [e2, Nat.testBit_or, Nat.testBit_or, Nat.testBit_or, Nat.testBit_and, Nat.testBit_and,
    Nat.testBit_lt_two_pow hlt, hL, hC]
  simp

/-- C15: in `initKey1` past its guards, for every platform, key selector and state, the
flags of the init-secondary-cipher command (the second `sendCommand`, third platform call
of five) are
`(key2_romcnt & CLK_SLOW) | ((hdr_key1_romcnt & (CLK_SLOW | DELAY1_MASK)) + ((hdr_key1_romcnt & DELAY2_MASK) >> 16)) | SEC_LARGE`:
the formula of the specification taken at the working register `state.key2_romcnt`
(which is `hdr_key2_romcnt` in the state `init` leaves), with the clock bit of
`hdr_key1_romcnt` OR'ed in.  Bit 27 of the flags is set when it is set in `key2_romcnt` or
in `hdr_key1_romcnt`; the register `key1_romcnt` ends as these flags with SEC_EN and
SEC_DAT set. -/
theorem C15_key1_working_register {W : Type} (P : Platform W) (key : BlowfishKey)
    (m : Machine W) (hH : P.HAS_HW_KEY2 = true) (hS : m.state.status = Status.RAW) :
    ∃ before cmdbuf flags response ok after,
      (initKey1 P key m).machine.trace =
        before ++ Call.sendCommand cmdbuf 0 RespPtr.null flags response ok :: after ∧
      before.length = m.trace.length + 2 ∧ after.length = 2 ∧
      cmdbuf = bytesLE64 (key1_wire P (initKey1 P key m).machine.state.key1_ps
        CMD_KEY1_INIT_KEY2 0 0xC99ACE 0x39D46) ∧
      flags = ((m.state.key2_romcnt &&& ROMCNT_CLK_SLOW) |||
        (((m.state.hdr_key1_romcnt &&& (ROMCNT_CLK_SLOW ||| ROMCNT_DELAY1_MASK)) +
          ((m.state.hdr_key1_romcnt &&& ROMCNT_DELAY2_MASK) >>> 16)) % 2 ^ 32) |||
        ROMCNT_SEC_LARGE) ∧
      flags = specKey1Romcnt m.state.hdr_key1_romcnt m.state.key2_romcnt |||
        (m.state.hdr_key1_romcnt &&& ROMCNT_CLK_SLOW) ∧
      (m.state.key2_romcnt = m.state.hdr_key2_romcnt →
        flags = specKey1Romcnt m.state.hdr_key1_romcnt m.state.hdr_key2_romcnt |||
          (m.state.hdr_key1_romcnt &&& ROMCNT_CLK_SLOW)) ∧
      Nat.testBit flags 27 =
        (Nat.testBit m.state.key2_romcnt 27 || Nat.testBit m.state.hdr_key1_romcnt 27) ∧
      (initKey1 P key m).machine.state.key1_romcnt =
        flags ||| (ROMCNT_SEC_EN ||| ROMCNT_SEC_DAT) := by
  obtain ⟨r0, o0, r1, o1, r2, o2, htr⟩ := initKey1_pass_trace P key m hH hS
  rw [← initKey1_pass_key1_ps P key m hH hS] at htr
  have hreg : (initKey1 P key m).machine.state.key1_romcnt =
      ((m.state.key2_romcnt &&& ROMCNT_CLK_SLOW) |||
        (((m.state.hdr_key1_romcnt &&& (ROMCNT_CLK_SLOW ||| ROMCNT_DELAY1_MASK)) +
          ((m.state.hdr_key1_romcnt &&& ROMCNT_DELAY2_MASK) >>> 16)) % 2 ^ 32) |||
        ROMCNT_SEC_LARGE) ||| (ROMCNT_SEC_EN ||| ROMCNT_SEC_DAT) := by
    rw [initKey1_pass P key m hH hS, initKey1_finish_key1_romcnt, key1_cmd_eq,
      key1_cmdf_key1_romcnt, initKey1_setup_key1_romcnt]
  exact ⟨m.trace ++ [Call.initBlowfishPS key,
      Call.sendCommand (bytesLE64 (activate_key1_word 0x11A473 0x39D46)) 0 RespPtr.null
        (m.state.key2_romcnt &&&
          (ROMCNT_CLK_SLOW ||| ROMCNT_DELAY2_MASK ||| ROMCNT_DELAY1_MASK)) r0 o0],
    _, _, r1, o1, [_, _],
    by
      rw [htr, List.append_assoc]
      rfl,
    by
      rw [List.length_append]
      rfl,
    rfl, rfl, rfl, key1_flags_eq _ _,
    by
      intro h
      rw [← h]
      exact key1_flags_eq _ _,
    by
      rw [key1_flags_eq]
      exact key1_flags_clock _ _,
    hreg⟩

/-- C15 witness: the simulated platform, on the state with the clock bit set in the
header's KEY1 snapshot only; the register ends as 0x18006000. -/
theorem C15_key1_working_register_witness :
    (simPlatform true true 0 (fun _ => 0)).HAS_HW_KEY2 = true ∧
    (simMachineOf simStateKey1Clock).state.status = Status.RAW ∧
    (initKey1 (simPlatform true true 0 (fun _ => 0)) (BlowfishKey.other 0)
      (simMachineOf simStateKey1Clock)).machine.state.key1_romcnt = 0x18006000 := by
  obtain ⟨_, _, flags, _, _, _, _, _, _, _, hf, _, _, _, hreg⟩ :=
    C15_key1_working_register (simPlatform true true 0 (fun _ => 0)) (BlowfishKey.other 0)
      (simMachineOf simStateKey1Clock) rfl rfl
  rw [hf] at hreg
  exact ⟨rfl, rfl, hreg.trans (by decide)⟩

/-- C15 counterexample: the header's KEY2 snapshot and the working register `key2_romcnt`
are both 0, and the header's KEY1 snapshot is 0x08000000.  The flags of the three
commands `initKey1` sends are 0, 0x18000000 and 0x18006000: the init-secondary-cipher
command (the second) goes out with the clock bit 27 set, while the formula of the
specification gives 0x10000000. -/
theorem C15_clock_bit_counterexample :
    (simPlatform true true 0 (fun _ => 0)).HAS_HW_KEY2 = true ∧
    simStateKey1Clock.status = Status.RAW ∧
    simStateKey1Clock.hdr_key1_romcnt = 0x08000000 ∧
    simStateKey1Clock.hdr_key2_romcnt = 0 ∧
    simStateKey1Clock.key2_romcnt = 0 ∧
    sentFlags (initKey1 (simPlatform true true 0 (fun _ => 0)) (BlowfishKey.other 0)
      (simMachineOf simStateKey1Clock)).machine.trace = [0, 0x18000000, 0x18006000] ∧
    specKey1Romcnt simStateKey1Clock.hdr_key1_romcnt simStateKey1Clock.hdr_key2_romcnt =
      0x10000000 ∧
    specKey1Romcnt simStateKey1Clock.hdr_key1_romcnt simStateKey1Clock.hdr_key2_romcnt ≠
      0x18000000 := by
  refine ⟨rfl, rfl, rfl, rfl, rfl, ?_, ?_, ?_⟩
  · decide
  · decide
  · decide

/-! ## C17 -/

theorem initKey1_pass_key2_x {W : Type} (P : Platform W) (key : BlowfishKey) (m : Machine W)
    (hH : P.HAS_HW_KEY2 = true) (hS : m.state.status = Status.RAW) :
    (initKey1 P key m).machine.state.key2_x =
      0x64CD676000 + rd seed_bytes (m.state.key2_seed &&& 7) := by
  rw [initKey1_pass P key m hH hS, initKey1_finish_key2_x, key1_cmd_eq, key1_cmdf_key2_x,
    initKey1_setup_key2_x]
  have hr := seed_byte_lt m.state.key2_seed
  have hc : (0xC99ACE <<< 15) % 2 ^ 64 = 0x64CD670000 := by decide
  rw [hc]
  generalize rd seed_bytes (m.state.key2_seed &&& 7) = r at hr ⊢
  omega

theorem initKey1_pass_key2_y {W : Type} (P : Platform W) (key : BlowfishKey) (m : Machine W)
    (hH : P.HAS_HW_KEY2 = true) (hS : m.state.status = Status.RAW) :
    (initKey1 P key m).machine.state.key2_y = 0x5c879b9b05 := by
  rw [initKey1_pass P key m hH hS, initKey1_finish_key2_y, key1_cmd_eq, key1_cmdf_key2_y,
    initKey1_setup_key2_y]

theorem seed_key2_x_exact {W : Type} (P : Platform W) (m : Machine W)
    (hmn : m.state.key2_mn < 2 ^ 32) :
    (seed_key2_registers P m).state.key2_x =
      rd seed_bytes (m.state.key2_seed &&& 7) + m.state.key2_mn * 2 ^ 15 + 0x6000 := by
  rw [seed_key2_registers_key2_x, Nat.shiftLeft_eq]
  have hr := seed_byte_lt m.state.key2_seed
  generalize rd seed_bytes (m.state.key2_seed &&& 7) = r at hr ⊢
  generalize m.state.key2_mn = mn at hmn ⊢
  omega

/-- C17: `seed_key2_registers` sets `key2_x` to
`seed_bytes[key2_seed & 7] + key2_mn * 2^15 + 0x6000`, the exact sum (the 64-bit
arithmetic of the source does not wrap for a 32-bit `key2_mn`), and `key2_y` to
0x5c879b9b05, with `seed_bytes` the eight bytes E8 4D 5A B1 17 8F 99 D5 and the index
always inside the table.  An `initKey1` that passes its guards (it stores
`key2_mn = 0xC99ACE` first) ends with `key2_x = 0x64CD676000 + seed_bytes[key2_seed & 7]`
and `key2_y = 0x5c879b9b05`, both below 2^40, and hands exactly these two values to
`platform::initKey2Seed`. -/
theorem C17_key2_seeding {W : Type} (P : Platform W) (key : BlowfishKey) (m : Machine W)
    (hmn : m.state.key2_mn < 2 ^ 32)
    (hH : P.HAS_HW_KEY2 = true) (hS : m.state.status = Status.RAW) :
    seed_bytes = [0xE8, 0x4D, 0x5A, 0xB1, 0x17, 0x8F, 0x99, 0xD5] ∧
    m.state.key2_seed &&& 7 < seed_bytes.length ∧
    (seed_key2_registers P m).state.key2_x =
      rd seed_bytes (m.state.key2_seed &&& 7) + m.state.key2_mn * 2 ^ 15 + 0x6000 ∧
    (seed_key2_registers P m).state.key2_y = 0x5c879b9b05 ∧
    (initKey1 P key m).machine.state.key2_x =
      0x64CD676000 + rd seed_bytes (m.state.key2_seed &&& 7) ∧
    (initKey1 P key m).machine.state.key2_y = 0x5c879b9b05 ∧
    (initKey1 P key m).machine.state.key2_x < 2 ^ 40 ∧
    (initKey1 P key m).machine.state.key2_y < 2 ^ 40 ∧
    (∃ before after,
      (initKey1 P key m).machine.trace =
        before ++ Call.initKey2Seed (initKey1 P key m).machine.state.key2_x
          (initKey1 P key m).machine.state.key2_y :: after) := by
  have hx := initKey1_pass_key2_x P key m hH hS
  have hy := initKey1_pass_key2_y P key m hH hS
  have hr := seed_byte_lt m.state.key2_seed
  refine ⟨rfl, seed_index_lt _, seed_key2_x_exact P m hmn, seed_key2_registers_key2_y P m,
    hx, hy, ?_, ?_, ?_⟩
  · rw [hx]
    generalize rd seed_bytes (m.state.key2_seed &&& 7) = r at hr ⊢
    omega
  · rw [hy]
    decide
  · obtain ⟨r0, o0, r1, o1, r2, o2, htr⟩ := initKey1_pass_trace P key m hH hS
    have hx2 : (initKey1 P key m).machine.state.key2_x =
        (rd seed_bytes (m.state.key2_seed &&& 7) + (0xC99ACE <<< 15) % 2 ^ 64 + 0x6000) %
          2 ^ 64 := by
      rw [initKey1_pass P key m hH hS, initKey1_finish_key2_x, key1_cmd_eq, key1_cmdf_key2_x,
        initKey1_setup_key2_x]
    rw [← hx2, ← hy] at htr
    exact ⟨m.trace ++ [Call.initBlowfishPS key, _, _], [_], by
      rw [htr, List.append_assoc]
      rfl⟩

/-- C17 witness: the simulated platform in status RAW, with `key2_seed = 0` and
`key2_mn = 0` before the call: `key2_x` ends as 0x64CD6760E8. -/
theorem C17_key2_seeding_witness :
    (simMachine Status.RAW).state.key2_mn < 2 ^ 32 ∧
    (simPlatform true true 0 (fun _ => 0)).HAS_HW_KEY2 = true ∧
    (simMachine Status.RAW).state.status = Status.RAW ∧
    (initKey1 (simPlatform true true 0 (fun _ => 0)) (BlowfishKey.other 0)
      (simMachine Status.RAW)).machine.state.key2_x = 0x64CD6760E8 := by
  obtain ⟨_, _, _, _, hx, _⟩ :=
    C17_key2_seeding (simPlatform true true 0 (fun _ => 0)) (BlowfishKey.other 0)
      (simMachine Status.RAW) (by decide) rfl rfl
  exact ⟨by decide, rfl, rfl, hx.trans (by decide)⟩

/-! ## C14 -/

theorem initKey1_game_code {W : Type} (P : Platform W) (key : BlowfishKey) (m : Machine W) :
    (initKey1 P key m).machine.state.game_code = m.state.game_code := by
  by_cases hH : P.HAS_HW_KEY2 = true
  · by_cases hS : m.state.status = Status.RAW
    · rw [initKey1_pass P key m hH hS, initKey1_finish_game_code, key1_cmd_eq, key1_cmdf_game_code,
        initKey1_setup_game_code]
    · rw [initKey1_not_raw P key m hH hS]
      rfl
  · rw [initKey1_no_hw P key m (by simpa using hH)]
    rfl

theorem initKey1_hdr_key1_romcnt {W : Type} (P : Platform W) (key : BlowfishKey) (m : Machine W) :
    (initKey1 P key m).machine.state.hdr_key1_romcnt = m.state.hdr_key1_romcnt := by
  by_cases hH : P.HAS_HW_KEY2 = true
  · by_cases hS : m.state.status = Status.RAW
    · rw [initKey1_pass P key m hH hS, initKey1_finish_hdr_key1_romcnt, key1_cmd_eq, key1_cmdf_hdr_key1_romcnt,
        initKey1_setup_hdr_key1_romcnt]
    · rw [initKey1_not_raw P key m hH hS]
      rfl
  · rw [initKey1_no_hw P key m (by simpa using hH)]
    rfl

theorem initKey1_hdr_key2_romcnt {W : Type} (P : Platform W) (key : BlowfishKey) (m : Machine W) :
    (initKey1 P key m).machine.state.hdr_key2_romcnt = m.state.hdr_key2_romcnt := by
  by_cases hH : P.HAS_HW_KEY2 = true
  · by_cases hS : m.state.status = Status.RAW
    · rw [initKey1_pass P key m hH hS, initKey1_finish_hdr_key2_romcnt, key1_cmd_eq, key1_cmdf_hdr_key2_romcnt,
        initKey1_setup_hdr_key2_romcnt]
    · rw [initKey1_not_raw P key m hH hS]
      rfl
  · rw [initKey1_no_hw P key m (by simpa using hH)]
    rfl

theorem initKey1_key2_seed {W : Type} (P : Platform W) (key : BlowfishKey) (m : Machine W) :
    (initKey1 P key m).machine.state.key2_seed = m.state.key2_seed := by
  by_cases hH : P.HAS_HW_KEY2 = true
  · by_cases hS : m.state.status = Status.RAW
    · rw [initKey1_pass P key m hH hS, initKey1_finish_key2_seed, key1_cmd_eq, key1_cmdf_key2_seed,
        initKey1_setup_key2_seed]
    · rw [initKey1_not_raw P key m hH hS]
      rfl
  · rw [initKey1_no_hw P key m (by simpa using hH)]
    rfl

theorem initKey1_key2_romcnt {W : Type} (P : Platform W) (key : BlowfishKey) (m : Machine W) :
    (initKey1 P key m).machine.state.key2_romcnt = m.state.key2_romcnt := by
  by_cases hH : P.HAS_HW_KEY2 = true
  · by_cases hS : m.state.status = Status.RAW
    · rw [initKey1_pass P key m hH hS, initKey1_finish_key2_romcnt, key1_cmd_eq, key1_cmdf_key2_romcnt,
        initKey1_setup_key2_romcnt]
    · rw [initKey1_not_raw P key m hH hS]
      rfl
  · rw [initKey1_no_hw P key m (by simpa using hH)]
    rfl

theorem initKey2_chipid {W : Type} (P : Platform W) (m : Machine W) :
    (initKey2 P m).machine.state.chipid = m.state.chipid := by
  by_cases hH : P.HAS_HW_KEY2 = true
  · by_cases hS : m.state.status = Status.KEY1
    · rw [initKey2_pass P m hH hS, initKey2_finish_chipid, sendCommand64_eq, sendCommand_state,
        writeResp_key2_chipid_get_chipid, initKey2_setup_chipid]
    · rw [initKey2_not_key1 P m hH hS]
      rfl
  · rw [initKey2_no_hw P m (by simpa using hH)]
    rfl

theorem initKey2_game_code {W : Type} (P : Platform W) (m : Machine W) :
    (initKey2 P m).machine.state.game_code = m.state.game_code := by
  by_cases hH : P.HAS_HW_KEY2 = true
  · by_cases hS : m.state.status = Status.KEY1
    · rw [initKey2_pass P m hH hS, initKey2_finish_game_code, sendCommand64_eq, sendCommand_state,
        writeResp_game_code, initKey2_setup_game_code]
    · rw [initKey2_not_key1 P m hH hS]
      rfl
  · rw [initKey2_no_hw P m (by simpa using hH)]
    rfl

theorem initKey2_hdr_key1_romcnt {W : Type} (P : Platform W) (m : Machine W) :
    (initKey2 P m).machine.state.hdr_key1_romcnt = m.state.hdr_key1_romcnt := by
  by_cases hH : P.HAS_HW_KEY2 = true
  · by_cases hS : m.state.status = Status.KEY1
    · rw [initKey2_pass P m hH hS, initKey2_finish_hdr_key1_romcnt, sendCommand64_eq, sendCommand_state,
        writeResp_hdr_key1_romcnt, initKey2_setup_hdr_key1_romcnt]
    · rw [initKey2_not_key1 P m hH hS]
      rfl
  · rw [initKey2_no_hw P m (by simpa using hH)]
    rfl

theorem initKey2_hdr_key2_romcnt {W : Type} (P : Platform W) (m : Machine W) :
    (initKey2 P m).machine.state.hdr_key2_romcnt = m.state.hdr_key2_romcnt := by
  by_cases hH : P.HAS_HW_KEY2 = true
  · by_cases hS : m.state.status = Status.KEY1
    · rw [initKey2_pass P m hH hS, initKey2_finish_hdr_key2_romcnt, sendCommand64_eq, sendCommand_state,
        writeResp_hdr_key2_romcnt, initKey2_setup_hdr_key2_romcnt]
    · rw [initKey2_not_key1 P m hH hS]
      rfl
  · rw [initKey2_no_hw P m (by simpa using hH)]
    rfl

theorem initKey2_key2_seed {W : Type} (P : Platform W) (m : Machine W) :
    (initKey2 P m).machine.state.key2_seed = m.state.key2_seed := by
  by_cases hH : P.HAS_HW_KEY2 = true
  · by_cases hS : m.state.status = Status.KEY1
    · rw [initKey2_pass P m hH hS, initKey2_finish_key2_seed, sendCommand64_eq, sendCommand_state,
        writeResp_key2_seed, initKey2_setup_key2_seed]
    · rw [initKey2_not_key1 P m hH hS]
      rfl
  · rw [initKey2_no_hw P m (by simpa using hH)]
    rfl

theorem initKey2_key1_romcnt {W : Type} (P : Platform W) (m : Machine W) :
    (initKey2 P m).machine.state.key1_romcnt = m.state.key1_romcnt := by
  by_cases hH : P.HAS_HW_KEY2 = true
  · by_cases hS : m.state.status = Status.KEY1
    · rw [initKey2_pass P m hH hS, initKey2_finish_key1_romcnt, sendCommand64_eq, sendCommand_state,
        writeResp_key1_romcnt, initKey2_setup_key1_romcnt]
    · rw [initKey2_not_key1 P m hH hS]
      rfl
  · rw [initKey2_no_hw P m (by simpa using hH)]
    rfl

/-- C14: on every path (guards failed, chip id matched, chip id mismatched), for every
platform, key selector and state, `initKey1` and `initKey2` leave `hdr_key1_romcnt`,
`hdr_key2_romcnt`, `game_code`, `key2_seed` and `chipid` as they were; `initKey1` leaves
the working register `key2_romcnt` as it was and `initKey2` leaves `key1_romcnt` as it
was.  A `sendCommand` leaves the four header values as they were, and `chipid` too, unless
its response buffer is `chipid` itself (as in `init`). -/
theorem C14_header_values_immutable {W : Type} (P : Platform W) (key : BlowfishKey)
    (m : Machine W) :
    (initKey1 P key m).machine.state.hdr_key1_romcnt = m.state.hdr_key1_romcnt ∧
    (initKey1 P key m).machine.state.hdr_key2_romcnt = m.state.hdr_key2_romcnt ∧
    (initKey1 P key m).machine.state.game_code = m.state.game_code ∧
    (initKey1 P key m).machine.state.key2_seed = m.state.key2_seed ∧
    (initKey1 P key m).machine.state.chipid = m.state.chipid ∧
    (initKey1 P key m).machine.state.key2_romcnt = m.state.key2_romcnt ∧
    (initKey2 P m).machine.state.hdr_key1_romcnt = m.state.hdr_key1_romcnt ∧
    (initKey2 P m).machine.state.hdr_key2_romcnt = m.state.hdr_key2_romcnt ∧
    (initKey2 P m).machine.state.game_code = m.state.game_code ∧
    (initKey2 P m).machine.state.key2_seed = m.state.key2_seed ∧
    (initKey2 P m).machine.state.chipid = m.state.chipid ∧
    (initKey2 P m).machine.state.key1_romcnt = m.state.key1_romcnt ∧
    (∀ cmdbuf response_len resp flags,
      (sendCommand P cmdbuf response_len resp flags m).machine.state.hdr_key1_romcnt = m.state.hdr_key1_romcnt) ∧
    (∀ cmdbuf response_len resp flags,
      (sendCommand P cmdbuf response_len resp flags m).machine.state.hdr_key2_romcnt = m.state.hdr_key2_romcnt) ∧
    (∀ cmdbuf response_len resp flags,
      (sendCommand P cmdbuf response_len resp flags m).machine.state.game_code = m.state.game_code) ∧
    (∀ cmdbuf response_len resp flags,
      (sendCommand P cmdbuf response_len resp flags m).machine.state.key2_seed = m.state.key2_seed) ∧
    (∀ cmdbuf response_len flags,
      (sendCommand P cmdbuf response_len RespPtr.null flags m).machine.state.chipid =
        m.state.chipid) ∧
    (∀ cmdbuf response_len flags,
      (sendCommand P cmdbuf response_len RespPtr.hdr flags m).machine.state.chipid =
        m.state.chipid) ∧
    (∀ cmdbuf response_len flags,
      (sendCommand P cmdbuf response_len RespPtr.key1_chipid flags m).machine.state.chipid =
        m.state.chipid) ∧
    (∀ cmdbuf response_len flags,
      (sendCommand P cmdbuf response_len RespPtr.key2_chipid flags m).machine.state.chipid =
        m.state.chipid) :=
  ⟨initKey1_hdr_key1_romcnt P key m,
    initKey1_hdr_key2_romcnt P key m,
    initKey1_game_code P key m,
    initKey1_key2_seed P key m,
    initKey1_chipid P key m,
    initKey1_key2_romcnt P key m,
    initKey2_hdr_key1_romcnt P m,
    initKey2_hdr_key2_romcnt P m,
    initKey2_game_code P m,
    initKey2_key2_seed P m,
    initKey2_chipid P m,
    initKey2_key1_romcnt P m,
    fun _ _ _ _ => by rw [sendCommand_state, writeResp_hdr_key1_romcnt],
    fun _ _ _ _ => by rw [sendCommand_state, writeResp_hdr_key2_romcnt],
    fun _ _ _ _ => by rw [sendCommand_state, writeResp_game_code],
    fun _ _ _ _ => by rw [sendCommand_state, writeResp_key2_seed],
    fun _ _ _ => rfl,
    fun _ _ _ => rfl,
    fun _ _ _ => rfl,
    fun _ _ _ => rfl⟩

/-! ## C16 -/

theorem initKey2_setup_key2_romcnt {W : Type} (P : Platform W) (m : Machine W) :
    (initKey2_setup P m).state.key2_romcnt =
      m.state.hdr_key2_romcnt &&&
        (ROMCNT_CLK_SLOW ||| ROMCNT_SEC_CMD ||| ROMCNT_DELAY2_MASK |||
          ROMCNT_SEC_EN ||| ROMCNT_SEC_DAT ||| ROMCNT_DELAY1_MASK) := by
  unfold initKey2_setup
  dsimp only
  simp only [key1_cmd_eq, key1_cmdf_null_state]

theorem initKey2_setup_trace {W : Type} (P : Platform W) (m : Machine W)
    (hS : m.state.status = Status.KEY1) :
    ∃ r0 o0, (initKey2_setup P m).trace = m.trace ++
      [Call.sendCommand
        (bytesLE64 (key1_wire P m.state.key1_ps CMD_KEY1_ACTIVATE_KEY2 m.state.key1_l
          m.state.key1_ij m.state.key1_k))
        0 RespPtr.null m.state.key1_romcnt r0 o0] := by
  have hne : (m.state.status = Status.KEY2) = False := by
    rw [hS]
    exact eq_false (by decide)
  have h0 : 0 % 2 ^ 16 = 0 := by decide
  have ht : (initKey2_setup P m).trace = (initKey2_setup P m).trace := rfl
  conv at ht =>
    rhs
    unfold initKey2_setup
    dsimp only
    simp only [key1_cmd_eq, key1_cmdf_trace, hne, if_false, h0]
  exact ⟨_, _, ht⟩

/-- The two commands of an `initKey2` that passes its guards. -/
theorem initKey2_pass_trace {W : Type} (P : Platform W) (m : Machine W)
    (hH : P.HAS_HW_KEY2 = true) (hS : m.state.status = Status.KEY1) :
    ∃ r0 o0 r1 o1, (initKey2 P m).machine.trace = m.trace ++
      [Call.sendCommand
        (bytesLE64 (key1_wire P m.state.key1_ps CMD_KEY1_ACTIVATE_KEY2 m.state.key1_l
          m.state.key1_ij m.state.key1_k))
        0 RespPtr.null m.state.key1_romcnt r0 o0,
       Call.sendCommand (bytesLE64 CMD_KEY2_CHIPID) 4 RespPtr.key2_chipid
        (m.state.hdr_key2_romcnt &&&
          (ROMCNT_CLK_SLOW ||| ROMCNT_SEC_CMD ||| ROMCNT_DELAY2_MASK |||
            ROMCNT_SEC_EN ||| ROMCNT_SEC_DAT ||| ROMCNT_DELAY1_MASK)) r1 o1] := by
  obtain ⟨r0, o0, htr⟩ := initKey2_setup_trace P m hS
  have hne : (m.state.status = Status.KEY2) = False := by
    rw [hS]
    exact eq_false (by decide)
  have ht : (initKey2 P m).machine.trace = (initKey2 P m).machine.trace := rfl
  conv at ht =>
    rhs
    rw [initKey2_pass P m hH hS, initKey2_finish_trace, sendCommand64_eq, sendCommand_trace, htr]
    simp only [initKey2_setup_key2_romcnt, initKey2_setup_status, hne, if_false,
      List.append_assoc, List.cons_append, List.nil_append]
  exact ⟨r0, o0, _, _, ht⟩

theorem initKey2_pass_key2_romcnt {W : Type} (P : Platform W) (m : Machine W)
    (hH : P.HAS_HW_KEY2 = true) (hS : m.state.status = Status.KEY1) :
    (initKey2 P m).machine.state.key2_romcnt =
      m.state.hdr_key2_romcnt &&&
        (ROMCNT_CLK_SLOW ||| ROMCNT_SEC_CMD ||| ROMCNT_DELAY2_MASK |||
          ROMCNT_SEC_EN ||| ROMCNT_SEC_DAT ||| ROMCNT_DELAY1_MASK) := by
  rw [initKey2_pass P m hH hS, initKey2_finish_key2_romcnt, sendCommand64_eq, sendCommand_state,
    writeResp_key2_romcnt, initKey2_setup_key2_romcnt]

theorem testBit_key2_mask (x : Nat) :
    Nat.testBit (x &&& 0x087F7FFF) 22 = Nat.testBit x 22 ∧
    Nat.testBit (x &&& 0x087F7FFF) 14 = Nat.testBit x 14 ∧
    Nat.testBit (x &&& 0x087F7FFF) 13 = Nat.testBit x 13 := by
  have h22 : Nat.testBit 0x087F7FFF 22 = true := by decide
  have h14 : Nat.testBit 0x087F7FFF 14 = true := by decide
  have h13 : Nat.testBit 0x087F7FFF 13 = true := by decide
  rw [Nat.testBit_and, Nat.testBit_and, Nat.testBit_and, h22, h14, h13]
  simp

/-- C16: in `initKey2` past its guards, for every platform and state, the last platform
call is the key2-chipid command (word 0xB8, 4-byte response into `key2_chipid`), sent
while the status is still KEY1, so the generic send path forces nothing: its flags are
the KEY2 working register itself, `hdr_key2_romcnt & 0x087F7FFF`, where 0x087F7FFF is
`CLK_SLOW | SEC_CMD | DELAY2_MASK | SEC_EN | SEC_DAT | DELAY1_MASK`.  Bits 22, 14 and 13
of the flags are those of the header, set only when the header has them set; the
register `key2_romcnt` ends as the same masked value. -/
theorem C16_key2_chipid_flags {W : Type} (P : Platform W) (m : Machine W)
    (hH : P.HAS_HW_KEY2 = true) (hS : m.state.status = Status.KEY1) :
    CMD_KEY2_CHIPID = 0xB8 ∧
    ROMCNT_CLK_SLOW ||| ROMCNT_SEC_CMD ||| ROMCNT_DELAY2_MASK |||
      ROMCNT_SEC_EN ||| ROMCNT_SEC_DAT ||| ROMCNT_DELAY1_MASK = 0x087F7FFF ∧
    (∃ before response ok,
      (initKey2 P m).machine.trace =
        before ++ [Call.sendCommand (bytesLE64 0xB8) 4 RespPtr.key2_chipid
          (m.state.hdr_key2_romcnt &&& 0x087F7FFF) response ok]) ∧
    (initKey2 P m).machine.state.key2_romcnt = m.state.hdr_key2_romcnt &&& 0x087F7FFF ∧
    Nat.testBit (m.state.hdr_key2_romcnt &&& 0x087F7FFF) 22 =
      Nat.testBit m.state.hdr_key2_romcnt 22 ∧
    Nat.testBit (m.state.hdr_key2_romcnt &&& 0x087F7FFF) 14 =
      Nat.testBit m.state.hdr_key2_romcnt 14 ∧
    Nat.testBit (m.state.hdr_key2_romcnt &&& 0x087F7FFF) 13 =
      Nat.testBit m.state.hdr_key2_romcnt 13 := by
  have hmask : ROMCNT_CLK_SLOW ||| ROMCNT_SEC_CMD ||| ROMCNT_DELAY2_MASK |||
      ROMCNT_SEC_EN ||| ROMCNT_SEC_DAT ||| ROMCNT_DELAY1_MASK = 0x087F7FFF := by decide
  have hcmd : CMD_KEY2_CHIPID = 0xB8 := rfl
  obtain ⟨r0, o0, r1, o1, htr⟩ := initKey2_pass_trace P m hH hS
  have hreg := initKey2_pass_key2_romcnt P m hH hS
  rw [hmask] at htr hreg
  rw [hcmd] at htr
  exact ⟨hcmd, hmask, ⟨m.trace ++ [_], r1, o1, by
    rw [htr, List.append_assoc]
    rfl⟩, hreg, testBit_key2_mask _⟩

/-- C16 witness: the simulated platform in status KEY1, with a zero header. -/
theorem C16_key2_chipid_flags_witness :
    (simPlatform true true 0 (fun _ => 0)).HAS_HW_KEY2 = true ∧
    (simMachine Status.KEY1).state.status = Status.KEY1 ∧
    (initKey2 (simPlatform true true 0 (fun _ => 0))
      (simMachine Status.KEY1)).machine.state.key2_romcnt = 0 := by
  obtain ⟨_, _, _, hreg, _⟩ :=
    C16_key2_chipid_flags (simPlatform true true 0 (fun _ => 0)) (simMachine Status.KEY1)
      rfl rfl
  exact ⟨rfl, rfl, hreg.trans (by decide)⟩

/-- C16 counterexample: on the simulated platform in status KEY1 with
`hdr_key2_romcnt = 0`, `initKey2` is past its guards and sends two commands, both with
flags 0: the key2-chipid command (the second and last call: word 0xB8, 4-byte response
into `key2_chipid`) reaches the platform with bit 22 and bits 13-14 clear, not forced. -/
theorem C16_not_forced_counterexample :
    (simPlatform true true 0 (fun _ => 0)).HAS_HW_KEY2 = true ∧
    (simMachine Status.KEY1).state.status = Status.KEY1 ∧
    (simMachine Status.KEY1).state.hdr_key2_romcnt = 0 ∧
    sentFlags (initKey2 (simPlatform true true 0 (fun _ => 0))
      (simMachine Status.KEY1)).machine.trace = [0, 0] ∧
    (initKey2 (simPlatform true true 0 (fun _ => 0))
      (simMachine Status.KEY1)).machine.trace.getLast? =
      some (Call.sendCommand (bytesLE64 0xB8) 4 RespPtr.key2_chipid 0 [0, 0, 0, 0] true) ∧
    Nat.testBit 0 22 = false ∧ Nat.testBit 0 14 = false ∧ Nat.testBit 0 13 = false := by
  refine ⟨rfl, rfl, rfl, ?_, ?_, rfl, rfl, rfl⟩
  · decide
  · decide

/-! ## C19 -/

theorem BSWAP64_eq (x : Nat) :
    BSWAP64 x =
      x / 2 ^ 56 % 256 + x / 2 ^ 48 % 256 * 2 ^ 8 + x / 2 ^ 40 % 256 * 2 ^ 16 +
        x / 2 ^ 32 % 256 * 2 ^ 24 + x / 2 ^ 24 % 256 * 2 ^ 32 + x / 2 ^ 16 % 256 * 2 ^ 40 +
        x / 2 ^ 8 % 256 * 2 ^ 48 + x % 256 * 2 ^ 56 := by
  have b : ∀ s, (x >>> s) &&& 0xFF = x / 2 ^ s % 256 := by
    intro s
    rw [Nat.shiftRight_eq_div_pow]
    exact Nat.and_pow_two_sub_one_eq_mod _ 8
  have b0 : x &&& 0xFF = x % 256 := Nat.and_pow_two_sub_one_eq_mod _ 8
  unfold BSWAP64
  rw [b 56, b 48, b 40, b 32, b 24, b 16, b 8, b0]
  simp only [Nat.shiftLeft_eq]
  rw [lor_eq_add _ _ 8 (by omega), lor_eq_add _ _ 16 (by omega), lor_eq_add _ _ 24 (by omega),
    lor_eq_add _ _ 32 (by omega), lor_eq_add _ _ 40 (by omega), lor_eq_add _ _ 48 (by omega),
    lor_eq_add _ _ 56 (by omega)]

theorem bytes_sum (x : Nat) :
    x % 2 ^ 64 =
      x % 256 + x / 2 ^ 8 % 256 * 2 ^ 8 + x / 2 ^ 16 % 256 * 2 ^ 16 + x / 2 ^ 24 % 256 * 2 ^ 24 +
        x / 2 ^ 32 % 256 * 2 ^ 32 + x / 2 ^ 40 % 256 * 2 ^ 40 + x / 2 ^ 48 % 256 * 2 ^ 48 +
        x / 2 ^ 56 % 256 * 2 ^ 56 := by
  omega

theorem bytes8 (y b0 b1 b2 b3 b4 b5 b6 b7 : Nat)
    (h0 : b0 < 256) (h1 : b1 < 256) (h2 : b2 < 256) (h3 : b3 < 256) (h4 : b4 < 256)
    (h5 : b5 < 256) (h6 : b6 < 256) (h7 : b7 < 256)
    (h : y = b0 + b1 * 2 ^ 8 + b2 * 2 ^ 16 + b3 * 2 ^ 24 + b4 * 2 ^ 32 + b5 * 2 ^ 40 +
      b6 * 2 ^ 48 + b7 * 2 ^ 56) :
    y < 2 ^ 64 ∧ y % 256 = b0 ∧ y / 2 ^ 8 % 256 = b1 ∧ y / 2 ^ 16 % 256 = b2 ∧
    y / 2 ^ 24 % 256 = b3 ∧ y / 2 ^ 32 % 256 = b4 ∧ y / 2 ^ 40 % 256 = b5 ∧
    y / 2 ^ 48 % 256 = b6 ∧ y / 2 ^ 56 % 256 = b7 := by
  subst h
  refine ⟨?_, ?_, ?_, ?_, ?_, ?_, ?_, ?_, ?_⟩ <;> omega

theorem BSWAP64_BSWAP64 (x : Nat) : BSWAP64 (BSWAP64 x) = x % 2 ^ 64 := by
  obtain ⟨_, c0, c1, c2, c3, c4, c5, c6, c7⟩ := bytes8 (BSWAP64 x) _ _ _ _ _ _ _ _
    (Nat.mod_lt _ (by decide)) (Nat.mod_lt _ (by decide)) (Nat.mod_lt _ (by decide))
    (Nat.mod_lt _ (by decide)) (Nat.mod_lt _ (by decide)) (Nat.mod_lt _ (by decide))
    (Nat.mod_lt _ (by decide)) (Nat.mod_lt _ (by decide)) (BSWAP64_eq x)
  rw [BSWAP64_eq (BSWAP64 x), c0, c1, c2, c3, c4, c5, c6, c7, bytes_sum x]

/-- The eleven fields of the plaintext word, read back from it. -/
theorem key1_plain_fields (c a ij k : Nat) :
    key1_plain c a ij k < 18446744073709551616 ∧
    key1_plain c a ij k / 1 % 256 / 16 % 16 = c % 16 ∧
    key1_plain c a ij k / 1 % 256 / 1 % 16 = a / 4096 % 16 ∧
    key1_plain c a ij k / 256 % 256 = a / 16 % 256 ∧
    key1_plain c a ij k / 65536 % 256 / 16 % 16 = a % 16 ∧
    key1_plain c a ij k / 65536 % 256 / 1 % 16 = ij / 1048576 % 16 ∧
    key1_plain c a ij k / 16777216 % 256 = ij / 4096 % 256 ∧
    key1_plain c a ij k / 4294967296 % 256 = ij / 16 % 256 ∧
    key1_plain c a ij k / 1099511627776 % 256 / 16 % 16 = ij % 16 ∧
    key1_plain c a ij k / 1099511627776 % 256 / 1 % 16 = k / 65536 % 16 ∧
    key1_plain c a ij k / 281474976710656 % 256 = k / 256 % 256 ∧
    key1_plain c a ij k / 72057594037927936 % 256 = k % 256 := by
  have h := key1_plain_eq c a ij k
  norm_num only at h
  exact fields_bytes (key1_plain c a ij k) _ _ _ _ _ _ _ _ _ _ _
    (Nat.mod_lt _ (by decide)) (Nat.mod_lt _ (by decide)) (Nat.mod_lt _ (by decide))
    (Nat.mod_lt _ (by decide)) (Nat.mod_lt _ (by decide)) (Nat.mod_lt _ (by decide))
    (Nat.mod_lt _ (by decide)) (Nat.mod_lt _ (by decide)) (Nat.mod_lt _ (by decide))
    (Nat.mod_lt _ (by decide)) (Nat.mod_lt _ (by decide)) h

theorem key1_plain_lt (c a ij k : Nat) : key1_plain c a ij k < 2 ^ 64 :=
  (key1_plain_fields c a ij k).1

/-- Where the read of `cmd` sees the word stored before the call, the word on the wire is
the plaintext word. -/
theorem key1_wire_stale {W : Type} (P : Platform W) (ps : List Nat) (c a ij k : Nat)
    (hstale : P.cmdAfterEncrypt ps (BSWAP64 (key1_plain c a ij k)) =
      BSWAP64 (key1_plain c a ij k)) :
    key1_wire P ps c a ij k = key1_plain c a ij k := by
  unfold key1_wire
  dsimp only
  rw [hstale, BSWAP64_BSWAP64, Nat.mod_eq_of_lt (key1_plain_lt c a ij k)]

theorem rd_replicate_zero (n i : Nat) : rd (List.replicate n 0) i = 0 := by
  unfold rd
  by_cases h : i < (List.replicate n 0).length
  · rw [List.getD_eq_getElem _ _ h, List.getElem_replicate]
  · rw [List.getD_eq_default _ _ (by omega)]

theorem blowfish_round_zero (n i : Nat) (xy : Nat × Nat) :
    blowfish_round (List.replicate n 0) i xy = (xy.2, xy.1) := by
  unfold blowfish_round blowfish_f
  simp only [rd_replicate_zero]
  simp

theorem forUp_round_zero (n : Nat) :
    ∀ (j lo : Nat) (s : Nat × Nat),
      forUp (blowfish_round (List.replicate n 0)) (2 * j) lo s = s := by
  intro j
  induction j with
  | zero =>
    intro lo s
    rfl
  | succ j ih =>
    intro lo s
    show forUp (blowfish_round (List.replicate n 0)) (2 * j + 1 + 1) lo s = s
    show forUp (blowfish_round (List.replicate n 0)) (2 * j) (lo + 1 + 1)
      (blowfish_round (List.replicate n 0) (lo + 1)
        (blowfish_round (List.replicate n 0) lo s)) = s
    rw [ih, blowfish_round_zero, blowfish_round_zero]

/-- On an all-zero table `blowfish_encrypt` swaps the two words of the block. -/
theorem blowfish_encrypt_zero (n : Nat) (lr : Nat × Nat) :
    blowfish_encrypt (List.replicate n 0) lr = (lr.2, lr.1) := by
  unfold blowfish_encrypt
  have h := forUp_round_zero n 8 0 (lr.2, lr.1)
  have h16 : (0x10 : Nat) = 2 * 8 := rfl
  rw [h16, h, rd_replicate_zero, rd_replicate_zero]
  simp

/-- The encrypted word for the init-secondary-cipher command of the handshake, on the
all-zero table. -/
theorem encrypted_word_zero_table :
    BSWAP64 (encrypt_in_place (List.replicate BLOWFISH_PS_N 0)
      (BSWAP64 (key1_plain CMD_KEY1_INIT_KEY2 0 0xC99ACE 0x39D46))) = 0x990C0040469DE3AC := by
  unfold encrypt_in_place
  dsimp only
  rw [blowfish_encrypt_zero]
  decide

/-- The wire word on a build where the read of `cmd` after the in-place encryption sees
the word stored before the call: for the init-secondary-cipher command of the handshake
(`cmdarg` 4, `arg` 0, `ij` 0xC99ACE, `k` 0x39D46) on the all-zero table, `key1_cmdf` hands
the plaintext word 0x469DE3AC990C0040 to `sendCommand`, where the encrypted word is
0x990C0040469DE3AC. -/
theorem key1_cmdf_stale_build :
    key1_plain CMD_KEY1_INIT_KEY2 0 0xC99ACE 0x39D46 = 0x469DE3AC990C0040 ∧
    (key1_cmdf simPlatformStale CMD_KEY1_INIT_KEY2 0 RespPtr.null 0 0xC99ACE 0
      (simMachineOf { simStateTable with key1_k := 0x39D46 })).trace =
      [Call.sendCommand (bytesLE64 0x469DE3AC990C0040) 0 RespPtr.null 0 [] true] ∧
    BSWAP64 (encrypt_in_place (List.replicate BLOWFISH_PS_N 0)
      (BSWAP64 (key1_plain CMD_KEY1_INIT_KEY2 0 0xC99ACE 0x39D46))) = 0x990C0040469DE3AC := by
  refine ⟨by decide, ?_, encrypted_word_zero_table⟩
  decide

/-! ## C20 -/

theorem rdChecked_eq (ps : List Nat) (i : Nat) (h : i < ps.length) :
    rdChecked ps i = some (rd ps i) :=
  if_pos h

theorem wrChecked_eq (ps : List Nat) (i v : Nat) (h : i < ps.length) :
    wrChecked ps i v = some (ps.set i v) :=
  if_pos h

theorem forUpM_sim {σ : Type} (bodyM : Nat → σ → Option σ) (body : Nat → σ → σ)
    (Inv : σ → Prop) :
    ∀ (n lo : Nat),
      (∀ i s, lo ≤ i → i < lo + n → Inv s → bodyM i s = some (body i s) ∧ Inv (body i s)) →
      ∀ s, Inv s → forUpM bodyM n lo s = some (forUp body n lo s) ∧ Inv (forUp body n lo s) := by
  intro n
  induction n with
  | zero =>
    intro lo _ s hs
    exact ⟨rfl, hs⟩
  | succ n ih =>
    intro lo hbody s hs
    obtain ⟨e, hs1⟩ := hbody lo s (Nat.le_refl _) (by omega) hs
    have h := ih (lo + 1) (fun i t h1 h2 ht => hbody i t (by omega) (by omega) ht) (body lo s) hs1
    show (bodyM lo s).bind (forUpM bodyM n (lo + 1)) = some (forUp body n (lo + 1) (body lo s)) ∧
      Inv (forUp body n (lo + 1) (body lo s))
    rw [e, Option.some_bind]
    exact h

theorem forDownM_sim {σ : Type} (bodyM : Nat → σ → Option σ) (body : Nat → σ → σ) (lo : Nat) :
    ∀ (hi : Nat), (∀ i s, lo < i → i ≤ hi → bodyM i s = some (body i s)) →
      ∀ s, forDownM bodyM lo hi s = some (forDown body lo hi s) := by
  intro hi
  induction hi with
  | zero =>
    intro _ s
    rfl
  | succ hi ih =>
    intro hbody s
    by_cases h : hi + 1 > lo
    · have e := hbody (hi + 1) s h (Nat.le_refl _)
      have hr := ih (fun i t h1 h2 => hbody i t h1 (by omega)) (body (hi + 1) s)
      show (if hi + 1 > lo then (bodyM (hi + 1) s).bind (forDownM bodyM lo hi) else some s) =
        some (if hi + 1 > lo then forDown body lo hi (body (hi + 1) s) else s)
      rw [if_pos h, if_pos h, e, Option.some_bind]
      exact hr
    · show (if hi + 1 > lo then (bodyM (hi + 1) s).bind (forDownM bodyM lo hi) else some s) =
        some (if hi + 1 > lo then forDown body lo hi (body (hi + 1) s) else s)
      rw [if_neg h, if_neg h]

theorem forStep2M_sim {σ τ : Type} (bodyM : Nat → τ → Option τ) (body : Nat → σ → σ) (hi : Nat)
    (R : Nat → τ → σ → Prop)
    (hbody : ∀ i t s, i < hi → R i t s → ∃ t', bodyM i t = some t' ∧ R (i + 2) t' (body i s)) :
    ∀ (fuel i : Nat) (t : τ) (s : σ), hi ≤ i + 2 * fuel → R i t s →
      ∃ t' j, hi ≤ j ∧ forStep2M bodyM hi fuel i t = some t' ∧
        R j t' (forStep2 body hi fuel i s) := by
  intro fuel
  induction fuel with
  | zero =>
    intro i t s h hR
    refine ⟨t, i, by omega, ?_, hR⟩
    show (if i < hi then none else some t) = some t
    rw [if_neg (by omega)]
  | succ fuel ih =>
    intro i t s h hR
    by_cases hlt : i < hi
    · obtain ⟨t1, e, hR1⟩ := hbody i t s hlt hR
      obtain ⟨t2, j, hj, e2, hR2⟩ := ih (i + 2) t1 (body i s) (by omega) hR1
      refine ⟨t2, j, hj, ?_, ?_⟩
      · show (if i < hi then (bodyM i t).bind (forStep2M bodyM hi fuel (i + 2)) else some t) =
          some t2
        rw [if_pos hlt, e, Option.some_bind]
        exact e2
      · show R j t2 (if i < hi then forStep2 body hi fuel (i + 2) (body i s) else s)
        rw [if_pos hlt]
        exact hR2
    · refine ⟨t, i, by omega, ?_, ?_⟩
      · show (if i < hi then (bodyM i t).bind (forStep2M bodyM hi fuel (i + 2)) else some t) =
          some t
        rw [if_neg hlt]
      · show R i t (if i < hi then forStep2 body hi fuel (i + 2) (body i s) else s)
        rw [if_neg hlt]
        exact hR

theorem byte_index_lt (base x : Nat) (hb : base + 0xFF < BLOWFISH_PS_N) :
    base + (x &&& 0xFF) < BLOWFISH_PS_N := by
  have h : x &&& 0xFF ≤ 0xFF := Nat.and_le_right
  omega

theorem blowfish_f_checked_eq (ps : List Nat) (h : ps.length = BLOWFISH_PS_N) (z : Nat) :
    blowfish_f_checked ps z = some (blowfish_f ps z) := by
  unfold blowfish_f_checked blowfish_f
  rw [rdChecked_eq ps _ (by rw [h]; exact byte_index_lt _ _ (by decide)), Option.some_bind,
    rdChecked_eq ps _ (by rw [h]; exact byte_index_lt _ _ (by decide)), Option.some_bind,
    rdChecked_eq ps _ (by rw [h]; exact byte_index_lt _ _ (by decide)), Option.some_bind,
    rdChecked_eq ps _ (by rw [h]; exact byte_index_lt _ _ (by decide)), Option.some_bind]

theorem blowfish_round_checked_eq (ps : List Nat) (h : ps.length = BLOWFISH_PS_N) (i : Nat)
    (hi : i < BLOWFISH_P_N) (xy : Nat × Nat) :
    blowfish_round_checked ps i xy = some (blowfish_round ps i xy) := by
  have hlt : i < ps.length := by
    rw [h]
    exact lt_trans hi (by decide)
  unfold blowfish_round_checked blowfish_round
  rw [rdChecked_eq ps i hlt, Option.some_bind, blowfish_f_checked_eq ps h, Option.some_bind]

theorem blowfish_encrypt_checked_eq (ps : List Nat) (h : ps.length = BLOWFISH_PS_N)
    (lr : Nat × Nat) :
    blowfish_encrypt_checked ps lr = some (blowfish_encrypt ps lr) := by
  have hloop := (forUpM_sim (blowfish_round_checked ps) (blowfish_round ps) (fun _ => True)
    0x10 0
    (fun i s _ h2 _ => ⟨blowfish_round_checked_eq ps h i
      (lt_trans (by omega : i < 0x10) (by decide)) s, trivial⟩)
    (lr.2, lr.1) trivial).1
  unfold blowfish_encrypt_checked blowfish_encrypt
  rw [hloop, Option.some_bind, rdChecked_eq ps 0x10 (by rw [h]; decide), Option.some_bind,
    rdChecked_eq ps 0x11 (by rw [h]; decide), Option.some_bind]

theorem blowfish_decrypt_checked_eq (ps : List Nat) (h : ps.length = BLOWFISH_PS_N)
    (lr : Nat × Nat) :
    blowfish_decrypt_checked ps lr = some (blowfish_decrypt ps lr) := by
  have hloop := forDownM_sim (blowfish_round_checked ps) (blowfish_round ps) 1 0x11
    (fun i s _ h2 => blowfish_round_checked_eq ps h i
      (lt_of_le_of_lt h2 (by decide)) s)
    (lr.2, lr.1)
  unfold blowfish_decrypt_checked blowfish_decrypt
  rw [hloop, Option.some_bind, rdChecked_eq ps 1 (by rw [h]; decide), Option.some_bind,
    rdChecked_eq ps 0 (by rw [h]; decide), Option.some_bind]

theorem xor_pass_checked (ps key : List Nat) (h : ps.length = BLOWFISH_PS_N) :
    forUpM (fun i ps => (rdChecked ps i).bind fun v =>
        wrChecked ps i (v ^^^ BSWAP32 (rd key (i % 2)))) BLOWFISH_P_N 0 ps =
      some (forUp (fun i ps => ps.set i (rd ps i ^^^ BSWAP32 (rd key (i % 2))))
        BLOWFISH_P_N 0 ps) ∧
    (forUp (fun i ps => ps.set i (rd ps i ^^^ BSWAP32 (rd key (i % 2))))
      BLOWFISH_P_N 0 ps).length = BLOWFISH_PS_N := by
  refine forUpM_sim _ _ (fun ps => ps.length = BLOWFISH_PS_N) BLOWFISH_P_N 0 ?_ ps h
  intro i s _ h2 hs
  have hlt : i < s.length := by
    rw [hs]
    exact lt_trans (by omega : i < BLOWFISH_P_N) (by decide)
  refine ⟨?_, ?_⟩
  · show (rdChecked s i).bind (fun v => wrChecked s i (v ^^^ BSWAP32 (rd key (i % 2)))) =
      some (s.set i (rd s i ^^^ BSWAP32 (rd key (i % 2))))
    rw [rdChecked_eq s i hlt, Option.some_bind, wrChecked_eq s i _ hlt]
  · show (s.set i (rd s i ^^^ BSWAP32 (rd key (i % 2)))).length = BLOWFISH_PS_N
    rw [List.length_set]
    exact hs

theorem pair_walk_checked (ps : List Nat) (h : ps.length = BLOWFISH_PS_N) (scratch : Nat × Nat) :
    forStep2M
      (fun i (st : List Nat × (Nat × Nat) × List Nat) =>
        (blowfish_encrypt_checked st.1 st.2.1).bind fun scratch =>
        (wrChecked st.1 i scratch.2).bind fun ps1 =>
        (wrChecked ps1 (i + 1) scratch.1).bind fun ps2 =>
        some (ps2, scratch, st.2.2 ++ [i, i + 1]))
      BLOWFISH_PS_N BLOWFISH_PS_N 0 (ps, scratch, []) =
    some ((forStep2
        (fun i (st : List Nat × (Nat × Nat)) =>
          ((st.1.set i (blowfish_encrypt st.1 st.2).2).set (i + 1)
            (blowfish_encrypt st.1 st.2).1, blowfish_encrypt st.1 st.2))
        BLOWFISH_PS_N BLOWFISH_PS_N 0 (ps, scratch)).1,
      (forStep2
        (fun i (st : List Nat × (Nat × Nat)) =>
          ((st.1.set i (blowfish_encrypt st.1 st.2).2).set (i + 1)
            (blowfish_encrypt st.1 st.2).1, blowfish_encrypt st.1 st.2))
        BLOWFISH_PS_N BLOWFISH_PS_N 0 (ps, scratch)).2,
      List.range BLOWFISH_PS_N) ∧
    (forStep2
      (fun i (st : List Nat × (Nat × Nat)) =>
        ((st.1.set i (blowfish_encrypt st.1 st.2).2).set (i + 1)
          (blowfish_encrypt st.1 st.2).1, blowfish_encrypt st.1 st.2))
      BLOWFISH_PS_N BLOWFISH_PS_N 0 (ps, scratch)).1.length = BLOWFISH_PS_N := by
  have hN : BLOWFISH_PS_N = 1042 := rfl
  obtain ⟨t', j, hj, e, hR⟩ := forStep2M_sim
    (fun i (st : List Nat × (Nat × Nat) × List Nat) =>
      (blowfish_encrypt_checked st.1 st.2.1).bind fun scratch =>
      (wrChecked st.1 i scratch.2).bind fun ps1 =>
      (wrChecked ps1 (i + 1) scratch.1).bind fun ps2 =>
      some (ps2, scratch, st.2.2 ++ [i, i + 1]))
    (fun i (st : List Nat × (Nat × Nat)) =>
      ((st.1.set i (blowfish_encrypt st.1 st.2).2).set (i + 1)
        (blowfish_encrypt st.1 st.2).1, blowfish_encrypt st.1 st.2))
    BLOWFISH_PS_N
    (fun i t s => t.1 = s.1 ∧ t.2.1 = s.2 ∧ t.2.2 = List.range i ∧
      s.1.length = BLOWFISH_PS_N ∧ i % 2 = 0 ∧ i ≤ BLOWFISH_PS_N)
    (by
      intro i t s hlt hR
      obtain ⟨tp, tsc, tlog⟩ := t
      obtain ⟨sp, ssc⟩ := s
      obtain ⟨h1, h2, h3, h4, h5, h6⟩ := hR
      dsimp only at h1 h2 h3 h4
      subst h1 h2 h3
      have hi1 : i < tp.length := by
        rw [h4]
        exact hlt
      have hi2 : i + 1 < (tp.set i (blowfish_encrypt tp tsc).2).length := by
        rw [List.length_set, h4]
        omega
      refine ⟨((tp.set i (blowfish_encrypt tp tsc).2).set (i + 1) (blowfish_encrypt tp tsc).1,
        blowfish_encrypt tp tsc, List.range i ++ [i, i + 1]), ?_, rfl, rfl, ?_, ?_, ?_, ?_⟩
      · dsimp only
        rw [blowfish_encrypt_checked_eq tp h4, Option.some_bind, wrChecked_eq _ _ _ hi1,
          Option.some_bind, wrChecked_eq _ _ _ hi2, Option.some_bind]
      · show List.range i ++ [i, i + 1] = List.range (i + 2)
        rw [List.range_succ, List.range_succ, List.append_assoc]
        rfl
      · show ((tp.set i (blowfish_encrypt tp tsc).2).set (i + 1)
          (blowfish_encrypt tp tsc).1).length = BLOWFISH_PS_N
        rw [List.length_set, List.length_set]
        exact h4
      · omega
      · omega)
    BLOWFISH_PS_N 0 (ps, scratch, []) (ps, scratch) (by omega)
    ⟨rfl, rfl, rfl, h, rfl, Nat.zero_le _⟩
  obtain ⟨h1, h2, h3, h4, _, h6⟩ := hR
  have hjN : j = BLOWFISH_PS_N := Nat.le_antisymm h6 hj
  obtain ⟨tp, tsc, tlog⟩ := t'
  dsimp only at h1 h2 h3
  rw [hjN] at h3
  refine ⟨?_, h4⟩
  rw [e, h1, h2, h3]

theorem blowfish_apply_key_checked_eq (ps key : List Nat) (h : ps.length = BLOWFISH_PS_N) :
    blowfish_apply_key_checked ps key =
      some ((blowfish_apply_key ps key).1, (blowfish_apply_key ps key).2,
        List.range BLOWFISH_PS_N) ∧
    (blowfish_apply_key ps key).1.length = BLOWFISH_PS_N := by
  unfold blowfish_apply_key_checked blowfish_apply_key
  dsimp only
  rw [blowfish_encrypt_checked_eq ps h, Option.some_bind, blowfish_encrypt_checked_eq ps h,
    Option.some_bind]
  obtain ⟨e1, hl1⟩ := xor_pass_checked ps
    ((((key.set 1 (blowfish_encrypt ps (rd key 1, rd key 2)).1).set 2
      (blowfish_encrypt ps (rd key 1, rd key 2)).2).set 0
      (blowfish_encrypt ps
        (rd ((key.set 1 (blowfish_encrypt ps (rd key 1, rd key 2)).1).set 2
          (blowfish_encrypt ps (rd key 1, rd key 2)).2) 0,
         rd ((key.set 1 (blowfish_encrypt ps (rd key 1, rd key 2)).1).set 2
          (blowfish_encrypt ps (rd key 1, rd key 2)).2) 1)).1).set 1
      (blowfish_encrypt ps
        (rd ((key.set 1 (blowfish_encrypt ps (rd key 1, rd key 2)).1).set 2
          (blowfish_encrypt ps (rd key 1, rd key 2)).2) 0,
         rd ((key.set 1 (blowfish_encrypt ps (rd key 1, rd key 2)).1).set 2
          (blowfish_encrypt ps (rd key 1, rd key 2)).2) 1)).2) h
  rw [e1, Option.some_bind]
  obtain ⟨e2, hl2⟩ := pair_walk_checked _ hl1 (0, 0)
  rw [e2, Option.some_bind]
  clear e1 e2 hl1
  dsimp only
  exact ⟨rfl, hl2⟩

theorem range_count (n i : Nat) (h : i < n) : (List.range n).count i = 1 :=
  List.count_eq_one_of_mem (List.nodup_range n) (List.mem_range.mpr h)

/-- The checks are real: on a table that holds the 18 entries of the P array only, the
first substitution read of the first round, `ps[0x012 + 0]`, fails. -/
theorem blowfish_encrypt_checked_short :
    blowfish_encrypt_checked (List.replicate BLOWFISH_P_N 0) (0, 0) = none := by
  decide

/-- C20: with a table of `BLOWFISH_PS_N` = 18 + 4*256 = 1042 entries, for every block, key
and table contents, `blowfish_encrypt`, `blowfish_decrypt` and `blowfish_apply_key` with
every table read and write bounds-checked never fail and return what the unchecked
functions return: every index they touch is below 1042 (the largest one read,
0x312 + 0xFF, is the last entry).  The pair walk of `blowfish_apply_key` ends within its
1042 units of fuel, and the indices it writes are 0, 1, ..., 1041 in this order, each
exactly once; the table keeps its 1042 entries. -/
theorem C20_table_index_safety (ps key : List Nat) (lr : Nat × Nat)
    (hlen : ps.length = BLOWFISH_PS_N) :
    BLOWFISH_PS_N = 1042 ∧
    0x312 + 0xFF + 1 = BLOWFISH_PS_N ∧
    blowfish_encrypt_checked ps lr = some (blowfish_encrypt ps lr) ∧
    blowfish_decrypt_checked ps lr = some (blowfish_decrypt ps lr) ∧
    (∃ writes,
      blowfish_apply_key_checked ps key =
        some ((blowfish_apply_key ps key).1, (blowfish_apply_key ps key).2, writes) ∧
      writes = List.range BLOWFISH_PS_N ∧
      writes.length = BLOWFISH_PS_N ∧
      ∀ i, i < BLOWFISH_PS_N → writes.count i = 1) ∧
    (blowfish_apply_key ps key).1.length = BLOWFISH_PS_N :=
  ⟨rfl, rfl, blowfish_encrypt_checked_eq ps hlen lr, blowfish_decrypt_checked_eq ps hlen lr,
    ⟨List.range BLOWFISH_PS_N, (blowfish_apply_key_checked_eq ps key hlen).1, rfl,
      List.length_range _, fun i hi => range_count _ i hi⟩,
    (blowfish_apply_key_checked_eq ps key hlen).2⟩

/-- C20 witness: the all-zero table of `BLOWFISH_PS_N` entries. -/
theorem C20_table_index_safety_witness :
    (List.replicate BLOWFISH_PS_N 0).length = BLOWFISH_PS_N ∧
    blowfish_encrypt_checked (List.replicate BLOWFISH_PS_N 0) (0, 0xFF) =
      some (blowfish_encrypt (List.replicate BLOWFISH_PS_N 0) (0, 0xFF)) :=
  ⟨List.length_replicate _ _,
    (C20_table_index_safety (List.replicate BLOWFISH_PS_N 0) [0, 0, 0] (0, 0xFF)
      (List.length_replicate _ _)).2.2.1⟩

end flashcart_core
